import Mathlib

/-!
# Verification of the `treers` ordered-map library

Shallow embedding of the three data structures of the repository
(`src/bst.rs`, `src/rbtree.rs`, `src/btree.rs`) and of the shared
traversal engine (`src/lib.rs`), with keys and values specialised to
`Nat` (the source is generic over any totally ordered key type; `Nat`
is a faithful instance of that order).

Rust `panic!` / `unwrap` failures are modelled by `Option`: a function
that can abort returns `none` exactly where the original panics.
-/

namespace Treers

/-- The four traversal orders of `Traversals` in `src/lib.rs`. -/
inductive Traversals where
  | preOrder
  | inOrder
  | postOrder
  | levelOrder
deriving DecidableEq, Repr

/-! ## Unbalanced binary search tree, `src/bst.rs` -/

/-- `enum BST<K, V> { Node { k, v, size, left, right }, NIL }`. -/
inductive BST where
  | node (k : Nat) (v : Nat) (size : Nat) (left : BST) (right : BST)
  | nil
deriving DecidableEq, Repr

namespace BST

/-- `BST::new`. -/
def new : BST := .nil

/-- `BST::size`: reads the cached `size` field of the root. -/
def size : BST → Nat
  | .node _ _ s _ _ => s
  | .nil => 0

/-- `BST::get`: recursive descent by key comparison. -/
def get : BST → Nat → Option Nat
  | .node k v _ left right, key =>
    if key < k then left.get key
    else if k < key then right.get key
    else some v
  | .nil, _ => none

/-- `BST::put`: descend by comparison (equal key is a no-op), create a
leaf of size 1 at a `NIL` slot, and recompute the cached size as
`1 + left.size() + right.size()` on the way back up. -/
def put : BST → Nat → Nat → BST
  | .node k v _ left right, key, value =>
    if key < k then
      let left := left.put key value
      .node k v (1 + left.size + right.size) left right
    else if k < key then
      let right := right.put key value
      .node k v (1 + left.size + right.size) left right
    else
      .node k v (1 + left.size + right.size) left right
  | .nil, key, value => .node key value 1 .nil .nil

/-- `BST::get_height`: `1 + max` over children, `0` for `NIL`. -/
def get_height : BST → Nat
  | .node _ _ _ left right => 1 + max left.get_height right.get_height
  | .nil => 0

/-- `BST::height`: `Some (get_height - 1)` when positive, else `None`. -/
def height (t : BST) : Option Nat :=
  let h := t.get_height
  if 0 < h then some (h - 1) else none

/-- `BST::is_empty`. -/
def is_empty : BST → Bool
  | .node _ _ _ _ _ => false
  | .nil => true

/-- `BST::min`: leftmost populated key. -/
def min : BST → Option Nat
  | .node k _ _ left _ =>
    match left.min with
    | some l => some l
    | none => some k
  | .nil => none

/-- `BST::max`: rightmost populated key. -/
def max : BST → Option Nat
  | .node k _ _ _ right =>
    match right.max with
    | some l => some l
    | none => some k
  | .nil => none

/-- `BST::pre_order`, as the list of pairs it appends to the vector. -/
def pre_order : BST → List (Nat × Nat)
  | .node k v _ left right => (k, v) :: (left.pre_order ++ right.pre_order)
  | .nil => []

/-- `BST::in_order`. -/
def in_order : BST → List (Nat × Nat)
  | .node k v _ left right => left.in_order ++ (k, v) :: right.in_order
  | .nil => []

/-- `BST::post_order`. -/
def post_order : BST → List (Nat × Nat)
  | .node k v _ left right => left.post_order ++ right.post_order ++ [(k, v)]
  | .nil => []

/-- `BST::level_order` at a given level (depth-limited visit). -/
def level_order : BST → Nat → List (Nat × Nat)
  | .node k v _ _ _, 0 => [(k, v)]
  | .node _ _ _ left right, lev + 1 => left.level_order lev ++ right.level_order lev
  | .nil, _ => []

/-- `TreeTraversal::traverse` for `BST` (`src/lib.rs`): pre/in/post
order materialise one recursive visit; level order runs
`for level in 0..=self.height().unwrap()`, so it panics (`none`) on an
empty tree where `height()` is `None`. -/
def traverse (t : BST) : Traversals → Option (List (Nat × Nat))
  | .preOrder => some t.pre_order
  | .inOrder => some t.in_order
  | .postOrder => some t.post_order
  | .levelOrder =>
    match t.height with
    | some h => some ((List.range (h + 1)).flatMap t.level_order)
    | none => none

/-- `BST::invert`: recursively swap every node's children. -/
def invert : BST → BST
  | .node k v s left right => .node k v s right.invert left.invert
  | .nil => .nil

/-- `Index<&K> for BST`: `get(index).expect(...)`, i.e. panics
(`none`) exactly when the key is absent. -/
def index (t : BST) (key : Nat) : Option Nat :=
  t.get key

end BST

/-- Left fold of `put` over a list of key-value pairs: the state
reached from `BST::new()` by that sequence of insertions. -/
def bstOfList (l : List (Nat × Nat)) : BST :=
  l.foldl (fun t kv => t.put kv.1 kv.2) BST.new

/-! ## Left-leaning red-black tree, `src/rbtree.rs` -/

/-- `enum RedBlackTree<K, V> { Node { k, v, color, size, left, right }, NIL }`;
`color = true` means the link from the parent is red. -/
inductive RBT where
  | node (k : Nat) (v : Nat) (color : Bool) (size : Nat) (left : RBT) (right : RBT)
  | nil
deriving DecidableEq, Repr

namespace RBT

/-- `RedBlackTree::new`. -/
def new : RBT := .nil

/-- `RedBlackTree::size`: cached `size` field of the root. -/
def size : RBT → Nat
  | .node _ _ _ s _ _ => s
  | .nil => 0

/-- `RedBlackTree::get`. -/
def get : RBT → Nat → Option Nat
  | .node k v _ _ left right, key =>
    if key < k then left.get key
    else if k < key then right.get key
    else some v
  | .nil, _ => none

/-- `RedBlackTree::get_key`. -/
def get_key : RBT → Option Nat
  | .node k _ _ _ _ _ => some k
  | .nil => none

/-- `RedBlackTree::get_val`. -/
def get_val : RBT → Option Nat
  | .node _ v _ _ _ _ => some v
  | .nil => none

/-- `RedBlackTree::set_color`. -/
def set_color : RBT → Bool → RBT
  | .node k v _ s l r, c => .node k v c s l r
  | .nil, _ => .nil

/-- `RedBlackTree::is_red`. -/
def is_red : RBT → Bool
  | .node _ _ c _ _ _ => c
  | .nil => false

/-- `RedBlackTree::is_left_red`. -/
def is_left_red : RBT → Bool
  | .node _ _ _ _ l _ => l.is_red
  | .nil => false

/-- `RedBlackTree::is_right_red`. -/
def is_right_red : RBT → Bool
  | .node _ _ _ _ _ r => r.is_red
  | .nil => false

/-- `RedBlackTree::get_left_clone` (cloning is identity in the pure model). -/
def get_left_clone : RBT → RBT
  | .node _ _ _ _ l _ => l
  | .nil => .nil

/-- `RedBlackTree::get_right_clone`. -/
def get_right_clone : RBT → RBT
  | .node _ _ _ _ _ r => r
  | .nil => .nil

/-- `RedBlackTree::set_vals`: overwrite all fields of a node; on `NIL`
it builds a node whose `size` field is `1` regardless of `s`. -/
def set_vals : RBT → Nat → Nat → Bool → Nat → RBT → RBT → RBT
  | .node _ _ _ _ _ _, key, val, c, s, l, r => .node key val c s l r
  | .nil, key, val, c, _, l, r => .node key val c 1 l r

/-- The mutable locals `(k, v, color, left, right)` of one frame of
`RedBlackTree::insert` during the unwind phase. -/
abbrev Frame : Type := Nat × Nat × Bool × RBT × RBT

/-- The `// Rotate Left` block of `RedBlackTree::insert`, acting on the
node's fields after the recursive descent: runs when
`right.is_red() && !left.is_red()`. -/
def rotateLeftStep : Frame → Frame
  | (k, v, color, left, right) =>
    if right.is_red && !left.is_red then
      let right_clone := right
      let right := right_clone.get_right_clone
      let right_size := right_clone.size
      let color := right_clone.is_right_red
      let left := left.set_vals k v true right_size left right_clone.get_left_clone
      let k := right_clone.get_key.getD k
      let v := right_clone.get_val.getD v
      (k, v, color, left, right)
    else (k, v, color, left, right)

/-- The `// Rotate Right` block of `RedBlackTree::insert`: runs when
`left.is_red() && left.is_left_red()`; note that `left_size` is read
from the *reassigned* left child. -/
def rotateRightStep : Frame → Frame
  | (k, v, color, left, right) =>
    if left.is_red && left.is_left_red then
      let left_clone := left
      let left := left_clone.get_left_clone
      let left_size := left.size
      let color := true
      let right := right.set_vals k v true left_size left_clone.get_right_clone right
      let k := left_clone.get_key.getD k
      let v := left_clone.get_val.getD v
      (k, v, color, left, right)
    else (k, v, color, left, right)

/-- The `// Flip colors` block of `RedBlackTree::insert`: runs when
both children are red. -/
def flipStep : Frame → Frame
  | (k, v, color, left, right) =>
    if left.is_red && right.is_red then
      (k, v, true, left.set_color false, right.set_color false)
    else (k, v, color, left, right)

/-- Rebuild the node from the final frame, recomputing the cached size
as `left.size() + right.size() + 1`. -/
def mkNode : Frame → RBT
  | (k, v, color, left, right) => .node k v color (left.size + right.size + 1) left right

/-- The whole unwind phase of `RedBlackTree::insert` on one node:
rotate left, rotate right, flip colors (in that order), then recompute
the cached size. -/
def balance (k v : Nat) (color : Bool) (left right : RBT) : RBT :=
  mkNode (flipStep (rotateRightStep (rotateLeftStep (k, v, color, left, right))))

/-- `RedBlackTree::insert`: BST descent (equal key recurses nowhere),
a new red leaf at a `NIL` slot, and the fixup blocks on the way up. -/
def insert : RBT → Nat → Nat → RBT
  | .node k v color _ left right, key, value =>
    if key < k then balance k v color (left.insert key value) right
    else if k < key then balance k v color left (right.insert key value)
    else balance k v color left right
  | .nil, key, value => .node key value true 1 .nil .nil

/-- `RedBlackTree::put`: insert, then force the root's color to black. -/
def put (t : RBT) (key value : Nat) : RBT :=
  (t.insert key value).set_color false

/-- `RedBlackTree::get_height`. -/
def get_height : RBT → Nat
  | .node _ _ _ _ left right => 1 + max left.get_height right.get_height
  | .nil => 0

/-- `RedBlackTree::height`. -/
def height (t : RBT) : Option Nat :=
  let h := t.get_height
  if 0 < h then some (h - 1) else none

/-- `RedBlackTree::is_empty`. -/
def is_empty : RBT → Bool
  | .node _ _ _ _ _ _ => false
  | .nil => true

/-- `RedBlackTree::min`. -/
def min : RBT → Option Nat
  | .node k _ _ _ left _ =>
    match left.min with
    | some l => some l
    | none => some k
  | .nil => none

/-- `RedBlackTree::max`. -/
def max : RBT → Option Nat
  | .node k _ _ _ _ right =>
    match right.max with
    | some l => some l
    | none => some k
  | .nil => none

/-- `RedBlackTree::pre_order`. -/
def pre_order : RBT → List (Nat × Nat)
  | .node k v _ _ left right => (k, v) :: (left.pre_order ++ right.pre_order)
  | .nil => []

/-- `RedBlackTree::in_order`. -/
def in_order : RBT → List (Nat × Nat)
  | .node k v _ _ left right => left.in_order ++ (k, v) :: right.in_order
  | .nil => []

/-- `RedBlackTree::post_order`. -/
def post_order : RBT → List (Nat × Nat)
  | .node k v _ _ left right => left.post_order ++ right.post_order ++ [(k, v)]
  | .nil => []

/-- `RedBlackTree::level_order`. -/
def level_order : RBT → Nat → List (Nat × Nat)
  | .node k v _ _ _ _, 0 => [(k, v)]
  | .node _ _ _ _ left right, lev + 1 => left.level_order lev ++ right.level_order lev
  | .nil, _ => []

/-- `TreeTraversal::traverse` for `RedBlackTree`; as for `BST`, level
order panics (`none`) on the empty tree via `height().unwrap()`. -/
def traverse (t : RBT) : Traversals → Option (List (Nat × Nat))
  | .preOrder => some t.pre_order
  | .inOrder => some t.in_order
  | .postOrder => some t.post_order
  | .levelOrder =>
    match t.height with
    | some h => some ((List.range (h + 1)).flatMap t.level_order)
    | none => none

end RBT

/-- The state reached from `RedBlackTree::new()` by a sequence of `put`s. -/
def rbOfList (l : List (Nat × Nat)) : RBT :=
  l.foldl (fun t kv => t.put kv.1 kv.2) RBT.new

/-- Perfect black balance, computed: the number of black links on every
root-to-null path when all such paths agree, `none` otherwise
(`nil` links count as black via the parent node's color bit). -/
def blackHeight : RBT → Option Nat
  | .nil => some 0
  | .node _ _ c _ l r =>
    match blackHeight l, blackHeight r with
    | some a, some b => if a = b then some (a + (if c then 0 else 1)) else none
    | _, _ => none

/-- `true` iff no node of the tree has two simultaneously red child links. -/
def noTwoRedChildren : RBT → Bool
  | .nil => true
  | .node _ _ _ _ l r =>
    !(l.is_red && r.is_red) && noTwoRedChildren l && noTwoRedChildren r

/-! ## Multiway balanced tree (2-3-4 style), `src/btree.rs` -/

/-- `const M: usize = 4`. -/
def M : Nat := 4

/-- `struct Entry<K, V> { key, val: Option<V>, next: Node<K, V> }` where
`Node<K, V> = Vec<Entry<K, V>>`. -/
inductive BEntry where
  | mk (key : Nat) (val : Option Nat) (next : List BEntry)

namespace BEntry

def key : BEntry → Nat
  | .mk k _ _ => k

def val : BEntry → Option Nat
  | .mk _ v _ => v

def next : BEntry → List BEntry
  | .mk _ _ n => n

end BEntry

/-- `struct BalancedTree<K, V> { root: Node<K, V>, size: usize, height: usize }`. -/
structure BTree where
  root : List BEntry
  size : Nat
  height : Nat

namespace BTree

/-- `BalancedTree::new`. -/
def new : BTree := { root := [], size := 0, height := 0 }

/-- The external-node scan of `insert`:
`while j < h.len() { if key < h[j].key { break } j += 1 }`. -/
def extPos (key : Nat) : List BEntry → Nat
  | [] => 0
  | e :: rest => if key < e.key then 0 else extPos key rest + 1

/-- The internal-node scan shared by `search` and `insert`: the first
index `j` with `j + 1 == h.len() || key < h[j+1].key`
(`none` only when the node is empty). -/
def intPos (key : Nat) : List BEntry → Option Nat
  | [] => none
  | [_] => some 0
  | _ :: e2 :: rest =>
    if key < e2.key then some 0
    else (intPos key (e2 :: rest)).map (· + 1)

/-- `fn search`: linear scan of a leaf for the first exact key match
(returning its stored `val`), or recursion into the chosen child. -/
def search (node : List BEntry) (key : Nat) : Nat → Option Nat
  | 0 => (node.find? (fun e => e.key == key)).bind BEntry.val
  | height + 1 =>
    match intPos key node with
    | some j =>
      match node[j]? with
      | some e => search e.next key height
      | none => none
    | none => none

/-- Insert an element at index `j` of a vector (the net effect of the
shift loop `while i > j { ... }` followed by `h[j] = t` / `h.push(t)`
in `fn insert`; `j` never exceeds the length in the source). -/
def insertIdx (a : BEntry) : Nat → List BEntry → List BEntry
  | 0, l => a :: l
  | _ + 1, [] => [a]
  | j + 1, x :: xs => x :: insertIdx a j xs

/-- The overflow check and split at the end of `fn insert`: when the
node has reached `M` entries, remove the entry at index `M / 2` twice
(`t.push(h.remove(M / 2))` in a loop), returning the trailing half. -/
def splitCheck (h : List BEntry) : List BEntry × Option (List BEntry) :=
  if h.length < M then (h, none)
  else
    match h with
    | a :: b :: c :: d :: rest => (a :: b :: rest, some [c, d])
    | _ => (h, none)

/-- `u[0].key` / `root[0].key` (the source indexes a vector that is
never empty at those points). -/
def firstKey : List BEntry → Nat
  | [] => 0
  | e :: _ => e.key

/-- `fn insert`: returns the updated node together with the split-off
right half, if any.  At a leaf the new entry is placed at `extPos`; at
an internal node the recursion goes into the `intPos` child, and a
returned sibling is reinserted at `j + 1` keyed by its first key.
A child that did not split makes the function return immediately
(`return None`) with no shift or split at this level. -/
def insert (h : List BEntry) (key val : Nat) : Nat → List BEntry × Option (List BEntry)
  | 0 =>
    let t := BEntry.mk key (some val) []
    splitCheck (insertIdx t (extPos key h) h)
  | height + 1 =>
    let t := BEntry.mk key (some val) []
    match intPos key h with
    | none => splitCheck (insertIdx t 0 h)
    | some j =>
      match h[j]? with
      | none => (h, none)
      | some e =>
        match insert e.next key val height with
        | (child, none) => (h.set j (BEntry.mk e.key e.val child), none)
        | (child, some u) =>
          let h := h.set j (BEntry.mk e.key e.val child)
          let t := BEntry.mk (firstKey u) none u
          splitCheck (insertIdx t (j + 1) h)

/-- `BalancedTree::put`: insert; on a root split wrap the two halves
under a brand-new root and increment the height; always increment
`size`. -/
def put (m : BTree) (key val : Nat) : BTree :=
  match insert m.root key val m.height with
  | (root, some u) =>
    { root := [BEntry.mk (firstKey root) none root, BEntry.mk (firstKey u) none u]
      size := m.size + 1
      height := m.height + 1 }
  | (root, none) => { root := root, size := m.size + 1, height := m.height }

/-- `BalancedTree::get`: `None` on the empty tree, else `search`. -/
def get (m : BTree) (key : Nat) : Option Nat :=
  if m.size == 0 then none else search m.root key m.height

/-- `BalancedTree::height`: always `Some` of the stored counter. -/
def heightOpt (m : BTree) : Option Nat :=
  some m.height

/-- `BalancedTree::is_empty` (default trait impl: `size == 0`). -/
def is_empty (m : BTree) : Bool :=
  m.size == 0

/-- The loop of `BalancedTree::min` from one entry down: follow
`node[0].next` until it is empty, then report `node[0].key`. -/
def entryMin : BEntry → Nat
  | .mk k _ [] => k
  | .mk _ _ (x :: _) => entryMin x

mutual

/-- The loop of `BalancedTree::max` from one entry down: follow
`node[len-1].next` until it is empty, then report `node[len-1].key`. -/
def entryMax : BEntry → Nat
  | .mk k _ [] => k
  | .mk _ _ (x :: xs) => lastMax x xs
termination_by e => sizeOf e
decreasing_by simp_arith

/-- Helper for `entryMax`: `entryMax` of the last element of a
nonempty vector (`node[node.len() - 1]`). -/
def lastMax : BEntry → List BEntry → Nat
  | x, [] => entryMax x
  | _, y :: ys => lastMax y ys
termination_by x xs => sizeOf x + sizeOf xs
decreasing_by all_goals simp_arith

end

/-- `BalancedTree::min`. -/
def min (m : BTree) : Option Nat :=
  if m.size == 0 then none else
    match m.root with
    | [] => none
    | e :: _ => some (entryMin e)

/-- `BalancedTree::max`. -/
def max (m : BTree) : Option Nat :=
  if m.size == 0 then none else
    match m.root with
    | [] => none
    | x :: xs => some (lastMax x xs)

/-- `Index<&K> for BalancedTree`: panics (`none`) exactly when `get`
finds nothing. -/
def index (m : BTree) (key : Nat) : Option Nat :=
  m.get key

end BTree

/-- The state reached from `BalancedTree::new()` by a sequence of `put`s. -/
def btOfList (l : List (Nat × Nat)) : BTree :=
  l.foldl (fun t kv => t.put kv.1 kv.2) BTree.new

/-- Modelled from the spec: the multiway tree implements no traversal
(`BalancedTree` has no `TreeTraversal` impl in the source), so its
in-order key sequence is taken from §4.2/§8 of the spec — visit the
entries of a node left to right, recursing through internal entries'
children down to the leaf level. -/
def btInOrderKeys (node : List BEntry) : Nat → List Nat
  | 0 => node.map BEntry.key
  | height + 1 => node.flatMap (fun e => btInOrderKeys e.next height)

/-! ## Specification-side definitions -/

/-- Specification-side (§4.1 of the spec): the edge count of the
longest root-to-leaf path of an unbalanced tree — `0` for a single
node, and by convention `0` on the empty tree, where the spec instead
demands "no height". -/
def specLongestPathBST : BST → Nat
  | .nil => 0
  | .node _ _ _ .nil .nil => 0
  | .node _ _ _ .nil r => 1 + specLongestPathBST r
  | .node _ _ _ l .nil => 1 + specLongestPathBST l
  | .node _ _ _ l r => 1 + Nat.max (specLongestPathBST l) (specLongestPathBST r)

/-- Specification-side (§4.1 of the spec): the edge count of the
longest root-to-leaf path of a red-black tree. -/
def specLongestPathRBT : RBT → Nat
  | .nil => 0
  | .node _ _ _ _ .nil .nil => 0
  | .node _ _ _ _ .nil r => 1 + specLongestPathRBT r
  | .node _ _ _ _ l .nil => 1 + specLongestPathRBT l
  | .node _ _ _ _ l r => 1 + Nat.max (specLongestPathRBT l) (specLongestPathRBT r)

/-! ## Association-list layer

The sequential "first put wins" semantics of the put sequences, stated
on plain lists; the binary-tree in-order traversals are related to
these below. -/

/-- The value of the first put under `key` in a put sequence (also:
lookup in an association list, first match wins). -/
def alookup (key : Nat) : List (Nat × Nat) → Option Nat
  | [] => none
  | (k, v) :: rest => if k = key then some v else alookup key rest

/-- Insert-if-absent into a sorted association list, at the sorted
position. -/
def listPut (key val : Nat) : List (Nat × Nat) → List (Nat × Nat)
  | [] => [(key, val)]
  | (k, v) :: rest =>
    if key < k then (key, val) :: (k, v) :: rest
    else if k < key then (k, v) :: listPut key val rest
    else (k, v) :: rest

/-- Fold of `listPut` over a put sequence. -/
def listOfPuts (l : List (Nat × Nat)) : List (Nat × Nat) :=
  l.foldl (fun acc kv => listPut kv.1 kv.2 acc) []

/-- The cached-size invariant of the unbalanced tree (claim C9): every
populated node's `size` field is `1 +` the cached sizes of its
children. -/
def SizeOk : BST → Prop
  | .nil => True
  | .node _ _ s l r => s = 1 + l.size + r.size ∧ SizeOk l ∧ SizeOk r

/-- The in-order pair sequence of an insert frame, as if the node were
rebuilt from it. -/
def inOrd5 (x : RBT.Frame) : List (Nat × Nat) :=
  x.2.2.2.1.in_order ++ (x.1, x.2.1) :: x.2.2.2.2.in_order

/-- First-defined choice on options (strict `orElse`). -/
def oalt : Option Nat → Option Nat → Option Nat
  | some v, _ => some v
  | none, b => b

/-! ## Concrete states for the multiway-tree example scenario (§8)

Building the 1000-key tree in one definitional reduction is too deep
for the kernel, so the insertion sequence is cut into five chunks of
200 and the four intermediate trees (and the final one) are given as
literals, each certified by `rfl` below. -/

/-- Fold of `BalancedTree::put` over a put sequence, from a given state. -/
def putList (m : BTree) (l : List (Nat × Nat)) : BTree :=
  l.foldl (fun t kv => t.put kv.1 kv.2) m

/-- 200 ascending keys `base+1 ..= base+200`, each with value key+1. -/
def mkChunk (base : Nat) : List (Nat × Nat) :=
  (List.range 200).map (fun i => (base + i + 1, base + i + 2))

/-- The put sequence of the example scenario: ascending keys
`1 ..= 1000` with value = key + 1. -/
def c7list : List (Nat × Nat) :=
  (List.range 1000).map (fun i => (i + 1, i + 2))

/-- The multiway tree after the first 200 puts of the scenario. -/
def c7m1 : BTree := ⟨[.mk 1 none [.mk 1 none [.mk 1 none [.mk 1 none [.mk 1 none [.mk 1 none [.mk 1 (some 2) [], .mk 2 (some 3) []], .mk 3 none [.mk 3 (some 4) [], .mk 4 (some 5) []]], .mk 5 none [.mk 5 none [.mk 5 (some 6) [], .mk 6 (some 7) []], .mk 7 none [.mk 7 (some 8) [], .mk 8 (some 9) []]]], .mk 9 none [.mk 9 none [.mk 9 none [.mk 9 (some 10) [], .mk 10 (some 11) []], .mk 11 none [.mk 11 (some 12) [], .mk 12 (some 13) []]], .mk 13 none [.mk 13 none [.mk 13 (some 14) [], .mk 14 (some 15) []], .mk 15 none [.mk 15 (some 16) [], .mk 16 (some 17) []]]]], .mk 17 none [.mk 17 none [.mk 17 none [.mk 17 none [.mk 17 (some 18) [], .mk 18 (some 19) []], .mk 19 none [.mk 19 (some 20) [], .mk 20 (some 21) []]], .mk 21 none [.mk 21 none [.mk 21 (some 22) [], .mk 22 (some 23) []], .mk 23 none [.mk 23 (some 24) [], .mk 24 (some 25) []]]], .mk 25 none [.mk 25 none [.mk 25 none [.mk 25 (some 26) [], .mk 26 (some 27) []], .mk 27 none [.mk 27 (some 28) [], .mk 28 (some 29) []]], .mk 29 none [.mk 29 none [.mk 29 (some 30) [], .mk 30 (some 31) []], .mk 31 none [.mk 31 (some 32) [], .mk 32 (some 33) []]]]]], .mk 33 none [.mk 33 none [.mk 33 none [.mk 33 none [.mk 33 none [.mk 33 (some 34) [], .mk 34 (some 35) []], .mk 35 none [.mk 35 (some 36) [], .mk 36 (some 37) []]], .mk 37 none [.mk 37 none [.mk 37 (some 38) [], .mk 38 (some 39) []], .mk 39 none [.mk 39 (some 40) [], .mk 40 (some 41) []]]], .mk 41 none [.mk 41 none [.mk 41 none [.mk 41 (some 42) [], .mk 42 (some 43) []], .mk 43 none [.mk 43 (some 44) [], .mk 44 (some 45) []]], .mk 45 none [.mk 45 none [.mk 45 (some 46) [], .mk 46 (some 47) []], .mk 47 none [.mk 47 (some 48) [], .mk 48 (some 49) []]]]], .mk 49 none [.mk 49 none [.mk 49 none [.mk 49 none [.mk 49 (some 50) [], .mk 50 (some 51) []], .mk 51 none [.mk 51 (some 52) [], .mk 52 (some 53) []]], .mk 53 none [.mk 53 none [.mk 53 (some 54) [], .mk 54 (some 55) []], .mk 55 none [.mk 55 (some 56) [], .mk 56 (some 57) []]]], .mk 57 none [.mk 57 none [.mk 57 none [.mk 57 (some 58) [], .mk 58 (some 59) []], .mk 59 none [.mk 59 (some 60) [], .mk 60 (some 61) []]], .mk 61 none [.mk 61 none [.mk 61 (some 62) [], .mk 62 (some 63) []], .mk 63 none [.mk 63 (some 64) [], .mk 64 (some 65) []]]]]]], .mk 65 none [.mk 65 none [.mk 65 none [.mk 65 none [.mk 65 none [.mk 65 none [.mk 65 (some 66) [], .mk 66 (some 67) []], .mk 67 none [.mk 67 (some 68) [], .mk 68 (some 69) []]], .mk 69 none [.mk 69 none [.mk 69 (some 70) [], .mk 70 (some 71) []], .mk 71 none [.mk 71 (some 72) [], .mk 72 (some 73) []]]], .mk 73 none [.mk 73 none [.mk 73 none [.mk 73 (some 74) [], .mk 74 (some 75) []], .mk 75 none [.mk 75 (some 76) [], .mk 76 (some 77) []]], .mk 77 none [.mk 77 none [.mk 77 (some 78) [], .mk 78 (some 79) []], .mk 79 none [.mk 79 (some 80) [], .mk 80 (some 81) []]]]], .mk 81 none [.mk 81 none [.mk 81 none [.mk 81 none [.mk 81 (some 82) [], .mk 82 (some 83) []], .mk 83 none [.mk 83 (some 84) [], .mk 84 (some 85) []]], .mk 85 none [.mk 85 none [.mk 85 (some 86) [], .mk 86 (some 87) []], .mk 87 none [.mk 87 (some 88) [], .mk 88 (some 89) []]]], .mk 89 none [.mk 89 none [.mk 89 none [.mk 89 (some 90) [], .mk 90 (some 91) []], .mk 91 none [.mk 91 (some 92) [], .mk 92 (some 93) []]], .mk 93 none [.mk 93 none [.mk 93 (some 94) [], .mk 94 (some 95) []], .mk 95 none [.mk 95 (some 96) [], .mk 96 (some 97) []]]]]], .mk 97 none [.mk 97 none [.mk 97 none [.mk 97 none [.mk 97 none [.mk 97 (some 98) [], .mk 98 (some 99) []], .mk 99 none [.mk 99 (some 100) [], .mk 100 (some 101) []]], .mk 101 none [.mk 101 none [.mk 101 (some 102) [], .mk 102 (some 103) []], .mk 103 none [.mk 103 (some 104) [], .mk 104 (some 105) []]]], .mk 105 none [.mk 105 none [.mk 105 none [.mk 105 (some 106) [], .mk 106 (some 107) []], .mk 107 none [.mk 107 (some 108) [], .mk 108 (some 109) []]], .mk 109 none [.mk 109 none [.mk 109 (some 110) [], .mk 110 (some 111) []], .mk 111 none [.mk 111 (some 112) [], .mk 112 (some 113) []]]]], .mk 113 none [.mk 113 none [.mk 113 none [.mk 113 none [.mk 113 (some 114) [], .mk 114 (some 115) []], .mk 115 none [.mk 115 (some 116) [], .mk 116 (some 117) []]], .mk 117 none [.mk 117 none [.mk 117 (some 118) [], .mk 118 (some 119) []], .mk 119 none [.mk 119 (some 120) [], .mk 120 (some 121) []]]], .mk 121 none [.mk 121 none [.mk 121 none [.mk 121 (some 122) [], .mk 122 (some 123) []], .mk 123 none [.mk 123 (some 124) [], .mk 124 (some 125) []]], .mk 125 none [.mk 125 none [.mk 125 (some 126) [], .mk 126 (some 127) []], .mk 127 none [.mk 127 (some 128) [], .mk 128 (some 129) []]]]]]], .mk 129 none [.mk 129 none [.mk 129 none [.mk 129 none [.mk 129 none [.mk 129 none [.mk 129 (some 130) [], .mk 130 (some 131) []], .mk 131 none [.mk 131 (some 132) [], .mk 132 (some 133) []]], .mk 133 none [.mk 133 none [.mk 133 (some 134) [], .mk 134 (some 135) []], .mk 135 none [.mk 135 (some 136) [], .mk 136 (some 137) []]]], .mk 137 none [.mk 137 none [.mk 137 none [.mk 137 (some 138) [], .mk 138 (some 139) []], .mk 139 none [.mk 139 (some 140) [], .mk 140 (some 141) []]], .mk 141 none [.mk 141 none [.mk 141 (some 142) [], .mk 142 (some 143) []], .mk 143 none [.mk 143 (some 144) [], .mk 144 (some 145) []]]]], .mk 145 none [.mk 145 none [.mk 145 none [.mk 145 none [.mk 145 (some 146) [], .mk 146 (some 147) []], .mk 147 none [.mk 147 (some 148) [], .mk 148 (some 149) []]], .mk 149 none [.mk 149 none [.mk 149 (some 150) [], .mk 150 (some 151) []], .mk 151 none [.mk 151 (some 152) [], .mk 152 (some 153) []]]], .mk 153 none [.mk 153 none [.mk 153 none [.mk 153 (some 154) [], .mk 154 (some 155) []], .mk 155 none [.mk 155 (some 156) [], .mk 156 (some 157) []]], .mk 157 none [.mk 157 none [.mk 157 (some 158) [], .mk 158 (some 159) []], .mk 159 none [.mk 159 (some 160) [], .mk 160 (some 161) []]]]]], .mk 161 none [.mk 161 none [.mk 161 none [.mk 161 none [.mk 161 none [.mk 161 (some 162) [], .mk 162 (some 163) []], .mk 163 none [.mk 163 (some 164) [], .mk 164 (some 165) []]], .mk 165 none [.mk 165 none [.mk 165 (some 166) [], .mk 166 (some 167) []], .mk 167 none [.mk 167 (some 168) [], .mk 168 (some 169) []]]], .mk 169 none [.mk 169 none [.mk 169 none [.mk 169 (some 170) [], .mk 170 (some 171) []], .mk 171 none [.mk 171 (some 172) [], .mk 172 (some 173) []]], .mk 173 none [.mk 173 none [.mk 173 (some 174) [], .mk 174 (some 175) []], .mk 175 none [.mk 175 (some 176) [], .mk 176 (some 177) []]]]], .mk 177 none [.mk 177 none [.mk 177 none [.mk 177 none [.mk 177 (some 178) [], .mk 178 (some 179) []], .mk 179 none [.mk 179 (some 180) [], .mk 180 (some 181) []]], .mk 181 none [.mk 181 none [.mk 181 (some 182) [], .mk 182 (some 183) []], .mk 183 none [.mk 183 (some 184) [], .mk 184 (some 185) []]]], .mk 185 none [.mk 185 none [.mk 185 none [.mk 185 (some 186) [], .mk 186 (some 187) []], .mk 187 none [.mk 187 (some 188) [], .mk 188 (some 189) []]], .mk 189 none [.mk 189 none [.mk 189 (some 190) [], .mk 190 (some 191) []], .mk 191 none [.mk 191 (some 192) [], .mk 192 (some 193) []]]], .mk 193 none [.mk 193 none [.mk 193 none [.mk 193 (some 194) [], .mk 194 (some 195) []], .mk 195 none [.mk 195 (some 196) [], .mk 196 (some 197) []]], .mk 197 none [.mk 197 none [.mk 197 (some 198) [], .mk 198 (some 199) []], .mk 199 none [.mk 199 (some 200) [], .mk 200 (some 201) []]]]]]]], 200, 6⟩

/-- The multiway tree after the first 400 puts of the scenario. -/
def c7m2 : BTree := ⟨[.mk 1 none [.mk 1 none [.mk 1 none [.mk 1 none [.mk 1 none [.mk 1 none [.mk 1 none [.mk 1 (some 2) [], .mk 2 (some 3) []], .mk 3 none [.mk 3 (some 4) [], .mk 4 (some 5) []]], .mk 5 none [.mk 5 none [.mk 5 (some 6) [], .mk 6 (some 7) []], .mk 7 none [.mk 7 (some 8) [], .mk 8 (some 9) []]]], .mk 9 none [.mk 9 none [.mk 9 none [.mk 9 (some 10) [], .mk 10 (some 11) []], .mk 11 none [.mk 11 (some 12) [], .mk 12 (some 13) []]], .mk 13 none [.mk 13 none [.mk 13 (some 14) [], .mk 14 (some 15) []], .mk 15 none [.mk 15 (some 16) [], .mk 16 (some 17) []]]]], .mk 17 none [.mk 17 none [.mk 17 none [.mk 17 none [.mk 17 (some 18) [], .mk 18 (some 19) []], .mk 19 none [.mk 19 (some 20) [], .mk 20 (some 21) []]], .mk 21 none [.mk 21 none [.mk 21 (some 22) [], .mk 22 (some 23) []], .mk 23 none [.mk 23 (some 24) [], .mk 24 (some 25) []]]], .mk 25 none [.mk 25 none [.mk 25 none [.mk 25 (some 26) [], .mk 26 (some 27) []], .mk 27 none [.mk 27 (some 28) [], .mk 28 (some 29) []]], .mk 29 none [.mk 29 none [.mk 29 (some 30) [], .mk 30 (some 31) []], .mk 31 none [.mk 31 (some 32) [], .mk 32 (some 33) []]]]]], .mk 33 none [.mk 33 none [.mk 33 none [.mk 33 none [.mk 33 none [.mk 33 (some 34) [], .mk 34 (some 35) []], .mk 35 none [.mk 35 (some 36) [], .mk 36 (some 37) []]], .mk 37 none [.mk 37 none [.mk 37 (some 38) [], .mk 38 (some 39) []], .mk 39 none [.mk 39 (some 40) [], .mk 40 (some 41) []]]], .mk 41 none [.mk 41 none [.mk 41 none [.mk 41 (some 42) [], .mk 42 (some 43) []], .mk 43 none [.mk 43 (some 44) [], .mk 44 (some 45) []]], .mk 45 none [.mk 45 none [.mk 45 (some 46) [], .mk 46 (some 47) []], .mk 47 none [.mk 47 (some 48) [], .mk 48 (some 49) []]]]], .mk 49 none [.mk 49 none [.mk 49 none [.mk 49 none [.mk 49 (some 50) [], .mk 50 (some 51) []], .mk 51 none [.mk 51 (some 52) [], .mk 52 (some 53) []]], .mk 53 none [.mk 53 none [.mk 53 (some 54) [], .mk 54 (some 55) []], .mk 55 none [.mk 55 (some 56) [], .mk 56 (some 57) []]]], .mk 57 none [.mk 57 none [.mk 57 none [.mk 57 (some 58) [], .mk 58 (some 59) []], .mk 59 none [.mk 59 (some 60) [], .mk 60 (some 61) []]], .mk 61 none [.mk 61 none [.mk 61 (some 62) [], .mk 62 (some 63) []], .mk 63 none [.mk 63 (some 64) [], .mk 64 (some 65) []]]]]]], .mk 65 none [.mk 65 none [.mk 65 none [.mk 65 none [.mk 65 none [.mk 65 none [.mk 65 (some 66) [], .mk 66 (some 67) []], .mk 67 none [.mk 67 (some 68) [], .mk 68 (some 69) []]], .mk 69 none [.mk 69 none [.mk 69 (some 70) [], .mk 70 (some 71) []], .mk 71 none [.mk 71 (some 72) [], .mk 72 (some 73) []]]], .mk 73 none [.mk 73 none [.mk 73 none [.mk 73 (some 74) [], .mk 74 (some 75) []], .mk 75 none [.mk 75 (some 76) [], .mk 76 (some 77) []]], .mk 77 none [.mk 77 none [.mk 77 (some 78) [], .mk 78 (some 79) []], .mk 79 none [.mk 79 (some 80) [], .mk 80 (some 81) []]]]], .mk 81 none [.mk 81 none [.mk 81 none [.mk 81 none [.mk 81 (some 82) [], .mk 82 (some 83) []], .mk 83 none [.mk 83 (some 84) [], .mk 84 (some 85) []]], .mk 85 none [.mk 85 none [.mk 85 (some 86) [], .mk 86 (some 87) []], .mk 87 none [.mk 87 (some 88) [], .mk 88 (some 89) []]]], .mk 89 none [.mk 89 none [.mk 89 none [.mk 89 (some 90) [], .mk 90 (some 91) []], .mk 91 none [.mk 91 (some 92) [], .mk 92 (some 93) []]], .mk 93 none [.mk 93 none [.mk 93 (some 94) [], .mk 94 (some 95) []], .mk 95 none [.mk 95 (some 96) [], .mk 96 (some 97) []]]]]], .mk 97 none [.mk 97 none [.mk 97 none [.mk 97 none [.mk 97 none [.mk 97 (some 98) [], .mk 98 (some 99) []], .mk 99 none [.mk 99 (some 100) [], .mk 100 (some 101) []]], .mk 101 none [.mk 101 none [.mk 101 (some 102) [], .mk 102 (some 103) []], .mk 103 none [.mk 103 (some 104) [], .mk 104 (some 105) []]]], .mk 105 none [.mk 105 none [.mk 105 none [.mk 105 (some 106) [], .mk 106 (some 107) []], .mk 107 none [.mk 107 (some 108) [], .mk 108 (some 109) []]], .mk 109 none [.mk 109 none [.mk 109 (some 110) [], .mk 110 (some 111) []], .mk 111 none [.mk 111 (some 112) [], .mk 112 (some 113) []]]]], .mk 113 none [.mk 113 none [.mk 113 none [.mk 113 none [.mk 113 (some 114) [], .mk 114 (some 115) []], .mk 115 none [.mk 115 (some 116) [], .mk 116 (some 117) []]], .mk 117 none [.mk 117 none [.mk 117 (some 118) [], .mk 118 (some 119) []], .mk 119 none [.mk 119 (some 120) [], .mk 120 (some 121) []]]], .mk 121 none [.mk 121 none [.mk 121 none [.mk 121 (some 122) [], .mk 122 (some 123) []], .mk 123 none [.mk 123 (some 124) [], .mk 124 (some 125) []]], .mk 125 none [.mk 125 none [.mk 125 (some 126) [], .mk 126 (some 127) []], .mk 127 none [.mk 127 (some 128) [], .mk 128 (some 129) []]]]]]]], .mk 129 none [.mk 129 none [.mk 129 none [.mk 129 none [.mk 129 none [.mk 129 none [.mk 129 none [.mk 129 (some 130) [], .mk 130 (some 131) []], .mk 131 none [.mk 131 (some 132) [], .mk 132 (some 133) []]], .mk 133 none [.mk 133 none [.mk 133 (some 134) [], .mk 134 (some 135) []], .mk 135 none [.mk 135 (some 136) [], .mk 136 (some 137) []]]], .mk 137 none [.mk 137 none [.mk 137 none [.mk 137 (some 138) [], .mk 138 (some 139) []], .mk 139 none [.mk 139 (some 140) [], .mk 140 (some 141) []]], .mk 141 none [.mk 141 none [.mk 141 (some 142) [], .mk 142 (some 143) []], .mk 143 none [.mk 143 (some 144) [], .mk 144 (some 145) []]]]], .mk 145 none [.mk 145 none [.mk 145 none [.mk 145 none [.mk 145 (some 146) [], .mk 146 (some 147) []], .mk 147 none [.mk 147 (some 148) [], .mk 148 (some 149) []]], .mk 149 none [.mk 149 none [.mk 149 (some 150) [], .mk 150 (some 151) []], .mk 151 none [.mk 151 (some 152) [], .mk 152 (some 153) []]]], .mk 153 none [.mk 153 none [.mk 153 none [.mk 153 (some 154) [], .mk 154 (some 155) []], .mk 155 none [.mk 155 (some 156) [], .mk 156 (some 157) []]], .mk 157 none [.mk 157 none [.mk 157 (some 158) [], .mk 158 (some 159) []], .mk 159 none [.mk 159 (some 160) [], .mk 160 (some 161) []]]]]], .mk 161 none [.mk 161 none [.mk 161 none [.mk 161 none [.mk 161 none [.mk 161 (some 162) [], .mk 162 (some 163) []], .mk 163 none [.mk 163 (some 164) [], .mk 164 (some 165) []]], .mk 165 none [.mk 165 none [.mk 165 (some 166) [], .mk 166 (some 167) []], .mk 167 none [.mk 167 (some 168) [], .mk 168 (some 169) []]]], .mk 169 none [.mk 169 none [.mk 169 none [.mk 169 (some 170) [], .mk 170 (some 171) []], .mk 171 none [.mk 171 (some 172) [], .mk 172 (some 173) []]], .mk 173 none [.mk 173 none [.mk 173 (some 174) [], .mk 174 (some 175) []], .mk 175 none [.mk 175 (some 176) [], .mk 176 (some 177) []]]]], .mk 177 none [.mk 177 none [.mk 177 none [.mk 177 none [.mk 177 (some 178) [], .mk 178 (some 179) []], .mk 179 none [.mk 179 (some 180) [], .mk 180 (some 181) []]], .mk 181 none [.mk 181 none [.mk 181 (some 182) [], .mk 182 (some 183) []], .mk 183 none [.mk 183 (some 184) [], .mk 184 (some 185) []]]], .mk 185 none [.mk 185 none [.mk 185 none [.mk 185 (some 186) [], .mk 186 (some 187) []], .mk 187 none [.mk 187 (some 188) [], .mk 188 (some 189) []]], .mk 189 none [.mk 189 none [.mk 189 (some 190) [], .mk 190 (some 191) []], .mk 191 none [.mk 191 (some 192) [], .mk 192 (some 193) []]]]]]], .mk 193 none [.mk 193 none [.mk 193 none [.mk 193 none [.mk 193 none [.mk 193 none [.mk 193 (some 194) [], .mk 194 (some 195) []], .mk 195 none [.mk 195 (some 196) [], .mk 196 (some 197) []]], .mk 197 none [.mk 197 none [.mk 197 (some 198) [], .mk 198 (some 199) []], .mk 199 none [.mk 199 (some 200) [], .mk 200 (some 201) []]]], .mk 201 none [.mk 201 none [.mk 201 none [.mk 201 (some 202) [], .mk 202 (some 203) []], .mk 203 none [.mk 203 (some 204) [], .mk 204 (some 205) []]], .mk 205 none [.mk 205 none [.mk 205 (some 206) [], .mk 206 (some 207) []], .mk 207 none [.mk 207 (some 208) [], .mk 208 (some 209) []]]]], .mk 209 none [.mk 209 none [.mk 209 none [.mk 209 none [.mk 209 (some 210) [], .mk 210 (some 211) []], .mk 211 none [.mk 211 (some 212) [], .mk 212 (some 213) []]], .mk 213 none [.mk 213 none [.mk 213 (some 214) [], .mk 214 (some 215) []], .mk 215 none [.mk 215 (some 216) [], .mk 216 (some 217) []]]], .mk 217 none [.mk 217 none [.mk 217 none [.mk 217 (some 218) [], .mk 218 (some 219) []], .mk 219 none [.mk 219 (some 220) [], .mk 220 (some 221) []]], .mk 221 none [.mk 221 none [.mk 221 (some 222) [], .mk 222 (some 223) []], .mk 223 none [.mk 223 (some 224) [], .mk 224 (some 225) []]]]]], .mk 225 none [.mk 225 none [.mk 225 none [.mk 225 none [.mk 225 none [.mk 225 (some 226) [], .mk 226 (some 227) []], .mk 227 none [.mk 227 (some 228) [], .mk 228 (some 229) []]], .mk 229 none [.mk 229 none [.mk 229 (some 230) [], .mk 230 (some 231) []], .mk 231 none [.mk 231 (some 232) [], .mk 232 (some 233) []]]], .mk 233 none [.mk 233 none [.mk 233 none [.mk 233 (some 234) [], .mk 234 (some 235) []], .mk 235 none [.mk 235 (some 236) [], .mk 236 (some 237) []]], .mk 237 none [.mk 237 none [.mk 237 (some 238) [], .mk 238 (some 239) []], .mk 239 none [.mk 239 (some 240) [], .mk 240 (some 241) []]]]], .mk 241 none [.mk 241 none [.mk 241 none [.mk 241 none [.mk 241 (some 242) [], .mk 242 (some 243) []], .mk 243 none [.mk 243 (some 244) [], .mk 244 (some 245) []]], .mk 245 none [.mk 245 none [.mk 245 (some 246) [], .mk 246 (some 247) []], .mk 247 none [.mk 247 (some 248) [], .mk 248 (some 249) []]]], .mk 249 none [.mk 249 none [.mk 249 none [.mk 249 (some 250) [], .mk 250 (some 251) []], .mk 251 none [.mk 251 (some 252) [], .mk 252 (some 253) []]], .mk 253 none [.mk 253 none [.mk 253 (some 254) [], .mk 254 (some 255) []], .mk 255 none [.mk 255 (some 256) [], .mk 256 (some 257) []]]]]]]], .mk 257 none [.mk 257 none [.mk 257 none [.mk 257 none [.mk 257 none [.mk 257 none [.mk 257 none [.mk 257 (some 258) [], .mk 258 (some 259) []], .mk 259 none [.mk 259 (some 260) [], .mk 260 (some 261) []]], .mk 261 none [.mk 261 none [.mk 261 (some 262) [], .mk 262 (some 263) []], .mk 263 none [.mk 263 (some 264) [], .mk 264 (some 265) []]]], .mk 265 none [.mk 265 none [.mk 265 none [.mk 265 (some 266) [], .mk 266 (some 267) []], .mk 267 none [.mk 267 (some 268) [], .mk 268 (some 269) []]], .mk 269 none [.mk 269 none [.mk 269 (some 270) [], .mk 270 (some 271) []], .mk 271 none [.mk 271 (some 272) [], .mk 272 (some 273) []]]]], .mk 273 none [.mk 273 none [.mk 273 none [.mk 273 none [.mk 273 (some 274) [], .mk 274 (some 275) []], .mk 275 none [.mk 275 (some 276) [], .mk 276 (some 277) []]], .mk 277 none [.mk 277 none [.mk 277 (some 278) [], .mk 278 (some 279) []], .mk 279 none [.mk 279 (some 280) [], .mk 280 (some 281) []]]], .mk 281 none [.mk 281 none [.mk 281 none [.mk 281 (some 282) [], .mk 282 (some 283) []], .mk 283 none [.mk 283 (some 284) [], .mk 284 (some 285) []]], .mk 285 none [.mk 285 none [.mk 285 (some 286) [], .mk 286 (some 287) []], .mk 287 none [.mk 287 (some 288) [], .mk 288 (some 289) []]]]]], .mk 289 none [.mk 289 none [.mk 289 none [.mk 289 none [.mk 289 none [.mk 289 (some 290) [], .mk 290 (some 291) []], .mk 291 none [.mk 291 (some 292) [], .mk 292 (some 293) []]], .mk 293 none [.mk 293 none [.mk 293 (some 294) [], .mk 294 (some 295) []], .mk 295 none [.mk 295 (some 296) [], .mk 296 (some 297) []]]], .mk 297 none [.mk 297 none [.mk 297 none [.mk 297 (some 298) [], .mk 298 (some 299) []], .mk 299 none [.mk 299 (some 300) [], .mk 300 (some 301) []]], .mk 301 none [.mk 301 none [.mk 301 (some 302) [], .mk 302 (some 303) []], .mk 303 none [.mk 303 (some 304) [], .mk 304 (some 305) []]]]], .mk 305 none [.mk 305 none [.mk 305 none [.mk 305 none [.mk 305 (some 306) [], .mk 306 (some 307) []], .mk 307 none [.mk 307 (some 308) [], .mk 308 (some 309) []]], .mk 309 none [.mk 309 none [.mk 309 (some 310) [], .mk 310 (some 311) []], .mk 311 none [.mk 311 (some 312) [], .mk 312 (some 313) []]]], .mk 313 none [.mk 313 none [.mk 313 none [.mk 313 (some 314) [], .mk 314 (some 315) []], .mk 315 none [.mk 315 (some 316) [], .mk 316 (some 317) []]], .mk 317 none [.mk 317 none [.mk 317 (some 318) [], .mk 318 (some 319) []], .mk 319 none [.mk 319 (some 320) [], .mk 320 (some 321) []]]]]]], .mk 321 none [.mk 321 none [.mk 321 none [.mk 321 none [.mk 321 none [.mk 321 none [.mk 321 (some 322) [], .mk 322 (some 323) []], .mk 323 none [.mk 323 (some 324) [], .mk 324 (some 325) []]], .mk 325 none [.mk 325 none [.mk 325 (some 326) [], .mk 326 (some 327) []], .mk 327 none [.mk 327 (some 328) [], .mk 328 (some 329) []]]], .mk 329 none [.mk 329 none [.mk 329 none [.mk 329 (some 330) [], .mk 330 (some 331) []], .mk 331 none [.mk 331 (some 332) [], .mk 332 (some 333) []]], .mk 333 none [.mk 333 none [.mk 333 (some 334) [], .mk 334 (some 335) []], .mk 335 none [.mk 335 (some 336) [], .mk 336 (some 337) []]]]], .mk 337 none [.mk 337 none [.mk 337 none [.mk 337 none [.mk 337 (some 338) [], .mk 338 (some 339) []], .mk 339 none [.mk 339 (some 340) [], .mk 340 (some 341) []]], .mk 341 none [.mk 341 none [.mk 341 (some 342) [], .mk 342 (some 343) []], .mk 343 none [.mk 343 (some 344) [], .mk 344 (some 345) []]]], .mk 345 none [.mk 345 none [.mk 345 none [.mk 345 (some 346) [], .mk 346 (some 347) []], .mk 347 none [.mk 347 (some 348) [], .mk 348 (some 349) []]], .mk 349 none [.mk 349 none [.mk 349 (some 350) [], .mk 350 (some 351) []], .mk 351 none [.mk 351 (some 352) [], .mk 352 (some 353) []]]]]], .mk 353 none [.mk 353 none [.mk 353 none [.mk 353 none [.mk 353 none [.mk 353 (some 354) [], .mk 354 (some 355) []], .mk 355 none [.mk 355 (some 356) [], .mk 356 (some 357) []]], .mk 357 none [.mk 357 none [.mk 357 (some 358) [], .mk 358 (some 359) []], .mk 359 none [.mk 359 (some 360) [], .mk 360 (some 361) []]]], .mk 361 none [.mk 361 none [.mk 361 none [.mk 361 (some 362) [], .mk 362 (some 363) []], .mk 363 none [.mk 363 (some 364) [], .mk 364 (some 365) []]], .mk 365 none [.mk 365 none [.mk 365 (some 366) [], .mk 366 (some 367) []], .mk 367 none [.mk 367 (some 368) [], .mk 368 (some 369) []]]]], .mk 369 none [.mk 369 none [.mk 369 none [.mk 369 none [.mk 369 (some 370) [], .mk 370 (some 371) []], .mk 371 none [.mk 371 (some 372) [], .mk 372 (some 373) []]], .mk 373 none [.mk 373 none [.mk 373 (some 374) [], .mk 374 (some 375) []], .mk 375 none [.mk 375 (some 376) [], .mk 376 (some 377) []]]], .mk 377 none [.mk 377 none [.mk 377 none [.mk 377 (some 378) [], .mk 378 (some 379) []], .mk 379 none [.mk 379 (some 380) [], .mk 380 (some 381) []]], .mk 381 none [.mk 381 none [.mk 381 (some 382) [], .mk 382 (some 383) []], .mk 383 none [.mk 383 (some 384) [], .mk 384 (some 385) []]]]], .mk 385 none [.mk 385 none [.mk 385 none [.mk 385 none [.mk 385 (some 386) [], .mk 386 (some 387) []], .mk 387 none [.mk 387 (some 388) [], .mk 388 (some 389) []]], .mk 389 none [.mk 389 none [.mk 389 (some 390) [], .mk 390 (some 391) []], .mk 391 none [.mk 391 (some 392) [], .mk 392 (some 393) []]]], .mk 393 none [.mk 393 none [.mk 393 none [.mk 393 (some 394) [], .mk 394 (some 395) []], .mk 395 none [.mk 395 (some 396) [], .mk 396 (some 397) []]], .mk 397 none [.mk 397 none [.mk 397 (some 398) [], .mk 398 (some 399) []], .mk 399 none [.mk 399 (some 400) [], .mk 400 (some 401) []]]]]]]]], 400, 7⟩

/-- The multiway tree after the first 600 puts of the scenario. -/
def c7m3 : BTree := ⟨[.mk 1 none [.mk 1 none [.mk 1 none [.mk 1 none [.mk 1 none [.mk 1 none [.mk 1 none [.mk 1 none [.mk 1 (some 2) [], .mk 2 (some 3) []], .mk 3 none [.mk 3 (some 4) [], .mk 4 (some 5) []]], .mk 5 none [.mk 5 none [.mk 5 (some 6) [], .mk 6 (some 7) []], .mk 7 none [.mk 7 (some 8) [], .mk 8 (some 9) []]]], .mk 9 none [.mk 9 none [.mk 9 none [.mk 9 (some 10) [], .mk 10 (some 11) []], .mk 11 none [.mk 11 (some 12) [], .mk 12 (some 13) []]], .mk 13 none [.mk 13 none [.mk 13 (some 14) [], .mk 14 (some 15) []], .mk 15 none [.mk 15 (some 16) [], .mk 16 (some 17) []]]]], .mk 17 none [.mk 17 none [.mk 17 none [.mk 17 none [.mk 17 (some 18) [], .mk 18 (some 19) []], .mk 19 none [.mk 19 (some 20) [], .mk 20 (some 21) []]], .mk 21 none [.mk 21 none [.mk 21 (some 22) [], .mk 22 (some 23) []], .mk 23 none [.mk 23 (some 24) [], .mk 24 (some 25) []]]], .mk 25 none [.mk 25 none [.mk 25 none [.mk 25 (some 26) [], .mk 26 (some 27) []], .mk 27 none [.mk 27 (some 28) [], .mk 28 (some 29) []]], .mk 29 none [.mk 29 none [.mk 29 (some 30) [], .mk 30 (some 31) []], .mk 31 none [.mk 31 (some 32) [], .mk 32 (some 33) []]]]]], .mk 33 none [.mk 33 none [.mk 33 none [.mk 33 none [.mk 33 none [.mk 33 (some 34) [], .mk 34 (some 35) []], .mk 35 none [.mk 35 (some 36) [], .mk 36 (some 37) []]], .mk 37 none [.mk 37 none [.mk 37 (some 38) [], .mk 38 (some 39) []], .mk 39 none [.mk 39 (some 40) [], .mk 40 (some 41) []]]], .mk 41 none [.mk 41 none [.mk 41 none [.mk 41 (some 42) [], .mk 42 (some 43) []], .mk 43 none [.mk 43 (some 44) [], .mk 44 (some 45) []]], .mk 45 none [.mk 45 none [.mk 45 (some 46) [], .mk 46 (some 47) []], .mk 47 none [.mk 47 (some 48) [], .mk 48 (some 49) []]]]], .mk 49 none [.mk 49 none [.mk 49 none [.mk 49 none [.mk 49 (some 50) [], .mk 50 (some 51) []], .mk 51 none [.mk 51 (some 52) [], .mk 52 (some 53) []]], .mk 53 none [.mk 53 none [.mk 53 (some 54) [], .mk 54 (some 55) []], .mk 55 none [.mk 55 (some 56) [], .mk 56 (some 57) []]]], .mk 57 none [.mk 57 none [.mk 57 none [.mk 57 (some 58) [], .mk 58 (some 59) []], .mk 59 none [.mk 59 (some 60) [], .mk 60 (some 61) []]], .mk 61 none [.mk 61 none [.mk 61 (some 62) [], .mk 62 (some 63) []], .mk 63 none [.mk 63 (some 64) [], .mk 64 (some 65) []]]]]]], .mk 65 none [.mk 65 none [.mk 65 none [.mk 65 none [.mk 65 none [.mk 65 none [.mk 65 (some 66) [], .mk 66 (some 67) []], .mk 67 none [.mk 67 (some 68) [], .mk 68 (some 69) []]], .mk 69 none [.mk 69 none [.mk 69 (some 70) [], .mk 70 (some 71) []], .mk 71 none [.mk 71 (some 72) [], .mk 72 (some 73) []]]], .mk 73 none [.mk 73 none [.mk 73 none [.mk 73 (some 74) [], .mk 74 (some 75) []], .mk 75 none [.mk 75 (some 76) [], .mk 76 (some 77) []]], .mk 77 none [.mk 77 none [.mk 77 (some 78) [], .mk 78 (some 79) []], .mk 79 none [.mk 79 (some 80) [], .mk 80 (some 81) []]]]], .mk 81 none [.mk 81 none [.mk 81 none [.mk 81 none [.mk 81 (some 82) [], .mk 82 (some 83) []], .mk 83 none [.mk 83 (some 84) [], .mk 84 (some 85) []]], .mk 85 none [.mk 85 none [.mk 85 (some 86) [], .mk 86 (some 87) []], .mk 87 none [.mk 87 (some 88) [], .mk 88 (some 89) []]]], .mk 89 none [.mk 89 none [.mk 89 none [.mk 89 (some 90) [], .mk 90 (some 91) []], .mk 91 none [.mk 91 (some 92) [], .mk 92 (some 93) []]], .mk 93 none [.mk 93 none [.mk 93 (some 94) [], .mk 94 (some 95) []], .mk 95 none [.mk 95 (some 96) [], .mk 96 (some 97) []]]]]], .mk 97 none [.mk 97 none [.mk 97 none [.mk 97 none [.mk 97 none [.mk 97 (some 98) [], .mk 98 (some 99) []], .mk 99 none [.mk 99 (some 100) [], .mk 100 (some 101) []]], .mk 101 none [.mk 101 none [.mk 101 (some 102) [], .mk 102 (some 103) []], .mk 103 none [.mk 103 (some 104) [], .mk 104 (some 105) []]]], .mk 105 none [.mk 105 none [.mk 105 none [.mk 105 (some 106) [], .mk 106 (some 107) []], .mk 107 none [.mk 107 (some 108) [], .mk 108 (some 109) []]], .mk 109 none [.mk 109 none [.mk 109 (some 110) [], .mk 110 (some 111) []], .mk 111 none [.mk 111 (some 112) [], .mk 112 (some 113) []]]]], .mk 113 none [.mk 113 none [.mk 113 none [.mk 113 none [.mk 113 (some 114) [], .mk 114 (some 115) []], .mk 115 none [.mk 115 (some 116) [], .mk 116 (some 117) []]], .mk 117 none [.mk 117 none [.mk 117 (some 118) [], .mk 118 (some 119) []], .mk 119 none [.mk 119 (some 120) [], .mk 120 (some 121) []]]], .mk 121 none [.mk 121 none [.mk 121 none [.mk 121 (some 122) [], .mk 122 (some 123) []], .mk 123 none [.mk 123 (some 124) [], .mk 124 (some 125) []]], .mk 125 none [.mk 125 none [.mk 125 (some 126) [], .mk 126 (some 127) []], .mk 127 none [.mk 127 (some 128) [], .mk 128 (some 129) []]]]]]]], .mk 129 none [.mk 129 none [.mk 129 none [.mk 129 none [.mk 129 none [.mk 129 none [.mk 129 none [.mk 129 (some 130) [], .mk 130 (some 131) []], .mk 131 none [.mk 131 (some 132) [], .mk 132 (some 133) []]], .mk 133 none [.mk 133 none [.mk 133 (some 134) [], .mk 134 (some 135) []], .mk 135 none [.mk 135 (some 136) [], .mk 136 (some 137) []]]], .mk 137 none [.mk 137 none [.mk 137 none [.mk 137 (some 138) [], .mk 138 (some 139) []], .mk 139 none [.mk 139 (some 140) [], .mk 140 (some 141) []]], .mk 141 none [.mk 141 none [.mk 141 (some 142) [], .mk 142 (some 143) []], .mk 143 none [.mk 143 (some 144) [], .mk 144 (some 145) []]]]], .mk 145 none [.mk 145 none [.mk 145 none [.mk 145 none [.mk 145 (some 146) [], .mk 146 (some 147) []], .mk 147 none [.mk 147 (some 148) [], .mk 148 (some 149) []]], .mk 149 none [.mk 149 none [.mk 149 (some 150) [], .mk 150 (some 151) []], .mk 151 none [.mk 151 (some 152) [], .mk 152 (some 153) []]]], .mk 153 none [.mk 153 none [.mk 153 none [.mk 153 (some 154) [], .mk 154 (some 155) []], .mk 155 none [.mk 155 (some 156) [], .mk 156 (some 157) []]], .mk 157 none [.mk 157 none [.mk 157 (some 158) [], .mk 158 (some 159) []], .mk 159 none [.mk 159 (some 160) [], .mk 160 (some 161) []]]]]], .mk 161 none [.mk 161 none [.mk 161 none [.mk 161 none [.mk 161 none [.mk 161 (some 162) [], .mk 162 (some 163) []], .mk 163 none [.mk 163 (some 164) [], .mk 164 (some 165) []]], .mk 165 none [.mk 165 none [.mk 165 (some 166) [], .mk 166 (some 167) []], .mk 167 none [.mk 167 (some 168) [], .mk 168 (some 169) []]]], .mk 169 none [.mk 169 none [.mk 169 none [.mk 169 (some 170) [], .mk 170 (some 171) []], .mk 171 none [.mk 171 (some 172) [], .mk 172 (some 173) []]], .mk 173 none [.mk 173 none [.mk 173 (some 174) [], .mk 174 (some 175) []], .mk 175 none [.mk 175 (some 176) [], .mk 176 (some 177) []]]]], .mk 177 none [.mk 177 none [.mk 177 none [.mk 177 none [.mk 177 (some 178) [], .mk 178 (some 179) []], .mk 179 none [.mk 179 (some 180) [], .mk 180 (some 181) []]], .mk 181 none [.mk 181 none [.mk 181 (some 182) [], .mk 182 (some 183) []], .mk 183 none [.mk 183 (some 184) [], .mk 184 (some 185) []]]], .mk 185 none [.mk 185 none [.mk 185 none [.mk 185 (some 186) [], .mk 186 (some 187) []], .mk 187 none [.mk 187 (some 188) [], .mk 188 (some 189) []]], .mk 189 none [.mk 189 none [.mk 189 (some 190) [], .mk 190 (some 191) []], .mk 191 none [.mk 191 (some 192) [], .mk 192 (some 193) []]]]]]], .mk 193 none [.mk 193 none [.mk 193 none [.mk 193 none [.mk 193 none [.mk 193 none [.mk 193 (some 194) [], .mk 194 (some 195) []], .mk 195 none [.mk 195 (some 196) [], .mk 196 (some 197) []]], .mk 197 none [.mk 197 none [.mk 197 (some 198) [], .mk 198 (some 199) []], .mk 199 none [.mk 199 (some 200) [], .mk 200 (some 201) []]]], .mk 201 none [.mk 201 none [.mk 201 none [.mk 201 (some 202) [], .mk 202 (some 203) []], .mk 203 none [.mk 203 (some 204) [], .mk 204 (some 205) []]], .mk 205 none [.mk 205 none [.mk 205 (some 206) [], .mk 206 (some 207) []], .mk 207 none [.mk 207 (some 208) [], .mk 208 (some 209) []]]]], .mk 209 none [.mk 209 none [.mk 209 none [.mk 209 none [.mk 209 (some 210) [], .mk 210 (some 211) []], .mk 211 none [.mk 211 (some 212) [], .mk 212 (some 213) []]], .mk 213 none [.mk 213 none [.mk 213 (some 214) [], .mk 214 (some 215) []], .mk 215 none [.mk 215 (some 216) [], .mk 216 (some 217) []]]], .mk 217 none [.mk 217 none [.mk 217 none [.mk 217 (some 218) [], .mk 218 (some 219) []], .mk 219 none [.mk 219 (some 220) [], .mk 220 (some 221) []]], .mk 221 none [.mk 221 none [.mk 221 (some 222) [], .mk 222 (some 223) []], .mk 223 none [.mk 223 (some 224) [], .mk 224 (some 225) []]]]]], .mk 225 none [.mk 225 none [.mk 225 none [.mk 225 none [.mk 225 none [.mk 225 (some 226) [], .mk 226 (some 227) []], .mk 227 none [.mk 227 (some 228) [], .mk 228 (some 229) []]], .mk 229 none [.mk 229 none [.mk 229 (some 230) [], .mk 230 (some 231) []], .mk 231 none [.mk 231 (some 232) [], .mk 232 (some 233) []]]], .mk 233 none [.mk 233 none [.mk 233 none [.mk 233 (some 234) [], .mk 234 (some 235) []], .mk 235 none [.mk 235 (some 236) [], .mk 236 (some 237) []]], .mk 237 none [.mk 237 none [.mk 237 (some 238) [], .mk 238 (some 239) []], .mk 239 none [.mk 239 (some 240) [], .mk 240 (some 241) []]]]], .mk 241 none [.mk 241 none [.mk 241 none [.mk 241 none [.mk 241 (some 242) [], .mk 242 (some 243) []], .mk 243 none [.mk 243 (some 244) [], .mk 244 (some 245) []]], .mk 245 none [.mk 245 none [.mk 245 (some 246) [], .mk 246 (some 247) []], .mk 247 none [.mk 247 (some 248) [], .mk 248 (some 249) []]]], .mk 249 none [.mk 249 none [.mk 249 none [.mk 249 (some 250) [], .mk 250 (some 251) []], .mk 251 none [.mk 251 (some 252) [], .mk 252 (some 253) []]], .mk 253 none [.mk 253 none [.mk 253 (some 254) [], .mk 254 (some 255) []], .mk 255 none [.mk 255 (some 256) [], .mk 256 (some 257) []]]]]]]]], .mk 257 none [.mk 257 none [.mk 257 none [.mk 257 none [.mk 257 none [.mk 257 none [.mk 257 none [.mk 257 none [.mk 257 (some 258) [], .mk 258 (some 259) []], .mk 259 none [.mk 259 (some 260) [], .mk 260 (some 261) []]], .mk 261 none [.mk 261 none [.mk 261 (some 262) [], .mk 262 (some 263) []], .mk 263 none [.mk 263 (some 264) [], .mk 264 (some 265) []]]], .mk 265 none [.mk 265 none [.mk 265 none [.mk 265 (some 266) [], .mk 266 (some 267) []], .mk 267 none [.mk 267 (some 268) [], .mk 268 (some 269) []]], .mk 269 none [.mk 269 none [.mk 269 (some 270) [], .mk 270 (some 271) []], .mk 271 none [.mk 271 (some 272) [], .mk 272 (some 273) []]]]], .mk 273 none [.mk 273 none [.mk 273 none [.mk 273 none [.mk 273 (some 274) [], .mk 274 (some 275) []], .mk 275 none [.mk 275 (some 276) [], .mk 276 (some 277) []]], .mk 277 none [.mk 277 none [.mk 277 (some 278) [], .mk 278 (some 279) []], .mk 279 none [.mk 279 (some 280) [], .mk 280 (some 281) []]]], .mk 281 none [.mk 281 none [.mk 281 none [.mk 281 (some 282) [], .mk 282 (some 283) []], .mk 283 none [.mk 283 (some 284) [], .mk 284 (some 285) []]], .mk 285 none [.mk 285 none [.mk 285 (some 286) [], .mk 286 (some 287) []], .mk 287 none [.mk 287 (some 288) [], .mk 288 (some 289) []]]]]], .mk 289 none [.mk 289 none [.mk 289 none [.mk 289 none [.mk 289 none [.mk 289 (some 290) [], .mk 290 (some 291) []], .mk 291 none [.mk 291 (some 292) [], .mk 292 (some 293) []]], .mk 293 none [.mk 293 none [.mk 293 (some 294) [], .mk 294 (some 295) []], .mk 295 none [.mk 295 (some 296) [], .mk 296 (some 297) []]]], .mk 297 none [.mk 297 none [.mk 297 none [.mk 297 (some 298) [], .mk 298 (some 299) []], .mk 299 none [.mk 299 (some 300) [], .mk 300 (some 301) []]], .mk 301 none [.mk 301 none [.mk 301 (some 302) [], .mk 302 (some 303) []], .mk 303 none [.mk 303 (some 304) [], .mk 304 (some 305) []]]]], .mk 305 none [.mk 305 none [.mk 305 none [.mk 305 none [.mk 305 (some 306) [], .mk 306 (some 307) []], .mk 307 none [.mk 307 (some 308) [], .mk 308 (some 309) []]], .mk 309 none [.mk 309 none [.mk 309 (some 310) [], .mk 310 (some 311) []], .mk 311 none [.mk 311 (some 312) [], .mk 312 (some 313) []]]], .mk 313 none [.mk 313 none [.mk 313 none [.mk 313 (some 314) [], .mk 314 (some 315) []], .mk 315 none [.mk 315 (some 316) [], .mk 316 (some 317) []]], .mk 317 none [.mk 317 none [.mk 317 (some 318) [], .mk 318 (some 319) []], .mk 319 none [.mk 319 (some 320) [], .mk 320 (some 321) []]]]]]], .mk 321 none [.mk 321 none [.mk 321 none [.mk 321 none [.mk 321 none [.mk 321 none [.mk 321 (some 322) [], .mk 322 (some 323) []], .mk 323 none [.mk 323 (some 324) [], .mk 324 (some 325) []]], .mk 325 none [.mk 325 none [.mk 325 (some 326) [], .mk 326 (some 327) []], .mk 327 none [.mk 327 (some 328) [], .mk 328 (some 329) []]]], .mk 329 none [.mk 329 none [.mk 329 none [.mk 329 (some 330) [], .mk 330 (some 331) []], .mk 331 none [.mk 331 (some 332) [], .mk 332 (some 333) []]], .mk 333 none [.mk 333 none [.mk 333 (some 334) [], .mk 334 (some 335) []], .mk 335 none [.mk 335 (some 336) [], .mk 336 (some 337) []]]]], .mk 337 none [.mk 337 none [.mk 337 none [.mk 337 none [.mk 337 (some 338) [], .mk 338 (some 339) []], .mk 339 none [.mk 339 (some 340) [], .mk 340 (some 341) []]], .mk 341 none [.mk 341 none [.mk 341 (some 342) [], .mk 342 (some 343) []], .mk 343 none [.mk 343 (some 344) [], .mk 344 (some 345) []]]], .mk 345 none [.mk 345 none [.mk 345 none [.mk 345 (some 346) [], .mk 346 (some 347) []], .mk 347 none [.mk 347 (some 348) [], .mk 348 (some 349) []]], .mk 349 none [.mk 349 none [.mk 349 (some 350) [], .mk 350 (some 351) []], .mk 351 none [.mk 351 (some 352) [], .mk 352 (some 353) []]]]]], .mk 353 none [.mk 353 none [.mk 353 none [.mk 353 none [.mk 353 none [.mk 353 (some 354) [], .mk 354 (some 355) []], .mk 355 none [.mk 355 (some 356) [], .mk 356 (some 357) []]], .mk 357 none [.mk 357 none [.mk 357 (some 358) [], .mk 358 (some 359) []], .mk 359 none [.mk 359 (some 360) [], .mk 360 (some 361) []]]], .mk 361 none [.mk 361 none [.mk 361 none [.mk 361 (some 362) [], .mk 362 (some 363) []], .mk 363 none [.mk 363 (some 364) [], .mk 364 (some 365) []]], .mk 365 none [.mk 365 none [.mk 365 (some 366) [], .mk 366 (some 367) []], .mk 367 none [.mk 367 (some 368) [], .mk 368 (some 369) []]]]], .mk 369 none [.mk 369 none [.mk 369 none [.mk 369 none [.mk 369 (some 370) [], .mk 370 (some 371) []], .mk 371 none [.mk 371 (some 372) [], .mk 372 (some 373) []]], .mk 373 none [.mk 373 none [.mk 373 (some 374) [], .mk 374 (some 375) []], .mk 375 none [.mk 375 (some 376) [], .mk 376 (some 377) []]]], .mk 377 none [.mk 377 none [.mk 377 none [.mk 377 (some 378) [], .mk 378 (some 379) []], .mk 379 none [.mk 379 (some 380) [], .mk 380 (some 381) []]], .mk 381 none [.mk 381 none [.mk 381 (some 382) [], .mk 382 (some 383) []], .mk 383 none [.mk 383 (some 384) [], .mk 384 (some 385) []]]]]]]], .mk 385 none [.mk 385 none [.mk 385 none [.mk 385 none [.mk 385 none [.mk 385 none [.mk 385 none [.mk 385 (some 386) [], .mk 386 (some 387) []], .mk 387 none [.mk 387 (some 388) [], .mk 388 (some 389) []]], .mk 389 none [.mk 389 none [.mk 389 (some 390) [], .mk 390 (some 391) []], .mk 391 none [.mk 391 (some 392) [], .mk 392 (some 393) []]]], .mk 393 none [.mk 393 none [.mk 393 none [.mk 393 (some 394) [], .mk 394 (some 395) []], .mk 395 none [.mk 395 (some 396) [], .mk 396 (some 397) []]], .mk 397 none [.mk 397 none [.mk 397 (some 398) [], .mk 398 (some 399) []], .mk 399 none [.mk 399 (some 400) [], .mk 400 (some 401) []]]]], .mk 401 none [.mk 401 none [.mk 401 none [.mk 401 none [.mk 401 (some 402) [], .mk 402 (some 403) []], .mk 403 none [.mk 403 (some 404) [], .mk 404 (some 405) []]], .mk 405 none [.mk 405 none [.mk 405 (some 406) [], .mk 406 (some 407) []], .mk 407 none [.mk 407 (some 408) [], .mk 408 (some 409) []]]], .mk 409 none [.mk 409 none [.mk 409 none [.mk 409 (some 410) [], .mk 410 (some 411) []], .mk 411 none [.mk 411 (some 412) [], .mk 412 (some 413) []]], .mk 413 none [.mk 413 none [.mk 413 (some 414) [], .mk 414 (some 415) []], .mk 415 none [.mk 415 (some 416) [], .mk 416 (some 417) []]]]]], .mk 417 none [.mk 417 none [.mk 417 none [.mk 417 none [.mk 417 none [.mk 417 (some 418) [], .mk 418 (some 419) []], .mk 419 none [.mk 419 (some 420) [], .mk 420 (some 421) []]], .mk 421 none [.mk 421 none [.mk 421 (some 422) [], .mk 422 (some 423) []], .mk 423 none [.mk 423 (some 424) [], .mk 424 (some 425) []]]], .mk 425 none [.mk 425 none [.mk 425 none [.mk 425 (some 426) [], .mk 426 (some 427) []], .mk 427 none [.mk 427 (some 428) [], .mk 428 (some 429) []]], .mk 429 none [.mk 429 none [.mk 429 (some 430) [], .mk 430 (some 431) []], .mk 431 none [.mk 431 (some 432) [], .mk 432 (some 433) []]]]], .mk 433 none [.mk 433 none [.mk 433 none [.mk 433 none [.mk 433 (some 434) [], .mk 434 (some 435) []], .mk 435 none [.mk 435 (some 436) [], .mk 436 (some 437) []]], .mk 437 none [.mk 437 none [.mk 437 (some 438) [], .mk 438 (some 439) []], .mk 439 none [.mk 439 (some 440) [], .mk 440 (some 441) []]]], .mk 441 none [.mk 441 none [.mk 441 none [.mk 441 (some 442) [], .mk 442 (some 443) []], .mk 443 none [.mk 443 (some 444) [], .mk 444 (some 445) []]], .mk 445 none [.mk 445 none [.mk 445 (some 446) [], .mk 446 (some 447) []], .mk 447 none [.mk 447 (some 448) [], .mk 448 (some 449) []]]]]]], .mk 449 none [.mk 449 none [.mk 449 none [.mk 449 none [.mk 449 none [.mk 449 none [.mk 449 (some 450) [], .mk 450 (some 451) []], .mk 451 none [.mk 451 (some 452) [], .mk 452 (some 453) []]], .mk 453 none [.mk 453 none [.mk 453 (some 454) [], .mk 454 (some 455) []], .mk 455 none [.mk 455 (some 456) [], .mk 456 (some 457) []]]], .mk 457 none [.mk 457 none [.mk 457 none [.mk 457 (some 458) [], .mk 458 (some 459) []], .mk 459 none [.mk 459 (some 460) [], .mk 460 (some 461) []]], .mk 461 none [.mk 461 none [.mk 461 (some 462) [], .mk 462 (some 463) []], .mk 463 none [.mk 463 (some 464) [], .mk 464 (some 465) []]]]], .mk 465 none [.mk 465 none [.mk 465 none [.mk 465 none [.mk 465 (some 466) [], .mk 466 (some 467) []], .mk 467 none [.mk 467 (some 468) [], .mk 468 (some 469) []]], .mk 469 none [.mk 469 none [.mk 469 (some 470) [], .mk 470 (some 471) []], .mk 471 none [.mk 471 (some 472) [], .mk 472 (some 473) []]]], .mk 473 none [.mk 473 none [.mk 473 none [.mk 473 (some 474) [], .mk 474 (some 475) []], .mk 475 none [.mk 475 (some 476) [], .mk 476 (some 477) []]], .mk 477 none [.mk 477 none [.mk 477 (some 478) [], .mk 478 (some 479) []], .mk 479 none [.mk 479 (some 480) [], .mk 480 (some 481) []]]]]], .mk 481 none [.mk 481 none [.mk 481 none [.mk 481 none [.mk 481 none [.mk 481 (some 482) [], .mk 482 (some 483) []], .mk 483 none [.mk 483 (some 484) [], .mk 484 (some 485) []]], .mk 485 none [.mk 485 none [.mk 485 (some 486) [], .mk 486 (some 487) []], .mk 487 none [.mk 487 (some 488) [], .mk 488 (some 489) []]]], .mk 489 none [.mk 489 none [.mk 489 none [.mk 489 (some 490) [], .mk 490 (some 491) []], .mk 491 none [.mk 491 (some 492) [], .mk 492 (some 493) []]], .mk 493 none [.mk 493 none [.mk 493 (some 494) [], .mk 494 (some 495) []], .mk 495 none [.mk 495 (some 496) [], .mk 496 (some 497) []]]]], .mk 497 none [.mk 497 none [.mk 497 none [.mk 497 none [.mk 497 (some 498) [], .mk 498 (some 499) []], .mk 499 none [.mk 499 (some 500) [], .mk 500 (some 501) []]], .mk 501 none [.mk 501 none [.mk 501 (some 502) [], .mk 502 (some 503) []], .mk 503 none [.mk 503 (some 504) [], .mk 504 (some 505) []]]], .mk 505 none [.mk 505 none [.mk 505 none [.mk 505 (some 506) [], .mk 506 (some 507) []], .mk 507 none [.mk 507 (some 508) [], .mk 508 (some 509) []]], .mk 509 none [.mk 509 none [.mk 509 (some 510) [], .mk 510 (some 511) []], .mk 511 none [.mk 511 (some 512) [], .mk 512 (some 513) []]]]]]], .mk 513 none [.mk 513 none [.mk 513 none [.mk 513 none [.mk 513 none [.mk 513 none [.mk 513 (some 514) [], .mk 514 (some 515) []], .mk 515 none [.mk 515 (some 516) [], .mk 516 (some 517) []]], .mk 517 none [.mk 517 none [.mk 517 (some 518) [], .mk 518 (some 519) []], .mk 519 none [.mk 519 (some 520) [], .mk 520 (some 521) []]]], .mk 521 none [.mk 521 none [.mk 521 none [.mk 521 (some 522) [], .mk 522 (some 523) []], .mk 523 none [.mk 523 (some 524) [], .mk 524 (some 525) []]], .mk 525 none [.mk 525 none [.mk 525 (some 526) [], .mk 526 (some 527) []], .mk 527 none [.mk 527 (some 528) [], .mk 528 (some 529) []]]]], .mk 529 none [.mk 529 none [.mk 529 none [.mk 529 none [.mk 529 (some 530) [], .mk 530 (some 531) []], .mk 531 none [.mk 531 (some 532) [], .mk 532 (some 533) []]], .mk 533 none [.mk 533 none [.mk 533 (some 534) [], .mk 534 (some 535) []], .mk 535 none [.mk 535 (some 536) [], .mk 536 (some 537) []]]], .mk 537 none [.mk 537 none [.mk 537 none [.mk 537 (some 538) [], .mk 538 (some 539) []], .mk 539 none [.mk 539 (some 540) [], .mk 540 (some 541) []]], .mk 541 none [.mk 541 none [.mk 541 (some 542) [], .mk 542 (some 543) []], .mk 543 none [.mk 543 (some 544) [], .mk 544 (some 545) []]]]]], .mk 545 none [.mk 545 none [.mk 545 none [.mk 545 none [.mk 545 none [.mk 545 (some 546) [], .mk 546 (some 547) []], .mk 547 none [.mk 547 (some 548) [], .mk 548 (some 549) []]], .mk 549 none [.mk 549 none [.mk 549 (some 550) [], .mk 550 (some 551) []], .mk 551 none [.mk 551 (some 552) [], .mk 552 (some 553) []]]], .mk 553 none [.mk 553 none [.mk 553 none [.mk 553 (some 554) [], .mk 554 (some 555) []], .mk 555 none [.mk 555 (some 556) [], .mk 556 (some 557) []]], .mk 557 none [.mk 557 none [.mk 557 (some 558) [], .mk 558 (some 559) []], .mk 559 none [.mk 559 (some 560) [], .mk 560 (some 561) []]]]], .mk 561 none [.mk 561 none [.mk 561 none [.mk 561 none [.mk 561 (some 562) [], .mk 562 (some 563) []], .mk 563 none [.mk 563 (some 564) [], .mk 564 (some 565) []]], .mk 565 none [.mk 565 none [.mk 565 (some 566) [], .mk 566 (some 567) []], .mk 567 none [.mk 567 (some 568) [], .mk 568 (some 569) []]]], .mk 569 none [.mk 569 none [.mk 569 none [.mk 569 (some 570) [], .mk 570 (some 571) []], .mk 571 none [.mk 571 (some 572) [], .mk 572 (some 573) []]], .mk 573 none [.mk 573 none [.mk 573 (some 574) [], .mk 574 (some 575) []], .mk 575 none [.mk 575 (some 576) [], .mk 576 (some 577) []]]]], .mk 577 none [.mk 577 none [.mk 577 none [.mk 577 none [.mk 577 (some 578) [], .mk 578 (some 579) []], .mk 579 none [.mk 579 (some 580) [], .mk 580 (some 581) []]], .mk 581 none [.mk 581 none [.mk 581 (some 582) [], .mk 582 (some 583) []], .mk 583 none [.mk 583 (some 584) [], .mk 584 (some 585) []]]], .mk 585 none [.mk 585 none [.mk 585 none [.mk 585 (some 586) [], .mk 586 (some 587) []], .mk 587 none [.mk 587 (some 588) [], .mk 588 (some 589) []]], .mk 589 none [.mk 589 none [.mk 589 (some 590) [], .mk 590 (some 591) []], .mk 591 none [.mk 591 (some 592) [], .mk 592 (some 593) []]]], .mk 593 none [.mk 593 none [.mk 593 none [.mk 593 (some 594) [], .mk 594 (some 595) []], .mk 595 none [.mk 595 (some 596) [], .mk 596 (some 597) []]], .mk 597 none [.mk 597 none [.mk 597 (some 598) [], .mk 598 (some 599) []], .mk 599 none [.mk 599 (some 600) [], .mk 600 (some 601) []]]]]]]]]], 600, 8⟩

/-- The multiway tree after the first 800 puts of the scenario. -/
def c7m4 : BTree := ⟨[.mk 1 none [.mk 1 none [.mk 1 none [.mk 1 none [.mk 1 none [.mk 1 none [.mk 1 none [.mk 1 none [.mk 1 (some 2) [], .mk 2 (some 3) []], .mk 3 none [.mk 3 (some 4) [], .mk 4 (some 5) []]], .mk 5 none [.mk 5 none [.mk 5 (some 6) [], .mk 6 (some 7) []], .mk 7 none [.mk 7 (some 8) [], .mk 8 (some 9) []]]], .mk 9 none [.mk 9 none [.mk 9 none [.mk 9 (some 10) [], .mk 10 (some 11) []], .mk 11 none [.mk 11 (some 12) [], .mk 12 (some 13) []]], .mk 13 none [.mk 13 none [.mk 13 (some 14) [], .mk 14 (some 15) []], .mk 15 none [.mk 15 (some 16) [], .mk 16 (some 17) []]]]], .mk 17 none [.mk 17 none [.mk 17 none [.mk 17 none [.mk 17 (some 18) [], .mk 18 (some 19) []], .mk 19 none [.mk 19 (some 20) [], .mk 20 (some 21) []]], .mk 21 none [.mk 21 none [.mk 21 (some 22) [], .mk 22 (some 23) []], .mk 23 none [.mk 23 (some 24) [], .mk 24 (some 25) []]]], .mk 25 none [.mk 25 none [.mk 25 none [.mk 25 (some 26) [], .mk 26 (some 27) []], .mk 27 none [.mk 27 (some 28) [], .mk 28 (some 29) []]], .mk 29 none [.mk 29 none [.mk 29 (some 30) [], .mk 30 (some 31) []], .mk 31 none [.mk 31 (some 32) [], .mk 32 (some 33) []]]]]], .mk 33 none [.mk 33 none [.mk 33 none [.mk 33 none [.mk 33 none [.mk 33 (some 34) [], .mk 34 (some 35) []], .mk 35 none [.mk 35 (some 36) [], .mk 36 (some 37) []]], .mk 37 none [.mk 37 none [.mk 37 (some 38) [], .mk 38 (some 39) []], .mk 39 none [.mk 39 (some 40) [], .mk 40 (some 41) []]]], .mk 41 none [.mk 41 none [.mk 41 none [.mk 41 (some 42) [], .mk 42 (some 43) []], .mk 43 none [.mk 43 (some 44) [], .mk 44 (some 45) []]], .mk 45 none [.mk 45 none [.mk 45 (some 46) [], .mk 46 (some 47) []], .mk 47 none [.mk 47 (some 48) [], .mk 48 (some 49) []]]]], .mk 49 none [.mk 49 none [.mk 49 none [.mk 49 none [.mk 49 (some 50) [], .mk 50 (some 51) []], .mk 51 none [.mk 51 (some 52) [], .mk 52 (some 53) []]], .mk 53 none [.mk 53 none [.mk 53 (some 54) [], .mk 54 (some 55) []], .mk 55 none [.mk 55 (some 56) [], .mk 56 (some 57) []]]], .mk 57 none [.mk 57 none [.mk 57 none [.mk 57 (some 58) [], .mk 58 (some 59) []], .mk 59 none [.mk 59 (some 60) [], .mk 60 (some 61) []]], .mk 61 none [.mk 61 none [.mk 61 (some 62) [], .mk 62 (some 63) []], .mk 63 none [.mk 63 (some 64) [], .mk 64 (some 65) []]]]]]], .mk 65 none [.mk 65 none [.mk 65 none [.mk 65 none [.mk 65 none [.mk 65 none [.mk 65 (some 66) [], .mk 66 (some 67) []], .mk 67 none [.mk 67 (some 68) [], .mk 68 (some 69) []]], .mk 69 none [.mk 69 none [.mk 69 (some 70) [], .mk 70 (some 71) []], .mk 71 none [.mk 71 (some 72) [], .mk 72 (some 73) []]]], .mk 73 none [.mk 73 none [.mk 73 none [.mk 73 (some 74) [], .mk 74 (some 75) []], .mk 75 none [.mk 75 (some 76) [], .mk 76 (some 77) []]], .mk 77 none [.mk 77 none [.mk 77 (some 78) [], .mk 78 (some 79) []], .mk 79 none [.mk 79 (some 80) [], .mk 80 (some 81) []]]]], .mk 81 none [.mk 81 none [.mk 81 none [.mk 81 none [.mk 81 (some 82) [], .mk 82 (some 83) []], .mk 83 none [.mk 83 (some 84) [], .mk 84 (some 85) []]], .mk 85 none [.mk 85 none [.mk 85 (some 86) [], .mk 86 (some 87) []], .mk 87 none [.mk 87 (some 88) [], .mk 88 (some 89) []]]], .mk 89 none [.mk 89 none [.mk 89 none [.mk 89 (some 90) [], .mk 90 (some 91) []], .mk 91 none [.mk 91 (some 92) [], .mk 92 (some 93) []]], .mk 93 none [.mk 93 none [.mk 93 (some 94) [], .mk 94 (some 95) []], .mk 95 none [.mk 95 (some 96) [], .mk 96 (some 97) []]]]]], .mk 97 none [.mk 97 none [.mk 97 none [.mk 97 none [.mk 97 none [.mk 97 (some 98) [], .mk 98 (some 99) []], .mk 99 none [.mk 99 (some 100) [], .mk 100 (some 101) []]], .mk 101 none [.mk 101 none [.mk 101 (some 102) [], .mk 102 (some 103) []], .mk 103 none [.mk 103 (some 104) [], .mk 104 (some 105) []]]], .mk 105 none [.mk 105 none [.mk 105 none [.mk 105 (some 106) [], .mk 106 (some 107) []], .mk 107 none [.mk 107 (some 108) [], .mk 108 (some 109) []]], .mk 109 none [.mk 109 none [.mk 109 (some 110) [], .mk 110 (some 111) []], .mk 111 none [.mk 111 (some 112) [], .mk 112 (some 113) []]]]], .mk 113 none [.mk 113 none [.mk 113 none [.mk 113 none [.mk 113 (some 114) [], .mk 114 (some 115) []], .mk 115 none [.mk 115 (some 116) [], .mk 116 (some 117) []]], .mk 117 none [.mk 117 none [.mk 117 (some 118) [], .mk 118 (some 119) []], .mk 119 none [.mk 119 (some 120) [], .mk 120 (some 121) []]]], .mk 121 none [.mk 121 none [.mk 121 none [.mk 121 (some 122) [], .mk 122 (some 123) []], .mk 123 none [.mk 123 (some 124) [], .mk 124 (some 125) []]], .mk 125 none [.mk 125 none [.mk 125 (some 126) [], .mk 126 (some 127) []], .mk 127 none [.mk 127 (some 128) [], .mk 128 (some 129) []]]]]]]], .mk 129 none [.mk 129 none [.mk 129 none [.mk 129 none [.mk 129 none [.mk 129 none [.mk 129 none [.mk 129 (some 130) [], .mk 130 (some 131) []], .mk 131 none [.mk 131 (some 132) [], .mk 132 (some 133) []]], .mk 133 none [.mk 133 none [.mk 133 (some 134) [], .mk 134 (some 135) []], .mk 135 none [.mk 135 (some 136) [], .mk 136 (some 137) []]]], .mk 137 none [.mk 137 none [.mk 137 none [.mk 137 (some 138) [], .mk 138 (some 139) []], .mk 139 none [.mk 139 (some 140) [], .mk 140 (some 141) []]], .mk 141 none [.mk 141 none [.mk 141 (some 142) [], .mk 142 (some 143) []], .mk 143 none [.mk 143 (some 144) [], .mk 144 (some 145) []]]]], .mk 145 none [.mk 145 none [.mk 145 none [.mk 145 none [.mk 145 (some 146) [], .mk 146 (some 147) []], .mk 147 none [.mk 147 (some 148) [], .mk 148 (some 149) []]], .mk 149 none [.mk 149 none [.mk 149 (some 150) [], .mk 150 (some 151) []], .mk 151 none [.mk 151 (some 152) [], .mk 152 (some 153) []]]], .mk 153 none [.mk 153 none [.mk 153 none [.mk 153 (some 154) [], .mk 154 (some 155) []], .mk 155 none [.mk 155 (some 156) [], .mk 156 (some 157) []]], .mk 157 none [.mk 157 none [.mk 157 (some 158) [], .mk 158 (some 159) []], .mk 159 none [.mk 159 (some 160) [], .mk 160 (some 161) []]]]]], .mk 161 none [.mk 161 none [.mk 161 none [.mk 161 none [.mk 161 none [.mk 161 (some 162) [], .mk 162 (some 163) []], .mk 163 none [.mk 163 (some 164) [], .mk 164 (some 165) []]], .mk 165 none [.mk 165 none [.mk 165 (some 166) [], .mk 166 (some 167) []], .mk 167 none [.mk 167 (some 168) [], .mk 168 (some 169) []]]], .mk 169 none [.mk 169 none [.mk 169 none [.mk 169 (some 170) [], .mk 170 (some 171) []], .mk 171 none [.mk 171 (some 172) [], .mk 172 (some 173) []]], .mk 173 none [.mk 173 none [.mk 173 (some 174) [], .mk 174 (some 175) []], .mk 175 none [.mk 175 (some 176) [], .mk 176 (some 177) []]]]], .mk 177 none [.mk 177 none [.mk 177 none [.mk 177 none [.mk 177 (some 178) [], .mk 178 (some 179) []], .mk 179 none [.mk 179 (some 180) [], .mk 180 (some 181) []]], .mk 181 none [.mk 181 none [.mk 181 (some 182) [], .mk 182 (some 183) []], .mk 183 none [.mk 183 (some 184) [], .mk 184 (some 185) []]]], .mk 185 none [.mk 185 none [.mk 185 none [.mk 185 (some 186) [], .mk 186 (some 187) []], .mk 187 none [.mk 187 (some 188) [], .mk 188 (some 189) []]], .mk 189 none [.mk 189 none [.mk 189 (some 190) [], .mk 190 (some 191) []], .mk 191 none [.mk 191 (some 192) [], .mk 192 (some 193) []]]]]]], .mk 193 none [.mk 193 none [.mk 193 none [.mk 193 none [.mk 193 none [.mk 193 none [.mk 193 (some 194) [], .mk 194 (some 195) []], .mk 195 none [.mk 195 (some 196) [], .mk 196 (some 197) []]], .mk 197 none [.mk 197 none [.mk 197 (some 198) [], .mk 198 (some 199) []], .mk 199 none [.mk 199 (some 200) [], .mk 200 (some 201) []]]], .mk 201 none [.mk 201 none [.mk 201 none [.mk 201 (some 202) [], .mk 202 (some 203) []], .mk 203 none [.mk 203 (some 204) [], .mk 204 (some 205) []]], .mk 205 none [.mk 205 none [.mk 205 (some 206) [], .mk 206 (some 207) []], .mk 207 none [.mk 207 (some 208) [], .mk 208 (some 209) []]]]], .mk 209 none [.mk 209 none [.mk 209 none [.mk 209 none [.mk 209 (some 210) [], .mk 210 (some 211) []], .mk 211 none [.mk 211 (some 212) [], .mk 212 (some 213) []]], .mk 213 none [.mk 213 none [.mk 213 (some 214) [], .mk 214 (some 215) []], .mk 215 none [.mk 215 (some 216) [], .mk 216 (some 217) []]]], .mk 217 none [.mk 217 none [.mk 217 none [.mk 217 (some 218) [], .mk 218 (some 219) []], .mk 219 none [.mk 219 (some 220) [], .mk 220 (some 221) []]], .mk 221 none [.mk 221 none [.mk 221 (some 222) [], .mk 222 (some 223) []], .mk 223 none [.mk 223 (some 224) [], .mk 224 (some 225) []]]]]], .mk 225 none [.mk 225 none [.mk 225 none [.mk 225 none [.mk 225 none [.mk 225 (some 226) [], .mk 226 (some 227) []], .mk 227 none [.mk 227 (some 228) [], .mk 228 (some 229) []]], .mk 229 none [.mk 229 none [.mk 229 (some 230) [], .mk 230 (some 231) []], .mk 231 none [.mk 231 (some 232) [], .mk 232 (some 233) []]]], .mk 233 none [.mk 233 none [.mk 233 none [.mk 233 (some 234) [], .mk 234 (some 235) []], .mk 235 none [.mk 235 (some 236) [], .mk 236 (some 237) []]], .mk 237 none [.mk 237 none [.mk 237 (some 238) [], .mk 238 (some 239) []], .mk 239 none [.mk 239 (some 240) [], .mk 240 (some 241) []]]]], .mk 241 none [.mk 241 none [.mk 241 none [.mk 241 none [.mk 241 (some 242) [], .mk 242 (some 243) []], .mk 243 none [.mk 243 (some 244) [], .mk 244 (some 245) []]], .mk 245 none [.mk 245 none [.mk 245 (some 246) [], .mk 246 (some 247) []], .mk 247 none [.mk 247 (some 248) [], .mk 248 (some 249) []]]], .mk 249 none [.mk 249 none [.mk 249 none [.mk 249 (some 250) [], .mk 250 (some 251) []], .mk 251 none [.mk 251 (some 252) [], .mk 252 (some 253) []]], .mk 253 none [.mk 253 none [.mk 253 (some 254) [], .mk 254 (some 255) []], .mk 255 none [.mk 255 (some 256) [], .mk 256 (some 257) []]]]]]]]], .mk 257 none [.mk 257 none [.mk 257 none [.mk 257 none [.mk 257 none [.mk 257 none [.mk 257 none [.mk 257 none [.mk 257 (some 258) [], .mk 258 (some 259) []], .mk 259 none [.mk 259 (some 260) [], .mk 260 (some 261) []]], .mk 261 none [.mk 261 none [.mk 261 (some 262) [], .mk 262 (some 263) []], .mk 263 none [.mk 263 (some 264) [], .mk 264 (some 265) []]]], .mk 265 none [.mk 265 none [.mk 265 none [.mk 265 (some 266) [], .mk 266 (some 267) []], .mk 267 none [.mk 267 (some 268) [], .mk 268 (some 269) []]], .mk 269 none [.mk 269 none [.mk 269 (some 270) [], .mk 270 (some 271) []], .mk 271 none [.mk 271 (some 272) [], .mk 272 (some 273) []]]]], .mk 273 none [.mk 273 none [.mk 273 none [.mk 273 none [.mk 273 (some 274) [], .mk 274 (some 275) []], .mk 275 none [.mk 275 (some 276) [], .mk 276 (some 277) []]], .mk 277 none [.mk 277 none [.mk 277 (some 278) [], .mk 278 (some 279) []], .mk 279 none [.mk 279 (some 280) [], .mk 280 (some 281) []]]], .mk 281 none [.mk 281 none [.mk 281 none [.mk 281 (some 282) [], .mk 282 (some 283) []], .mk 283 none [.mk 283 (some 284) [], .mk 284 (some 285) []]], .mk 285 none [.mk 285 none [.mk 285 (some 286) [], .mk 286 (some 287) []], .mk 287 none [.mk 287 (some 288) [], .mk 288 (some 289) []]]]]], .mk 289 none [.mk 289 none [.mk 289 none [.mk 289 none [.mk 289 none [.mk 289 (some 290) [], .mk 290 (some 291) []], .mk 291 none [.mk 291 (some 292) [], .mk 292 (some 293) []]], .mk 293 none [.mk 293 none [.mk 293 (some 294) [], .mk 294 (some 295) []], .mk 295 none [.mk 295 (some 296) [], .mk 296 (some 297) []]]], .mk 297 none [.mk 297 none [.mk 297 none [.mk 297 (some 298) [], .mk 298 (some 299) []], .mk 299 none [.mk 299 (some 300) [], .mk 300 (some 301) []]], .mk 301 none [.mk 301 none [.mk 301 (some 302) [], .mk 302 (some 303) []], .mk 303 none [.mk 303 (some 304) [], .mk 304 (some 305) []]]]], .mk 305 none [.mk 305 none [.mk 305 none [.mk 305 none [.mk 305 (some 306) [], .mk 306 (some 307) []], .mk 307 none [.mk 307 (some 308) [], .mk 308 (some 309) []]], .mk 309 none [.mk 309 none [.mk 309 (some 310) [], .mk 310 (some 311) []], .mk 311 none [.mk 311 (some 312) [], .mk 312 (some 313) []]]], .mk 313 none [.mk 313 none [.mk 313 none [.mk 313 (some 314) [], .mk 314 (some 315) []], .mk 315 none [.mk 315 (some 316) [], .mk 316 (some 317) []]], .mk 317 none [.mk 317 none [.mk 317 (some 318) [], .mk 318 (some 319) []], .mk 319 none [.mk 319 (some 320) [], .mk 320 (some 321) []]]]]]], .mk 321 none [.mk 321 none [.mk 321 none [.mk 321 none [.mk 321 none [.mk 321 none [.mk 321 (some 322) [], .mk 322 (some 323) []], .mk 323 none [.mk 323 (some 324) [], .mk 324 (some 325) []]], .mk 325 none [.mk 325 none [.mk 325 (some 326) [], .mk 326 (some 327) []], .mk 327 none [.mk 327 (some 328) [], .mk 328 (some 329) []]]], .mk 329 none [.mk 329 none [.mk 329 none [.mk 329 (some 330) [], .mk 330 (some 331) []], .mk 331 none [.mk 331 (some 332) [], .mk 332 (some 333) []]], .mk 333 none [.mk 333 none [.mk 333 (some 334) [], .mk 334 (some 335) []], .mk 335 none [.mk 335 (some 336) [], .mk 336 (some 337) []]]]], .mk 337 none [.mk 337 none [.mk 337 none [.mk 337 none [.mk 337 (some 338) [], .mk 338 (some 339) []], .mk 339 none [.mk 339 (some 340) [], .mk 340 (some 341) []]], .mk 341 none [.mk 341 none [.mk 341 (some 342) [], .mk 342 (some 343) []], .mk 343 none [.mk 343 (some 344) [], .mk 344 (some 345) []]]], .mk 345 none [.mk 345 none [.mk 345 none [.mk 345 (some 346) [], .mk 346 (some 347) []], .mk 347 none [.mk 347 (some 348) [], .mk 348 (some 349) []]], .mk 349 none [.mk 349 none [.mk 349 (some 350) [], .mk 350 (some 351) []], .mk 351 none [.mk 351 (some 352) [], .mk 352 (some 353) []]]]]], .mk 353 none [.mk 353 none [.mk 353 none [.mk 353 none [.mk 353 none [.mk 353 (some 354) [], .mk 354 (some 355) []], .mk 355 none [.mk 355 (some 356) [], .mk 356 (some 357) []]], .mk 357 none [.mk 357 none [.mk 357 (some 358) [], .mk 358 (some 359) []], .mk 359 none [.mk 359 (some 360) [], .mk 360 (some 361) []]]], .mk 361 none [.mk 361 none [.mk 361 none [.mk 361 (some 362) [], .mk 362 (some 363) []], .mk 363 none [.mk 363 (some 364) [], .mk 364 (some 365) []]], .mk 365 none [.mk 365 none [.mk 365 (some 366) [], .mk 366 (some 367) []], .mk 367 none [.mk 367 (some 368) [], .mk 368 (some 369) []]]]], .mk 369 none [.mk 369 none [.mk 369 none [.mk 369 none [.mk 369 (some 370) [], .mk 370 (some 371) []], .mk 371 none [.mk 371 (some 372) [], .mk 372 (some 373) []]], .mk 373 none [.mk 373 none [.mk 373 (some 374) [], .mk 374 (some 375) []], .mk 375 none [.mk 375 (some 376) [], .mk 376 (some 377) []]]], .mk 377 none [.mk 377 none [.mk 377 none [.mk 377 (some 378) [], .mk 378 (some 379) []], .mk 379 none [.mk 379 (some 380) [], .mk 380 (some 381) []]], .mk 381 none [.mk 381 none [.mk 381 (some 382) [], .mk 382 (some 383) []], .mk 383 none [.mk 383 (some 384) [], .mk 384 (some 385) []]]]]]]], .mk 385 none [.mk 385 none [.mk 385 none [.mk 385 none [.mk 385 none [.mk 385 none [.mk 385 none [.mk 385 (some 386) [], .mk 386 (some 387) []], .mk 387 none [.mk 387 (some 388) [], .mk 388 (some 389) []]], .mk 389 none [.mk 389 none [.mk 389 (some 390) [], .mk 390 (some 391) []], .mk 391 none [.mk 391 (some 392) [], .mk 392 (some 393) []]]], .mk 393 none [.mk 393 none [.mk 393 none [.mk 393 (some 394) [], .mk 394 (some 395) []], .mk 395 none [.mk 395 (some 396) [], .mk 396 (some 397) []]], .mk 397 none [.mk 397 none [.mk 397 (some 398) [], .mk 398 (some 399) []], .mk 399 none [.mk 399 (some 400) [], .mk 400 (some 401) []]]]], .mk 401 none [.mk 401 none [.mk 401 none [.mk 401 none [.mk 401 (some 402) [], .mk 402 (some 403) []], .mk 403 none [.mk 403 (some 404) [], .mk 404 (some 405) []]], .mk 405 none [.mk 405 none [.mk 405 (some 406) [], .mk 406 (some 407) []], .mk 407 none [.mk 407 (some 408) [], .mk 408 (some 409) []]]], .mk 409 none [.mk 409 none [.mk 409 none [.mk 409 (some 410) [], .mk 410 (some 411) []], .mk 411 none [.mk 411 (some 412) [], .mk 412 (some 413) []]], .mk 413 none [.mk 413 none [.mk 413 (some 414) [], .mk 414 (some 415) []], .mk 415 none [.mk 415 (some 416) [], .mk 416 (some 417) []]]]]], .mk 417 none [.mk 417 none [.mk 417 none [.mk 417 none [.mk 417 none [.mk 417 (some 418) [], .mk 418 (some 419) []], .mk 419 none [.mk 419 (some 420) [], .mk 420 (some 421) []]], .mk 421 none [.mk 421 none [.mk 421 (some 422) [], .mk 422 (some 423) []], .mk 423 none [.mk 423 (some 424) [], .mk 424 (some 425) []]]], .mk 425 none [.mk 425 none [.mk 425 none [.mk 425 (some 426) [], .mk 426 (some 427) []], .mk 427 none [.mk 427 (some 428) [], .mk 428 (some 429) []]], .mk 429 none [.mk 429 none [.mk 429 (some 430) [], .mk 430 (some 431) []], .mk 431 none [.mk 431 (some 432) [], .mk 432 (some 433) []]]]], .mk 433 none [.mk 433 none [.mk 433 none [.mk 433 none [.mk 433 (some 434) [], .mk 434 (some 435) []], .mk 435 none [.mk 435 (some 436) [], .mk 436 (some 437) []]], .mk 437 none [.mk 437 none [.mk 437 (some 438) [], .mk 438 (some 439) []], .mk 439 none [.mk 439 (some 440) [], .mk 440 (some 441) []]]], .mk 441 none [.mk 441 none [.mk 441 none [.mk 441 (some 442) [], .mk 442 (some 443) []], .mk 443 none [.mk 443 (some 444) [], .mk 444 (some 445) []]], .mk 445 none [.mk 445 none [.mk 445 (some 446) [], .mk 446 (some 447) []], .mk 447 none [.mk 447 (some 448) [], .mk 448 (some 449) []]]]]]], .mk 449 none [.mk 449 none [.mk 449 none [.mk 449 none [.mk 449 none [.mk 449 none [.mk 449 (some 450) [], .mk 450 (some 451) []], .mk 451 none [.mk 451 (some 452) [], .mk 452 (some 453) []]], .mk 453 none [.mk 453 none [.mk 453 (some 454) [], .mk 454 (some 455) []], .mk 455 none [.mk 455 (some 456) [], .mk 456 (some 457) []]]], .mk 457 none [.mk 457 none [.mk 457 none [.mk 457 (some 458) [], .mk 458 (some 459) []], .mk 459 none [.mk 459 (some 460) [], .mk 460 (some 461) []]], .mk 461 none [.mk 461 none [.mk 461 (some 462) [], .mk 462 (some 463) []], .mk 463 none [.mk 463 (some 464) [], .mk 464 (some 465) []]]]], .mk 465 none [.mk 465 none [.mk 465 none [.mk 465 none [.mk 465 (some 466) [], .mk 466 (some 467) []], .mk 467 none [.mk 467 (some 468) [], .mk 468 (some 469) []]], .mk 469 none [.mk 469 none [.mk 469 (some 470) [], .mk 470 (some 471) []], .mk 471 none [.mk 471 (some 472) [], .mk 472 (some 473) []]]], .mk 473 none [.mk 473 none [.mk 473 none [.mk 473 (some 474) [], .mk 474 (some 475) []], .mk 475 none [.mk 475 (some 476) [], .mk 476 (some 477) []]], .mk 477 none [.mk 477 none [.mk 477 (some 478) [], .mk 478 (some 479) []], .mk 479 none [.mk 479 (some 480) [], .mk 480 (some 481) []]]]]], .mk 481 none [.mk 481 none [.mk 481 none [.mk 481 none [.mk 481 none [.mk 481 (some 482) [], .mk 482 (some 483) []], .mk 483 none [.mk 483 (some 484) [], .mk 484 (some 485) []]], .mk 485 none [.mk 485 none [.mk 485 (some 486) [], .mk 486 (some 487) []], .mk 487 none [.mk 487 (some 488) [], .mk 488 (some 489) []]]], .mk 489 none [.mk 489 none [.mk 489 none [.mk 489 (some 490) [], .mk 490 (some 491) []], .mk 491 none [.mk 491 (some 492) [], .mk 492 (some 493) []]], .mk 493 none [.mk 493 none [.mk 493 (some 494) [], .mk 494 (some 495) []], .mk 495 none [.mk 495 (some 496) [], .mk 496 (some 497) []]]]], .mk 497 none [.mk 497 none [.mk 497 none [.mk 497 none [.mk 497 (some 498) [], .mk 498 (some 499) []], .mk 499 none [.mk 499 (some 500) [], .mk 500 (some 501) []]], .mk 501 none [.mk 501 none [.mk 501 (some 502) [], .mk 502 (some 503) []], .mk 503 none [.mk 503 (some 504) [], .mk 504 (some 505) []]]], .mk 505 none [.mk 505 none [.mk 505 none [.mk 505 (some 506) [], .mk 506 (some 507) []], .mk 507 none [.mk 507 (some 508) [], .mk 508 (some 509) []]], .mk 509 none [.mk 509 none [.mk 509 (some 510) [], .mk 510 (some 511) []], .mk 511 none [.mk 511 (some 512) [], .mk 512 (some 513) []]]]]]]]], .mk 513 none [.mk 513 none [.mk 513 none [.mk 513 none [.mk 513 none [.mk 513 none [.mk 513 none [.mk 513 none [.mk 513 (some 514) [], .mk 514 (some 515) []], .mk 515 none [.mk 515 (some 516) [], .mk 516 (some 517) []]], .mk 517 none [.mk 517 none [.mk 517 (some 518) [], .mk 518 (some 519) []], .mk 519 none [.mk 519 (some 520) [], .mk 520 (some 521) []]]], .mk 521 none [.mk 521 none [.mk 521 none [.mk 521 (some 522) [], .mk 522 (some 523) []], .mk 523 none [.mk 523 (some 524) [], .mk 524 (some 525) []]], .mk 525 none [.mk 525 none [.mk 525 (some 526) [], .mk 526 (some 527) []], .mk 527 none [.mk 527 (some 528) [], .mk 528 (some 529) []]]]], .mk 529 none [.mk 529 none [.mk 529 none [.mk 529 none [.mk 529 (some 530) [], .mk 530 (some 531) []], .mk 531 none [.mk 531 (some 532) [], .mk 532 (some 533) []]], .mk 533 none [.mk 533 none [.mk 533 (some 534) [], .mk 534 (some 535) []], .mk 535 none [.mk 535 (some 536) [], .mk 536 (some 537) []]]], .mk 537 none [.mk 537 none [.mk 537 none [.mk 537 (some 538) [], .mk 538 (some 539) []], .mk 539 none [.mk 539 (some 540) [], .mk 540 (some 541) []]], .mk 541 none [.mk 541 none [.mk 541 (some 542) [], .mk 542 (some 543) []], .mk 543 none [.mk 543 (some 544) [], .mk 544 (some 545) []]]]]], .mk 545 none [.mk 545 none [.mk 545 none [.mk 545 none [.mk 545 none [.mk 545 (some 546) [], .mk 546 (some 547) []], .mk 547 none [.mk 547 (some 548) [], .mk 548 (some 549) []]], .mk 549 none [.mk 549 none [.mk 549 (some 550) [], .mk 550 (some 551) []], .mk 551 none [.mk 551 (some 552) [], .mk 552 (some 553) []]]], .mk 553 none [.mk 553 none [.mk 553 none [.mk 553 (some 554) [], .mk 554 (some 555) []], .mk 555 none [.mk 555 (some 556) [], .mk 556 (some 557) []]], .mk 557 none [.mk 557 none [.mk 557 (some 558) [], .mk 558 (some 559) []], .mk 559 none [.mk 559 (some 560) [], .mk 560 (some 561) []]]]], .mk 561 none [.mk 561 none [.mk 561 none [.mk 561 none [.mk 561 (some 562) [], .mk 562 (some 563) []], .mk 563 none [.mk 563 (some 564) [], .mk 564 (some 565) []]], .mk 565 none [.mk 565 none [.mk 565 (some 566) [], .mk 566 (some 567) []], .mk 567 none [.mk 567 (some 568) [], .mk 568 (some 569) []]]], .mk 569 none [.mk 569 none [.mk 569 none [.mk 569 (some 570) [], .mk 570 (some 571) []], .mk 571 none [.mk 571 (some 572) [], .mk 572 (some 573) []]], .mk 573 none [.mk 573 none [.mk 573 (some 574) [], .mk 574 (some 575) []], .mk 575 none [.mk 575 (some 576) [], .mk 576 (some 577) []]]]]]], .mk 577 none [.mk 577 none [.mk 577 none [.mk 577 none [.mk 577 none [.mk 577 none [.mk 577 (some 578) [], .mk 578 (some 579) []], .mk 579 none [.mk 579 (some 580) [], .mk 580 (some 581) []]], .mk 581 none [.mk 581 none [.mk 581 (some 582) [], .mk 582 (some 583) []], .mk 583 none [.mk 583 (some 584) [], .mk 584 (some 585) []]]], .mk 585 none [.mk 585 none [.mk 585 none [.mk 585 (some 586) [], .mk 586 (some 587) []], .mk 587 none [.mk 587 (some 588) [], .mk 588 (some 589) []]], .mk 589 none [.mk 589 none [.mk 589 (some 590) [], .mk 590 (some 591) []], .mk 591 none [.mk 591 (some 592) [], .mk 592 (some 593) []]]]], .mk 593 none [.mk 593 none [.mk 593 none [.mk 593 none [.mk 593 (some 594) [], .mk 594 (some 595) []], .mk 595 none [.mk 595 (some 596) [], .mk 596 (some 597) []]], .mk 597 none [.mk 597 none [.mk 597 (some 598) [], .mk 598 (some 599) []], .mk 599 none [.mk 599 (some 600) [], .mk 600 (some 601) []]]], .mk 601 none [.mk 601 none [.mk 601 none [.mk 601 (some 602) [], .mk 602 (some 603) []], .mk 603 none [.mk 603 (some 604) [], .mk 604 (some 605) []]], .mk 605 none [.mk 605 none [.mk 605 (some 606) [], .mk 606 (some 607) []], .mk 607 none [.mk 607 (some 608) [], .mk 608 (some 609) []]]]]], .mk 609 none [.mk 609 none [.mk 609 none [.mk 609 none [.mk 609 none [.mk 609 (some 610) [], .mk 610 (some 611) []], .mk 611 none [.mk 611 (some 612) [], .mk 612 (some 613) []]], .mk 613 none [.mk 613 none [.mk 613 (some 614) [], .mk 614 (some 615) []], .mk 615 none [.mk 615 (some 616) [], .mk 616 (some 617) []]]], .mk 617 none [.mk 617 none [.mk 617 none [.mk 617 (some 618) [], .mk 618 (some 619) []], .mk 619 none [.mk 619 (some 620) [], .mk 620 (some 621) []]], .mk 621 none [.mk 621 none [.mk 621 (some 622) [], .mk 622 (some 623) []], .mk 623 none [.mk 623 (some 624) [], .mk 624 (some 625) []]]]], .mk 625 none [.mk 625 none [.mk 625 none [.mk 625 none [.mk 625 (some 626) [], .mk 626 (some 627) []], .mk 627 none [.mk 627 (some 628) [], .mk 628 (some 629) []]], .mk 629 none [.mk 629 none [.mk 629 (some 630) [], .mk 630 (some 631) []], .mk 631 none [.mk 631 (some 632) [], .mk 632 (some 633) []]]], .mk 633 none [.mk 633 none [.mk 633 none [.mk 633 (some 634) [], .mk 634 (some 635) []], .mk 635 none [.mk 635 (some 636) [], .mk 636 (some 637) []]], .mk 637 none [.mk 637 none [.mk 637 (some 638) [], .mk 638 (some 639) []], .mk 639 none [.mk 639 (some 640) [], .mk 640 (some 641) []]]]]]]], .mk 641 none [.mk 641 none [.mk 641 none [.mk 641 none [.mk 641 none [.mk 641 none [.mk 641 none [.mk 641 (some 642) [], .mk 642 (some 643) []], .mk 643 none [.mk 643 (some 644) [], .mk 644 (some 645) []]], .mk 645 none [.mk 645 none [.mk 645 (some 646) [], .mk 646 (some 647) []], .mk 647 none [.mk 647 (some 648) [], .mk 648 (some 649) []]]], .mk 649 none [.mk 649 none [.mk 649 none [.mk 649 (some 650) [], .mk 650 (some 651) []], .mk 651 none [.mk 651 (some 652) [], .mk 652 (some 653) []]], .mk 653 none [.mk 653 none [.mk 653 (some 654) [], .mk 654 (some 655) []], .mk 655 none [.mk 655 (some 656) [], .mk 656 (some 657) []]]]], .mk 657 none [.mk 657 none [.mk 657 none [.mk 657 none [.mk 657 (some 658) [], .mk 658 (some 659) []], .mk 659 none [.mk 659 (some 660) [], .mk 660 (some 661) []]], .mk 661 none [.mk 661 none [.mk 661 (some 662) [], .mk 662 (some 663) []], .mk 663 none [.mk 663 (some 664) [], .mk 664 (some 665) []]]], .mk 665 none [.mk 665 none [.mk 665 none [.mk 665 (some 666) [], .mk 666 (some 667) []], .mk 667 none [.mk 667 (some 668) [], .mk 668 (some 669) []]], .mk 669 none [.mk 669 none [.mk 669 (some 670) [], .mk 670 (some 671) []], .mk 671 none [.mk 671 (some 672) [], .mk 672 (some 673) []]]]]], .mk 673 none [.mk 673 none [.mk 673 none [.mk 673 none [.mk 673 none [.mk 673 (some 674) [], .mk 674 (some 675) []], .mk 675 none [.mk 675 (some 676) [], .mk 676 (some 677) []]], .mk 677 none [.mk 677 none [.mk 677 (some 678) [], .mk 678 (some 679) []], .mk 679 none [.mk 679 (some 680) [], .mk 680 (some 681) []]]], .mk 681 none [.mk 681 none [.mk 681 none [.mk 681 (some 682) [], .mk 682 (some 683) []], .mk 683 none [.mk 683 (some 684) [], .mk 684 (some 685) []]], .mk 685 none [.mk 685 none [.mk 685 (some 686) [], .mk 686 (some 687) []], .mk 687 none [.mk 687 (some 688) [], .mk 688 (some 689) []]]]], .mk 689 none [.mk 689 none [.mk 689 none [.mk 689 none [.mk 689 (some 690) [], .mk 690 (some 691) []], .mk 691 none [.mk 691 (some 692) [], .mk 692 (some 693) []]], .mk 693 none [.mk 693 none [.mk 693 (some 694) [], .mk 694 (some 695) []], .mk 695 none [.mk 695 (some 696) [], .mk 696 (some 697) []]]], .mk 697 none [.mk 697 none [.mk 697 none [.mk 697 (some 698) [], .mk 698 (some 699) []], .mk 699 none [.mk 699 (some 700) [], .mk 700 (some 701) []]], .mk 701 none [.mk 701 none [.mk 701 (some 702) [], .mk 702 (some 703) []], .mk 703 none [.mk 703 (some 704) [], .mk 704 (some 705) []]]]]]], .mk 705 none [.mk 705 none [.mk 705 none [.mk 705 none [.mk 705 none [.mk 705 none [.mk 705 (some 706) [], .mk 706 (some 707) []], .mk 707 none [.mk 707 (some 708) [], .mk 708 (some 709) []]], .mk 709 none [.mk 709 none [.mk 709 (some 710) [], .mk 710 (some 711) []], .mk 711 none [.mk 711 (some 712) [], .mk 712 (some 713) []]]], .mk 713 none [.mk 713 none [.mk 713 none [.mk 713 (some 714) [], .mk 714 (some 715) []], .mk 715 none [.mk 715 (some 716) [], .mk 716 (some 717) []]], .mk 717 none [.mk 717 none [.mk 717 (some 718) [], .mk 718 (some 719) []], .mk 719 none [.mk 719 (some 720) [], .mk 720 (some 721) []]]]], .mk 721 none [.mk 721 none [.mk 721 none [.mk 721 none [.mk 721 (some 722) [], .mk 722 (some 723) []], .mk 723 none [.mk 723 (some 724) [], .mk 724 (some 725) []]], .mk 725 none [.mk 725 none [.mk 725 (some 726) [], .mk 726 (some 727) []], .mk 727 none [.mk 727 (some 728) [], .mk 728 (some 729) []]]], .mk 729 none [.mk 729 none [.mk 729 none [.mk 729 (some 730) [], .mk 730 (some 731) []], .mk 731 none [.mk 731 (some 732) [], .mk 732 (some 733) []]], .mk 733 none [.mk 733 none [.mk 733 (some 734) [], .mk 734 (some 735) []], .mk 735 none [.mk 735 (some 736) [], .mk 736 (some 737) []]]]]], .mk 737 none [.mk 737 none [.mk 737 none [.mk 737 none [.mk 737 none [.mk 737 (some 738) [], .mk 738 (some 739) []], .mk 739 none [.mk 739 (some 740) [], .mk 740 (some 741) []]], .mk 741 none [.mk 741 none [.mk 741 (some 742) [], .mk 742 (some 743) []], .mk 743 none [.mk 743 (some 744) [], .mk 744 (some 745) []]]], .mk 745 none [.mk 745 none [.mk 745 none [.mk 745 (some 746) [], .mk 746 (some 747) []], .mk 747 none [.mk 747 (some 748) [], .mk 748 (some 749) []]], .mk 749 none [.mk 749 none [.mk 749 (some 750) [], .mk 750 (some 751) []], .mk 751 none [.mk 751 (some 752) [], .mk 752 (some 753) []]]]], .mk 753 none [.mk 753 none [.mk 753 none [.mk 753 none [.mk 753 (some 754) [], .mk 754 (some 755) []], .mk 755 none [.mk 755 (some 756) [], .mk 756 (some 757) []]], .mk 757 none [.mk 757 none [.mk 757 (some 758) [], .mk 758 (some 759) []], .mk 759 none [.mk 759 (some 760) [], .mk 760 (some 761) []]]], .mk 761 none [.mk 761 none [.mk 761 none [.mk 761 (some 762) [], .mk 762 (some 763) []], .mk 763 none [.mk 763 (some 764) [], .mk 764 (some 765) []]], .mk 765 none [.mk 765 none [.mk 765 (some 766) [], .mk 766 (some 767) []], .mk 767 none [.mk 767 (some 768) [], .mk 768 (some 769) []]]]]], .mk 769 none [.mk 769 none [.mk 769 none [.mk 769 none [.mk 769 none [.mk 769 (some 770) [], .mk 770 (some 771) []], .mk 771 none [.mk 771 (some 772) [], .mk 772 (some 773) []]], .mk 773 none [.mk 773 none [.mk 773 (some 774) [], .mk 774 (some 775) []], .mk 775 none [.mk 775 (some 776) [], .mk 776 (some 777) []]]], .mk 777 none [.mk 777 none [.mk 777 none [.mk 777 (some 778) [], .mk 778 (some 779) []], .mk 779 none [.mk 779 (some 780) [], .mk 780 (some 781) []]], .mk 781 none [.mk 781 none [.mk 781 (some 782) [], .mk 782 (some 783) []], .mk 783 none [.mk 783 (some 784) [], .mk 784 (some 785) []]]]], .mk 785 none [.mk 785 none [.mk 785 none [.mk 785 none [.mk 785 (some 786) [], .mk 786 (some 787) []], .mk 787 none [.mk 787 (some 788) [], .mk 788 (some 789) []]], .mk 789 none [.mk 789 none [.mk 789 (some 790) [], .mk 790 (some 791) []], .mk 791 none [.mk 791 (some 792) [], .mk 792 (some 793) []]]], .mk 793 none [.mk 793 none [.mk 793 none [.mk 793 (some 794) [], .mk 794 (some 795) []], .mk 795 none [.mk 795 (some 796) [], .mk 796 (some 797) []]], .mk 797 none [.mk 797 none [.mk 797 (some 798) [], .mk 798 (some 799) []], .mk 799 none [.mk 799 (some 800) [], .mk 800 (some 801) []]]]]]]]]], 800, 8⟩

/-- The multiway tree after all 1000 puts of the scenario (to be
certified below). -/
def c7m5 : BTree :=⟨[.mk 1 none [.mk 1 none [.mk 1 none [.mk 1 none [.mk 1 none [.mk 1 none [.mk 1 none [.mk 1 none [.mk 1 (some 2) [], .mk 2 (some 3) []], .mk 3 none [.mk 3 (some 4) [], .mk 4 (some 5) []]], .mk 5 none [.mk 5 none [.mk 5 (some 6) [], .mk 6 (some 7) []], .mk 7 none [.mk 7 (some 8) [], .mk 8 (some 9) []]]], .mk 9 none [.mk 9 none [.mk 9 none [.mk 9 (some 10) [], .mk 10 (some 11) []], .mk 11 none [.mk 11 (some 12) [], .mk 12 (some 13) []]], .mk 13 none [.mk 13 none [.mk 13 (some 14) [], .mk 14 (some 15) []], .mk 15 none [.mk 15 (some 16) [], .mk 16 (some 17) []]]]], .mk 17 none [.mk 17 none [.mk 17 none [.mk 17 none [.mk 17 (some 18) [], .mk 18 (some 19) []], .mk 19 none [.mk 19 (some 20) [], .mk 20 (some 21) []]], .mk 21 none [.mk 21 none [.mk 21 (some 22) [], .mk 22 (some 23) []], .mk 23 none [.mk 23 (some 24) [], .mk 24 (some 25) []]]], .mk 25 none [.mk 25 none [.mk 25 none [.mk 25 (some 26) [], .mk 26 (some 27) []], .mk 27 none [.mk 27 (some 28) [], .mk 28 (some 29) []]], .mk 29 none [.mk 29 none [.mk 29 (some 30) [], .mk 30 (some 31) []], .mk 31 none [.mk 31 (some 32) [], .mk 32 (some 33) []]]]]], .mk 33 none [.mk 33 none [.mk 33 none [.mk 33 none [.mk 33 none [.mk 33 (some 34) [], .mk 34 (some 35) []], .mk 35 none [.mk 35 (some 36) [], .mk 36 (some 37) []]], .mk 37 none [.mk 37 none [.mk 37 (some 38) [], .mk 38 (some 39) []], .mk 39 none [.mk 39 (some 40) [], .mk 40 (some 41) []]]], .mk 41 none [.mk 41 none [.mk 41 none [.mk 41 (some 42) [], .mk 42 (some 43) []], .mk 43 none [.mk 43 (some 44) [], .mk 44 (some 45) []]], .mk 45 none [.mk 45 none [.mk 45 (some 46) [], .mk 46 (some 47) []], .mk 47 none [.mk 47 (some 48) [], .mk 48 (some 49) []]]]], .mk 49 none [.mk 49 none [.mk 49 none [.mk 49 none [.mk 49 (some 50) [], .mk 50 (some 51) []], .mk 51 none [.mk 51 (some 52) [], .mk 52 (some 53) []]], .mk 53 none [.mk 53 none [.mk 53 (some 54) [], .mk 54 (some 55) []], .mk 55 none [.mk 55 (some 56) [], .mk 56 (some 57) []]]], .mk 57 none [.mk 57 none [.mk 57 none [.mk 57 (some 58) [], .mk 58 (some 59) []], .mk 59 none [.mk 59 (some 60) [], .mk 60 (some 61) []]], .mk 61 none [.mk 61 none [.mk 61 (some 62) [], .mk 62 (some 63) []], .mk 63 none [.mk 63 (some 64) [], .mk 64 (some 65) []]]]]]], .mk 65 none [.mk 65 none [.mk 65 none [.mk 65 none [.mk 65 none [.mk 65 none [.mk 65 (some 66) [], .mk 66 (some 67) []], .mk 67 none [.mk 67 (some 68) [], .mk 68 (some 69) []]], .mk 69 none [.mk 69 none [.mk 69 (some 70) [], .mk 70 (some 71) []], .mk 71 none [.mk 71 (some 72) [], .mk 72 (some 73) []]]], .mk 73 none [.mk 73 none [.mk 73 none [.mk 73 (some 74) [], .mk 74 (some 75) []], .mk 75 none [.mk 75 (some 76) [], .mk 76 (some 77) []]], .mk 77 none [.mk 77 none [.mk 77 (some 78) [], .mk 78 (some 79) []], .mk 79 none [.mk 79 (some 80) [], .mk 80 (some 81) []]]]], .mk 81 none [.mk 81 none [.mk 81 none [.mk 81 none [.mk 81 (some 82) [], .mk 82 (some 83) []], .mk 83 none [.mk 83 (some 84) [], .mk 84 (some 85) []]], .mk 85 none [.mk 85 none [.mk 85 (some 86) [], .mk 86 (some 87) []], .mk 87 none [.mk 87 (some 88) [], .mk 88 (some 89) []]]], .mk 89 none [.mk 89 none [.mk 89 none [.mk 89 (some 90) [], .mk 90 (some 91) []], .mk 91 none [.mk 91 (some 92) [], .mk 92 (some 93) []]], .mk 93 none [.mk 93 none [.mk 93 (some 94) [], .mk 94 (some 95) []], .mk 95 none [.mk 95 (some 96) [], .mk 96 (some 97) []]]]]], .mk 97 none [.mk 97 none [.mk 97 none [.mk 97 none [.mk 97 none [.mk 97 (some 98) [], .mk 98 (some 99) []], .mk 99 none [.mk 99 (some 100) [], .mk 100 (some 101) []]], .mk 101 none [.mk 101 none [.mk 101 (some 102) [], .mk 102 (some 103) []], .mk 103 none [.mk 103 (some 104) [], .mk 104 (some 105) []]]], .mk 105 none [.mk 105 none [.mk 105 none [.mk 105 (some 106) [], .mk 106 (some 107) []], .mk 107 none [.mk 107 (some 108) [], .mk 108 (some 109) []]], .mk 109 none [.mk 109 none [.mk 109 (some 110) [], .mk 110 (some 111) []], .mk 111 none [.mk 111 (some 112) [], .mk 112 (some 113) []]]]], .mk 113 none [.mk 113 none [.mk 113 none [.mk 113 none [.mk 113 (some 114) [], .mk 114 (some 115) []], .mk 115 none [.mk 115 (some 116) [], .mk 116 (some 117) []]], .mk 117 none [.mk 117 none [.mk 117 (some 118) [], .mk 118 (some 119) []], .mk 119 none [.mk 119 (some 120) [], .mk 120 (some 121) []]]], .mk 121 none [.mk 121 none [.mk 121 none [.mk 121 (some 122) [], .mk 122 (some 123) []], .mk 123 none [.mk 123 (some 124) [], .mk 124 (some 125) []]], .mk 125 none [.mk 125 none [.mk 125 (some 126) [], .mk 126 (some 127) []], .mk 127 none [.mk 127 (some 128) [], .mk 128 (some 129) []]]]]]]], .mk 129 none [.mk 129 none [.mk 129 none [.mk 129 none [.mk 129 none [.mk 129 none [.mk 129 none [.mk 129 (some 130) [], .mk 130 (some 131) []], .mk 131 none [.mk 131 (some 132) [], .mk 132 (some 133) []]], .mk 133 none [.mk 133 none [.mk 133 (some 134) [], .mk 134 (some 135) []], .mk 135 none [.mk 135 (some 136) [], .mk 136 (some 137) []]]], .mk 137 none [.mk 137 none [.mk 137 none [.mk 137 (some 138) [], .mk 138 (some 139) []], .mk 139 none [.mk 139 (some 140) [], .mk 140 (some 141) []]], .mk 141 none [.mk 141 none [.mk 141 (some 142) [], .mk 142 (some 143) []], .mk 143 none [.mk 143 (some 144) [], .mk 144 (some 145) []]]]], .mk 145 none [.mk 145 none [.mk 145 none [.mk 145 none [.mk 145 (some 146) [], .mk 146 (some 147) []], .mk 147 none [.mk 147 (some 148) [], .mk 148 (some 149) []]], .mk 149 none [.mk 149 none [.mk 149 (some 150) [], .mk 150 (some 151) []], .mk 151 none [.mk 151 (some 152) [], .mk 152 (some 153) []]]], .mk 153 none [.mk 153 none [.mk 153 none [.mk 153 (some 154) [], .mk 154 (some 155) []], .mk 155 none [.mk 155 (some 156) [], .mk 156 (some 157) []]], .mk 157 none [.mk 157 none [.mk 157 (some 158) [], .mk 158 (some 159) []], .mk 159 none [.mk 159 (some 160) [], .mk 160 (some 161) []]]]]], .mk 161 none [.mk 161 none [.mk 161 none [.mk 161 none [.mk 161 none [.mk 161 (some 162) [], .mk 162 (some 163) []], .mk 163 none [.mk 163 (some 164) [], .mk 164 (some 165) []]], .mk 165 none [.mk 165 none [.mk 165 (some 166) [], .mk 166 (some 167) []], .mk 167 none [.mk 167 (some 168) [], .mk 168 (some 169) []]]], .mk 169 none [.mk 169 none [.mk 169 none [.mk 169 (some 170) [], .mk 170 (some 171) []], .mk 171 none [.mk 171 (some 172) [], .mk 172 (some 173) []]], .mk 173 none [.mk 173 none [.mk 173 (some 174) [], .mk 174 (some 175) []], .mk 175 none [.mk 175 (some 176) [], .mk 176 (some 177) []]]]], .mk 177 none [.mk 177 none [.mk 177 none [.mk 177 none [.mk 177 (some 178) [], .mk 178 (some 179) []], .mk 179 none [.mk 179 (some 180) [], .mk 180 (some 181) []]], .mk 181 none [.mk 181 none [.mk 181 (some 182) [], .mk 182 (some 183) []], .mk 183 none [.mk 183 (some 184) [], .mk 184 (some 185) []]]], .mk 185 none [.mk 185 none [.mk 185 none [.mk 185 (some 186) [], .mk 186 (some 187) []], .mk 187 none [.mk 187 (some 188) [], .mk 188 (some 189) []]], .mk 189 none [.mk 189 none [.mk 189 (some 190) [], .mk 190 (some 191) []], .mk 191 none [.mk 191 (some 192) [], .mk 192 (some 193) []]]]]]], .mk 193 none [.mk 193 none [.mk 193 none [.mk 193 none [.mk 193 none [.mk 193 none [.mk 193 (some 194) [], .mk 194 (some 195) []], .mk 195 none [.mk 195 (some 196) [], .mk 196 (some 197) []]], .mk 197 none [.mk 197 none [.mk 197 (some 198) [], .mk 198 (some 199) []], .mk 199 none [.mk 199 (some 200) [], .mk 200 (some 201) []]]], .mk 201 none [.mk 201 none [.mk 201 none [.mk 201 (some 202) [], .mk 202 (some 203) []], .mk 203 none [.mk 203 (some 204) [], .mk 204 (some 205) []]], .mk 205 none [.mk 205 none [.mk 205 (some 206) [], .mk 206 (some 207) []], .mk 207 none [.mk 207 (some 208) [], .mk 208 (some 209) []]]]], .mk 209 none [.mk 209 none [.mk 209 none [.mk 209 none [.mk 209 (some 210) [], .mk 210 (some 211) []], .mk 211 none [.mk 211 (some 212) [], .mk 212 (some 213) []]], .mk 213 none [.mk 213 none [.mk 213 (some 214) [], .mk 214 (some 215) []], .mk 215 none [.mk 215 (some 216) [], .mk 216 (some 217) []]]], .mk 217 none [.mk 217 none [.mk 217 none [.mk 217 (some 218) [], .mk 218 (some 219) []], .mk 219 none [.mk 219 (some 220) [], .mk 220 (some 221) []]], .mk 221 none [.mk 221 none [.mk 221 (some 222) [], .mk 222 (some 223) []], .mk 223 none [.mk 223 (some 224) [], .mk 224 (some 225) []]]]]], .mk 225 none [.mk 225 none [.mk 225 none [.mk 225 none [.mk 225 none [.mk 225 (some 226) [], .mk 226 (some 227) []], .mk 227 none [.mk 227 (some 228) [], .mk 228 (some 229) []]], .mk 229 none [.mk 229 none [.mk 229 (some 230) [], .mk 230 (some 231) []], .mk 231 none [.mk 231 (some 232) [], .mk 232 (some 233) []]]], .mk 233 none [.mk 233 none [.mk 233 none [.mk 233 (some 234) [], .mk 234 (some 235) []], .mk 235 none [.mk 235 (some 236) [], .mk 236 (some 237) []]], .mk 237 none [.mk 237 none [.mk 237 (some 238) [], .mk 238 (some 239) []], .mk 239 none [.mk 239 (some 240) [], .mk 240 (some 241) []]]]], .mk 241 none [.mk 241 none [.mk 241 none [.mk 241 none [.mk 241 (some 242) [], .mk 242 (some 243) []], .mk 243 none [.mk 243 (some 244) [], .mk 244 (some 245) []]], .mk 245 none [.mk 245 none [.mk 245 (some 246) [], .mk 246 (some 247) []], .mk 247 none [.mk 247 (some 248) [], .mk 248 (some 249) []]]], .mk 249 none [.mk 249 none [.mk 249 none [.mk 249 (some 250) [], .mk 250 (some 251) []], .mk 251 none [.mk 251 (some 252) [], .mk 252 (some 253) []]], .mk 253 none [.mk 253 none [.mk 253 (some 254) [], .mk 254 (some 255) []], .mk 255 none [.mk 255 (some 256) [], .mk 256 (some 257) []]]]]]]]], .mk 257 none [.mk 257 none [.mk 257 none [.mk 257 none [.mk 257 none [.mk 257 none [.mk 257 none [.mk 257 none [.mk 257 (some 258) [], .mk 258 (some 259) []], .mk 259 none [.mk 259 (some 260) [], .mk 260 (some 261) []]], .mk 261 none [.mk 261 none [.mk 261 (some 262) [], .mk 262 (some 263) []], .mk 263 none [.mk 263 (some 264) [], .mk 264 (some 265) []]]], .mk 265 none [.mk 265 none [.mk 265 none [.mk 265 (some 266) [], .mk 266 (some 267) []], .mk 267 none [.mk 267 (some 268) [], .mk 268 (some 269) []]], .mk 269 none [.mk 269 none [.mk 269 (some 270) [], .mk 270 (some 271) []], .mk 271 none [.mk 271 (some 272) [], .mk 272 (some 273) []]]]], .mk 273 none [.mk 273 none [.mk 273 none [.mk 273 none [.mk 273 (some 274) [], .mk 274 (some 275) []], .mk 275 none [.mk 275 (some 276) [], .mk 276 (some 277) []]], .mk 277 none [.mk 277 none [.mk 277 (some 278) [], .mk 278 (some 279) []], .mk 279 none [.mk 279 (some 280) [], .mk 280 (some 281) []]]], .mk 281 none [.mk 281 none [.mk 281 none [.mk 281 (some 282) [], .mk 282 (some 283) []], .mk 283 none [.mk 283 (some 284) [], .mk 284 (some 285) []]], .mk 285 none [.mk 285 none [.mk 285 (some 286) [], .mk 286 (some 287) []], .mk 287 none [.mk 287 (some 288) [], .mk 288 (some 289) []]]]]], .mk 289 none [.mk 289 none [.mk 289 none [.mk 289 none [.mk 289 none [.mk 289 (some 290) [], .mk 290 (some 291) []], .mk 291 none [.mk 291 (some 292) [], .mk 292 (some 293) []]], .mk 293 none [.mk 293 none [.mk 293 (some 294) [], .mk 294 (some 295) []], .mk 295 none [.mk 295 (some 296) [], .mk 296 (some 297) []]]], .mk 297 none [.mk 297 none [.mk 297 none [.mk 297 (some 298) [], .mk 298 (some 299) []], .mk 299 none [.mk 299 (some 300) [], .mk 300 (some 301) []]], .mk 301 none [.mk 301 none [.mk 301 (some 302) [], .mk 302 (some 303) []], .mk 303 none [.mk 303 (some 304) [], .mk 304 (some 305) []]]]], .mk 305 none [.mk 305 none [.mk 305 none [.mk 305 none [.mk 305 (some 306) [], .mk 306 (some 307) []], .mk 307 none [.mk 307 (some 308) [], .mk 308 (some 309) []]], .mk 309 none [.mk 309 none [.mk 309 (some 310) [], .mk 310 (some 311) []], .mk 311 none [.mk 311 (some 312) [], .mk 312 (some 313) []]]], .mk 313 none [.mk 313 none [.mk 313 none [.mk 313 (some 314) [], .mk 314 (some 315) []], .mk 315 none [.mk 315 (some 316) [], .mk 316 (some 317) []]], .mk 317 none [.mk 317 none [.mk 317 (some 318) [], .mk 318 (some 319) []], .mk 319 none [.mk 319 (some 320) [], .mk 320 (some 321) []]]]]]], .mk 321 none [.mk 321 none [.mk 321 none [.mk 321 none [.mk 321 none [.mk 321 none [.mk 321 (some 322) [], .mk 322 (some 323) []], .mk 323 none [.mk 323 (some 324) [], .mk 324 (some 325) []]], .mk 325 none [.mk 325 none [.mk 325 (some 326) [], .mk 326 (some 327) []], .mk 327 none [.mk 327 (some 328) [], .mk 328 (some 329) []]]], .mk 329 none [.mk 329 none [.mk 329 none [.mk 329 (some 330) [], .mk 330 (some 331) []], .mk 331 none [.mk 331 (some 332) [], .mk 332 (some 333) []]], .mk 333 none [.mk 333 none [.mk 333 (some 334) [], .mk 334 (some 335) []], .mk 335 none [.mk 335 (some 336) [], .mk 336 (some 337) []]]]], .mk 337 none [.mk 337 none [.mk 337 none [.mk 337 none [.mk 337 (some 338) [], .mk 338 (some 339) []], .mk 339 none [.mk 339 (some 340) [], .mk 340 (some 341) []]], .mk 341 none [.mk 341 none [.mk 341 (some 342) [], .mk 342 (some 343) []], .mk 343 none [.mk 343 (some 344) [], .mk 344 (some 345) []]]], .mk 345 none [.mk 345 none [.mk 345 none [.mk 345 (some 346) [], .mk 346 (some 347) []], .mk 347 none [.mk 347 (some 348) [], .mk 348 (some 349) []]], .mk 349 none [.mk 349 none [.mk 349 (some 350) [], .mk 350 (some 351) []], .mk 351 none [.mk 351 (some 352) [], .mk 352 (some 353) []]]]]], .mk 353 none [.mk 353 none [.mk 353 none [.mk 353 none [.mk 353 none [.mk 353 (some 354) [], .mk 354 (some 355) []], .mk 355 none [.mk 355 (some 356) [], .mk 356 (some 357) []]], .mk 357 none [.mk 357 none [.mk 357 (some 358) [], .mk 358 (some 359) []], .mk 359 none [.mk 359 (some 360) [], .mk 360 (some 361) []]]], .mk 361 none [.mk 361 none [.mk 361 none [.mk 361 (some 362) [], .mk 362 (some 363) []], .mk 363 none [.mk 363 (some 364) [], .mk 364 (some 365) []]], .mk 365 none [.mk 365 none [.mk 365 (some 366) [], .mk 366 (some 367) []], .mk 367 none [.mk 367 (some 368) [], .mk 368 (some 369) []]]]], .mk 369 none [.mk 369 none [.mk 369 none [.mk 369 none [.mk 369 (some 370) [], .mk 370 (some 371) []], .mk 371 none [.mk 371 (some 372) [], .mk 372 (some 373) []]], .mk 373 none [.mk 373 none [.mk 373 (some 374) [], .mk 374 (some 375) []], .mk 375 none [.mk 375 (some 376) [], .mk 376 (some 377) []]]], .mk 377 none [.mk 377 none [.mk 377 none [.mk 377 (some 378) [], .mk 378 (some 379) []], .mk 379 none [.mk 379 (some 380) [], .mk 380 (some 381) []]], .mk 381 none [.mk 381 none [.mk 381 (some 382) [], .mk 382 (some 383) []], .mk 383 none [.mk 383 (some 384) [], .mk 384 (some 385) []]]]]]]], .mk 385 none [.mk 385 none [.mk 385 none [.mk 385 none [.mk 385 none [.mk 385 none [.mk 385 none [.mk 385 (some 386) [], .mk 386 (some 387) []], .mk 387 none [.mk 387 (some 388) [], .mk 388 (some 389) []]], .mk 389 none [.mk 389 none [.mk 389 (some 390) [], .mk 390 (some 391) []], .mk 391 none [.mk 391 (some 392) [], .mk 392 (some 393) []]]], .mk 393 none [.mk 393 none [.mk 393 none [.mk 393 (some 394) [], .mk 394 (some 395) []], .mk 395 none [.mk 395 (some 396) [], .mk 396 (some 397) []]], .mk 397 none [.mk 397 none [.mk 397 (some 398) [], .mk 398 (some 399) []], .mk 399 none [.mk 399 (some 400) [], .mk 400 (some 401) []]]]], .mk 401 none [.mk 401 none [.mk 401 none [.mk 401 none [.mk 401 (some 402) [], .mk 402 (some 403) []], .mk 403 none [.mk 403 (some 404) [], .mk 404 (some 405) []]], .mk 405 none [.mk 405 none [.mk 405 (some 406) [], .mk 406 (some 407) []], .mk 407 none [.mk 407 (some 408) [], .mk 408 (some 409) []]]], .mk 409 none [.mk 409 none [.mk 409 none [.mk 409 (some 410) [], .mk 410 (some 411) []], .mk 411 none [.mk 411 (some 412) [], .mk 412 (some 413) []]], .mk 413 none [.mk 413 none [.mk 413 (some 414) [], .mk 414 (some 415) []], .mk 415 none [.mk 415 (some 416) [], .mk 416 (some 417) []]]]]], .mk 417 none [.mk 417 none [.mk 417 none [.mk 417 none [.mk 417 none [.mk 417 (some 418) [], .mk 418 (some 419) []], .mk 419 none [.mk 419 (some 420) [], .mk 420 (some 421) []]], .mk 421 none [.mk 421 none [.mk 421 (some 422) [], .mk 422 (some 423) []], .mk 423 none [.mk 423 (some 424) [], .mk 424 (some 425) []]]], .mk 425 none [.mk 425 none [.mk 425 none [.mk 425 (some 426) [], .mk 426 (some 427) []], .mk 427 none [.mk 427 (some 428) [], .mk 428 (some 429) []]], .mk 429 none [.mk 429 none [.mk 429 (some 430) [], .mk 430 (some 431) []], .mk 431 none [.mk 431 (some 432) [], .mk 432 (some 433) []]]]], .mk 433 none [.mk 433 none [.mk 433 none [.mk 433 none [.mk 433 (some 434) [], .mk 434 (some 435) []], .mk 435 none [.mk 435 (some 436) [], .mk 436 (some 437) []]], .mk 437 none [.mk 437 none [.mk 437 (some 438) [], .mk 438 (some 439) []], .mk 439 none [.mk 439 (some 440) [], .mk 440 (some 441) []]]], .mk 441 none [.mk 441 none [.mk 441 none [.mk 441 (some 442) [], .mk 442 (some 443) []], .mk 443 none [.mk 443 (some 444) [], .mk 444 (some 445) []]], .mk 445 none [.mk 445 none [.mk 445 (some 446) [], .mk 446 (some 447) []], .mk 447 none [.mk 447 (some 448) [], .mk 448 (some 449) []]]]]]], .mk 449 none [.mk 449 none [.mk 449 none [.mk 449 none [.mk 449 none [.mk 449 none [.mk 449 (some 450) [], .mk 450 (some 451) []], .mk 451 none [.mk 451 (some 452) [], .mk 452 (some 453) []]], .mk 453 none [.mk 453 none [.mk 453 (some 454) [], .mk 454 (some 455) []], .mk 455 none [.mk 455 (some 456) [], .mk 456 (some 457) []]]], .mk 457 none [.mk 457 none [.mk 457 none [.mk 457 (some 458) [], .mk 458 (some 459) []], .mk 459 none [.mk 459 (some 460) [], .mk 460 (some 461) []]], .mk 461 none [.mk 461 none [.mk 461 (some 462) [], .mk 462 (some 463) []], .mk 463 none [.mk 463 (some 464) [], .mk 464 (some 465) []]]]], .mk 465 none [.mk 465 none [.mk 465 none [.mk 465 none [.mk 465 (some 466) [], .mk 466 (some 467) []], .mk 467 none [.mk 467 (some 468) [], .mk 468 (some 469) []]], .mk 469 none [.mk 469 none [.mk 469 (some 470) [], .mk 470 (some 471) []], .mk 471 none [.mk 471 (some 472) [], .mk 472 (some 473) []]]], .mk 473 none [.mk 473 none [.mk 473 none [.mk 473 (some 474) [], .mk 474 (some 475) []], .mk 475 none [.mk 475 (some 476) [], .mk 476 (some 477) []]], .mk 477 none [.mk 477 none [.mk 477 (some 478) [], .mk 478 (some 479) []], .mk 479 none [.mk 479 (some 480) [], .mk 480 (some 481) []]]]]], .mk 481 none [.mk 481 none [.mk 481 none [.mk 481 none [.mk 481 none [.mk 481 (some 482) [], .mk 482 (some 483) []], .mk 483 none [.mk 483 (some 484) [], .mk 484 (some 485) []]], .mk 485 none [.mk 485 none [.mk 485 (some 486) [], .mk 486 (some 487) []], .mk 487 none [.mk 487 (some 488) [], .mk 488 (some 489) []]]], .mk 489 none [.mk 489 none [.mk 489 none [.mk 489 (some 490) [], .mk 490 (some 491) []], .mk 491 none [.mk 491 (some 492) [], .mk 492 (some 493) []]], .mk 493 none [.mk 493 none [.mk 493 (some 494) [], .mk 494 (some 495) []], .mk 495 none [.mk 495 (some 496) [], .mk 496 (some 497) []]]]], .mk 497 none [.mk 497 none [.mk 497 none [.mk 497 none [.mk 497 (some 498) [], .mk 498 (some 499) []], .mk 499 none [.mk 499 (some 500) [], .mk 500 (some 501) []]], .mk 501 none [.mk 501 none [.mk 501 (some 502) [], .mk 502 (some 503) []], .mk 503 none [.mk 503 (some 504) [], .mk 504 (some 505) []]]], .mk 505 none [.mk 505 none [.mk 505 none [.mk 505 (some 506) [], .mk 506 (some 507) []], .mk 507 none [.mk 507 (some 508) [], .mk 508 (some 509) []]], .mk 509 none [.mk 509 none [.mk 509 (some 510) [], .mk 510 (some 511) []], .mk 511 none [.mk 511 (some 512) [], .mk 512 (some 513) []]]]]]]]], .mk 513 none [.mk 513 none [.mk 513 none [.mk 513 none [.mk 513 none [.mk 513 none [.mk 513 none [.mk 513 none [.mk 513 (some 514) [], .mk 514 (some 515) []], .mk 515 none [.mk 515 (some 516) [], .mk 516 (some 517) []]], .mk 517 none [.mk 517 none [.mk 517 (some 518) [], .mk 518 (some 519) []], .mk 519 none [.mk 519 (some 520) [], .mk 520 (some 521) []]]], .mk 521 none [.mk 521 none [.mk 521 none [.mk 521 (some 522) [], .mk 522 (some 523) []], .mk 523 none [.mk 523 (some 524) [], .mk 524 (some 525) []]], .mk 525 none [.mk 525 none [.mk 525 (some 526) [], .mk 526 (some 527) []], .mk 527 none [.mk 527 (some 528) [], .mk 528 (some 529) []]]]], .mk 529 none [.mk 529 none [.mk 529 none [.mk 529 none [.mk 529 (some 530) [], .mk 530 (some 531) []], .mk 531 none [.mk 531 (some 532) [], .mk 532 (some 533) []]], .mk 533 none [.mk 533 none [.mk 533 (some 534) [], .mk 534 (some 535) []], .mk 535 none [.mk 535 (some 536) [], .mk 536 (some 537) []]]], .mk 537 none [.mk 537 none [.mk 537 none [.mk 537 (some 538) [], .mk 538 (some 539) []], .mk 539 none [.mk 539 (some 540) [], .mk 540 (some 541) []]], .mk 541 none [.mk 541 none [.mk 541 (some 542) [], .mk 542 (some 543) []], .mk 543 none [.mk 543 (some 544) [], .mk 544 (some 545) []]]]]], .mk 545 none [.mk 545 none [.mk 545 none [.mk 545 none [.mk 545 none [.mk 545 (some 546) [], .mk 546 (some 547) []], .mk 547 none [.mk 547 (some 548) [], .mk 548 (some 549) []]], .mk 549 none [.mk 549 none [.mk 549 (some 550) [], .mk 550 (some 551) []], .mk 551 none [.mk 551 (some 552) [], .mk 552 (some 553) []]]], .mk 553 none [.mk 553 none [.mk 553 none [.mk 553 (some 554) [], .mk 554 (some 555) []], .mk 555 none [.mk 555 (some 556) [], .mk 556 (some 557) []]], .mk 557 none [.mk 557 none [.mk 557 (some 558) [], .mk 558 (some 559) []], .mk 559 none [.mk 559 (some 560) [], .mk 560 (some 561) []]]]], .mk 561 none [.mk 561 none [.mk 561 none [.mk 561 none [.mk 561 (some 562) [], .mk 562 (some 563) []], .mk 563 none [.mk 563 (some 564) [], .mk 564 (some 565) []]], .mk 565 none [.mk 565 none [.mk 565 (some 566) [], .mk 566 (some 567) []], .mk 567 none [.mk 567 (some 568) [], .mk 568 (some 569) []]]], .mk 569 none [.mk 569 none [.mk 569 none [.mk 569 (some 570) [], .mk 570 (some 571) []], .mk 571 none [.mk 571 (some 572) [], .mk 572 (some 573) []]], .mk 573 none [.mk 573 none [.mk 573 (some 574) [], .mk 574 (some 575) []], .mk 575 none [.mk 575 (some 576) [], .mk 576 (some 577) []]]]]]], .mk 577 none [.mk 577 none [.mk 577 none [.mk 577 none [.mk 577 none [.mk 577 none [.mk 577 (some 578) [], .mk 578 (some 579) []], .mk 579 none [.mk 579 (some 580) [], .mk 580 (some 581) []]], .mk 581 none [.mk 581 none [.mk 581 (some 582) [], .mk 582 (some 583) []], .mk 583 none [.mk 583 (some 584) [], .mk 584 (some 585) []]]], .mk 585 none [.mk 585 none [.mk 585 none [.mk 585 (some 586) [], .mk 586 (some 587) []], .mk 587 none [.mk 587 (some 588) [], .mk 588 (some 589) []]], .mk 589 none [.mk 589 none [.mk 589 (some 590) [], .mk 590 (some 591) []], .mk 591 none [.mk 591 (some 592) [], .mk 592 (some 593) []]]]], .mk 593 none [.mk 593 none [.mk 593 none [.mk 593 none [.mk 593 (some 594) [], .mk 594 (some 595) []], .mk 595 none [.mk 595 (some 596) [], .mk 596 (some 597) []]], .mk 597 none [.mk 597 none [.mk 597 (some 598) [], .mk 598 (some 599) []], .mk 599 none [.mk 599 (some 600) [], .mk 600 (some 601) []]]], .mk 601 none [.mk 601 none [.mk 601 none [.mk 601 (some 602) [], .mk 602 (some 603) []], .mk 603 none [.mk 603 (some 604) [], .mk 604 (some 605) []]], .mk 605 none [.mk 605 none [.mk 605 (some 606) [], .mk 606 (some 607) []], .mk 607 none [.mk 607 (some 608) [], .mk 608 (some 609) []]]]]], .mk 609 none [.mk 609 none [.mk 609 none [.mk 609 none [.mk 609 none [.mk 609 (some 610) [], .mk 610 (some 611) []], .mk 611 none [.mk 611 (some 612) [], .mk 612 (some 613) []]], .mk 613 none [.mk 613 none [.mk 613 (some 614) [], .mk 614 (some 615) []], .mk 615 none [.mk 615 (some 616) [], .mk 616 (some 617) []]]], .mk 617 none [.mk 617 none [.mk 617 none [.mk 617 (some 618) [], .mk 618 (some 619) []], .mk 619 none [.mk 619 (some 620) [], .mk 620 (some 621) []]], .mk 621 none [.mk 621 none [.mk 621 (some 622) [], .mk 622 (some 623) []], .mk 623 none [.mk 623 (some 624) [], .mk 624 (some 625) []]]]], .mk 625 none [.mk 625 none [.mk 625 none [.mk 625 none [.mk 625 (some 626) [], .mk 626 (some 627) []], .mk 627 none [.mk 627 (some 628) [], .mk 628 (some 629) []]], .mk 629 none [.mk 629 none [.mk 629 (some 630) [], .mk 630 (some 631) []], .mk 631 none [.mk 631 (some 632) [], .mk 632 (some 633) []]]], .mk 633 none [.mk 633 none [.mk 633 none [.mk 633 (some 634) [], .mk 634 (some 635) []], .mk 635 none [.mk 635 (some 636) [], .mk 636 (some 637) []]], .mk 637 none [.mk 637 none [.mk 637 (some 638) [], .mk 638 (some 639) []], .mk 639 none [.mk 639 (some 640) [], .mk 640 (some 641) []]]]]]]], .mk 641 none [.mk 641 none [.mk 641 none [.mk 641 none [.mk 641 none [.mk 641 none [.mk 641 none [.mk 641 (some 642) [], .mk 642 (some 643) []], .mk 643 none [.mk 643 (some 644) [], .mk 644 (some 645) []]], .mk 645 none [.mk 645 none [.mk 645 (some 646) [], .mk 646 (some 647) []], .mk 647 none [.mk 647 (some 648) [], .mk 648 (some 649) []]]], .mk 649 none [.mk 649 none [.mk 649 none [.mk 649 (some 650) [], .mk 650 (some 651) []], .mk 651 none [.mk 651 (some 652) [], .mk 652 (some 653) []]], .mk 653 none [.mk 653 none [.mk 653 (some 654) [], .mk 654 (some 655) []], .mk 655 none [.mk 655 (some 656) [], .mk 656 (some 657) []]]]], .mk 657 none [.mk 657 none [.mk 657 none [.mk 657 none [.mk 657 (some 658) [], .mk 658 (some 659) []], .mk 659 none [.mk 659 (some 660) [], .mk 660 (some 661) []]], .mk 661 none [.mk 661 none [.mk 661 (some 662) [], .mk 662 (some 663) []], .mk 663 none [.mk 663 (some 664) [], .mk 664 (some 665) []]]], .mk 665 none [.mk 665 none [.mk 665 none [.mk 665 (some 666) [], .mk 666 (some 667) []], .mk 667 none [.mk 667 (some 668) [], .mk 668 (some 669) []]], .mk 669 none [.mk 669 none [.mk 669 (some 670) [], .mk 670 (some 671) []], .mk 671 none [.mk 671 (some 672) [], .mk 672 (some 673) []]]]]], .mk 673 none [.mk 673 none [.mk 673 none [.mk 673 none [.mk 673 none [.mk 673 (some 674) [], .mk 674 (some 675) []], .mk 675 none [.mk 675 (some 676) [], .mk 676 (some 677) []]], .mk 677 none [.mk 677 none [.mk 677 (some 678) [], .mk 678 (some 679) []], .mk 679 none [.mk 679 (some 680) [], .mk 680 (some 681) []]]], .mk 681 none [.mk 681 none [.mk 681 none [.mk 681 (some 682) [], .mk 682 (some 683) []], .mk 683 none [.mk 683 (some 684) [], .mk 684 (some 685) []]], .mk 685 none [.mk 685 none [.mk 685 (some 686) [], .mk 686 (some 687) []], .mk 687 none [.mk 687 (some 688) [], .mk 688 (some 689) []]]]], .mk 689 none [.mk 689 none [.mk 689 none [.mk 689 none [.mk 689 (some 690) [], .mk 690 (some 691) []], .mk 691 none [.mk 691 (some 692) [], .mk 692 (some 693) []]], .mk 693 none [.mk 693 none [.mk 693 (some 694) [], .mk 694 (some 695) []], .mk 695 none [.mk 695 (some 696) [], .mk 696 (some 697) []]]], .mk 697 none [.mk 697 none [.mk 697 none [.mk 697 (some 698) [], .mk 698 (some 699) []], .mk 699 none [.mk 699 (some 700) [], .mk 700 (some 701) []]], .mk 701 none [.mk 701 none [.mk 701 (some 702) [], .mk 702 (some 703) []], .mk 703 none [.mk 703 (some 704) [], .mk 704 (some 705) []]]]]]], .mk 705 none [.mk 705 none [.mk 705 none [.mk 705 none [.mk 705 none [.mk 705 none [.mk 705 (some 706) [], .mk 706 (some 707) []], .mk 707 none [.mk 707 (some 708) [], .mk 708 (some 709) []]], .mk 709 none [.mk 709 none [.mk 709 (some 710) [], .mk 710 (some 711) []], .mk 711 none [.mk 711 (some 712) [], .mk 712 (some 713) []]]], .mk 713 none [.mk 713 none [.mk 713 none [.mk 713 (some 714) [], .mk 714 (some 715) []], .mk 715 none [.mk 715 (some 716) [], .mk 716 (some 717) []]], .mk 717 none [.mk 717 none [.mk 717 (some 718) [], .mk 718 (some 719) []], .mk 719 none [.mk 719 (some 720) [], .mk 720 (some 721) []]]]], .mk 721 none [.mk 721 none [.mk 721 none [.mk 721 none [.mk 721 (some 722) [], .mk 722 (some 723) []], .mk 723 none [.mk 723 (some 724) [], .mk 724 (some 725) []]], .mk 725 none [.mk 725 none [.mk 725 (some 726) [], .mk 726 (some 727) []], .mk 727 none [.mk 727 (some 728) [], .mk 728 (some 729) []]]], .mk 729 none [.mk 729 none [.mk 729 none [.mk 729 (some 730) [], .mk 730 (some 731) []], .mk 731 none [.mk 731 (some 732) [], .mk 732 (some 733) []]], .mk 733 none [.mk 733 none [.mk 733 (some 734) [], .mk 734 (some 735) []], .mk 735 none [.mk 735 (some 736) [], .mk 736 (some 737) []]]]]], .mk 737 none [.mk 737 none [.mk 737 none [.mk 737 none [.mk 737 none [.mk 737 (some 738) [], .mk 738 (some 739) []], .mk 739 none [.mk 739 (some 740) [], .mk 740 (some 741) []]], .mk 741 none [.mk 741 none [.mk 741 (some 742) [], .mk 742 (some 743) []], .mk 743 none [.mk 743 (some 744) [], .mk 744 (some 745) []]]], .mk 745 none [.mk 745 none [.mk 745 none [.mk 745 (some 746) [], .mk 746 (some 747) []], .mk 747 none [.mk 747 (some 748) [], .mk 748 (some 749) []]], .mk 749 none [.mk 749 none [.mk 749 (some 750) [], .mk 750 (some 751) []], .mk 751 none [.mk 751 (some 752) [], .mk 752 (some 753) []]]]], .mk 753 none [.mk 753 none [.mk 753 none [.mk 753 none [.mk 753 (some 754) [], .mk 754 (some 755) []], .mk 755 none [.mk 755 (some 756) [], .mk 756 (some 757) []]], .mk 757 none [.mk 757 none [.mk 757 (some 758) [], .mk 758 (some 759) []], .mk 759 none [.mk 759 (some 760) [], .mk 760 (some 761) []]]], .mk 761 none [.mk 761 none [.mk 761 none [.mk 761 (some 762) [], .mk 762 (some 763) []], .mk 763 none [.mk 763 (some 764) [], .mk 764 (some 765) []]], .mk 765 none [.mk 765 none [.mk 765 (some 766) [], .mk 766 (some 767) []], .mk 767 none [.mk 767 (some 768) [], .mk 768 (some 769) []]]]]]]], .mk 769 none [.mk 769 none [.mk 769 none [.mk 769 none [.mk 769 none [.mk 769 none [.mk 769 none [.mk 769 (some 770) [], .mk 770 (some 771) []], .mk 771 none [.mk 771 (some 772) [], .mk 772 (some 773) []]], .mk 773 none [.mk 773 none [.mk 773 (some 774) [], .mk 774 (some 775) []], .mk 775 none [.mk 775 (some 776) [], .mk 776 (some 777) []]]], .mk 777 none [.mk 777 none [.mk 777 none [.mk 777 (some 778) [], .mk 778 (some 779) []], .mk 779 none [.mk 779 (some 780) [], .mk 780 (some 781) []]], .mk 781 none [.mk 781 none [.mk 781 (some 782) [], .mk 782 (some 783) []], .mk 783 none [.mk 783 (some 784) [], .mk 784 (some 785) []]]]], .mk 785 none [.mk 785 none [.mk 785 none [.mk 785 none [.mk 785 (some 786) [], .mk 786 (some 787) []], .mk 787 none [.mk 787 (some 788) [], .mk 788 (some 789) []]], .mk 789 none [.mk 789 none [.mk 789 (some 790) [], .mk 790 (some 791) []], .mk 791 none [.mk 791 (some 792) [], .mk 792 (some 793) []]]], .mk 793 none [.mk 793 none [.mk 793 none [.mk 793 (some 794) [], .mk 794 (some 795) []], .mk 795 none [.mk 795 (some 796) [], .mk 796 (some 797) []]], .mk 797 none [.mk 797 none [.mk 797 (some 798) [], .mk 798 (some 799) []], .mk 799 none [.mk 799 (some 800) [], .mk 800 (some 801) []]]]]], .mk 801 none [.mk 801 none [.mk 801 none [.mk 801 none [.mk 801 none [.mk 801 (some 802) [], .mk 802 (some 803) []], .mk 803 none [.mk 803 (some 804) [], .mk 804 (some 805) []]], .mk 805 none [.mk 805 none [.mk 805 (some 806) [], .mk 806 (some 807) []], .mk 807 none [.mk 807 (some 808) [], .mk 808 (some 809) []]]], .mk 809 none [.mk 809 none [.mk 809 none [.mk 809 (some 810) [], .mk 810 (some 811) []], .mk 811 none [.mk 811 (some 812) [], .mk 812 (some 813) []]], .mk 813 none [.mk 813 none [.mk 813 (some 814) [], .mk 814 (some 815) []], .mk 815 none [.mk 815 (some 816) [], .mk 816 (some 817) []]]]], .mk 817 none [.mk 817 none [.mk 817 none [.mk 817 none [.mk 817 (some 818) [], .mk 818 (some 819) []], .mk 819 none [.mk 819 (some 820) [], .mk 820 (some 821) []]], .mk 821 none [.mk 821 none [.mk 821 (some 822) [], .mk 822 (some 823) []], .mk 823 none [.mk 823 (some 824) [], .mk 824 (some 825) []]]], .mk 825 none [.mk 825 none [.mk 825 none [.mk 825 (some 826) [], .mk 826 (some 827) []], .mk 827 none [.mk 827 (some 828) [], .mk 828 (some 829) []]], .mk 829 none [.mk 829 none [.mk 829 (some 830) [], .mk 830 (some 831) []], .mk 831 none [.mk 831 (some 832) [], .mk 832 (some 833) []]]]]]], .mk 833 none [.mk 833 none [.mk 833 none [.mk 833 none [.mk 833 none [.mk 833 none [.mk 833 (some 834) [], .mk 834 (some 835) []], .mk 835 none [.mk 835 (some 836) [], .mk 836 (some 837) []]], .mk 837 none [.mk 837 none [.mk 837 (some 838) [], .mk 838 (some 839) []], .mk 839 none [.mk 839 (some 840) [], .mk 840 (some 841) []]]], .mk 841 none [.mk 841 none [.mk 841 none [.mk 841 (some 842) [], .mk 842 (some 843) []], .mk 843 none [.mk 843 (some 844) [], .mk 844 (some 845) []]], .mk 845 none [.mk 845 none [.mk 845 (some 846) [], .mk 846 (some 847) []], .mk 847 none [.mk 847 (some 848) [], .mk 848 (some 849) []]]]], .mk 849 none [.mk 849 none [.mk 849 none [.mk 849 none [.mk 849 (some 850) [], .mk 850 (some 851) []], .mk 851 none [.mk 851 (some 852) [], .mk 852 (some 853) []]], .mk 853 none [.mk 853 none [.mk 853 (some 854) [], .mk 854 (some 855) []], .mk 855 none [.mk 855 (some 856) [], .mk 856 (some 857) []]]], .mk 857 none [.mk 857 none [.mk 857 none [.mk 857 (some 858) [], .mk 858 (some 859) []], .mk 859 none [.mk 859 (some 860) [], .mk 860 (some 861) []]], .mk 861 none [.mk 861 none [.mk 861 (some 862) [], .mk 862 (some 863) []], .mk 863 none [.mk 863 (some 864) [], .mk 864 (some 865) []]]]]], .mk 865 none [.mk 865 none [.mk 865 none [.mk 865 none [.mk 865 none [.mk 865 (some 866) [], .mk 866 (some 867) []], .mk 867 none [.mk 867 (some 868) [], .mk 868 (some 869) []]], .mk 869 none [.mk 869 none [.mk 869 (some 870) [], .mk 870 (some 871) []], .mk 871 none [.mk 871 (some 872) [], .mk 872 (some 873) []]]], .mk 873 none [.mk 873 none [.mk 873 none [.mk 873 (some 874) [], .mk 874 (some 875) []], .mk 875 none [.mk 875 (some 876) [], .mk 876 (some 877) []]], .mk 877 none [.mk 877 none [.mk 877 (some 878) [], .mk 878 (some 879) []], .mk 879 none [.mk 879 (some 880) [], .mk 880 (some 881) []]]]], .mk 881 none [.mk 881 none [.mk 881 none [.mk 881 none [.mk 881 (some 882) [], .mk 882 (some 883) []], .mk 883 none [.mk 883 (some 884) [], .mk 884 (some 885) []]], .mk 885 none [.mk 885 none [.mk 885 (some 886) [], .mk 886 (some 887) []], .mk 887 none [.mk 887 (some 888) [], .mk 888 (some 889) []]]], .mk 889 none [.mk 889 none [.mk 889 none [.mk 889 (some 890) [], .mk 890 (some 891) []], .mk 891 none [.mk 891 (some 892) [], .mk 892 (some 893) []]], .mk 893 none [.mk 893 none [.mk 893 (some 894) [], .mk 894 (some 895) []], .mk 895 none [.mk 895 (some 896) [], .mk 896 (some 897) []]]]]]], .mk 897 none [.mk 897 none [.mk 897 none [.mk 897 none [.mk 897 none [.mk 897 none [.mk 897 (some 898) [], .mk 898 (some 899) []], .mk 899 none [.mk 899 (some 900) [], .mk 900 (some 901) []]], .mk 901 none [.mk 901 none [.mk 901 (some 902) [], .mk 902 (some 903) []], .mk 903 none [.mk 903 (some 904) [], .mk 904 (some 905) []]]], .mk 905 none [.mk 905 none [.mk 905 none [.mk 905 (some 906) [], .mk 906 (some 907) []], .mk 907 none [.mk 907 (some 908) [], .mk 908 (some 909) []]], .mk 909 none [.mk 909 none [.mk 909 (some 910) [], .mk 910 (some 911) []], .mk 911 none [.mk 911 (some 912) [], .mk 912 (some 913) []]]]], .mk 913 none [.mk 913 none [.mk 913 none [.mk 913 none [.mk 913 (some 914) [], .mk 914 (some 915) []], .mk 915 none [.mk 915 (some 916) [], .mk 916 (some 917) []]], .mk 917 none [.mk 917 none [.mk 917 (some 918) [], .mk 918 (some 919) []], .mk 919 none [.mk 919 (some 920) [], .mk 920 (some 921) []]]], .mk 921 none [.mk 921 none [.mk 921 none [.mk 921 (some 922) [], .mk 922 (some 923) []], .mk 923 none [.mk 923 (some 924) [], .mk 924 (some 925) []]], .mk 925 none [.mk 925 none [.mk 925 (some 926) [], .mk 926 (some 927) []], .mk 927 none [.mk 927 (some 928) [], .mk 928 (some 929) []]]]]], .mk 929 none [.mk 929 none [.mk 929 none [.mk 929 none [.mk 929 none [.mk 929 (some 930) [], .mk 930 (some 931) []], .mk 931 none [.mk 931 (some 932) [], .mk 932 (some 933) []]], .mk 933 none [.mk 933 none [.mk 933 (some 934) [], .mk 934 (some 935) []], .mk 935 none [.mk 935 (some 936) [], .mk 936 (some 937) []]]], .mk 937 none [.mk 937 none [.mk 937 none [.mk 937 (some 938) [], .mk 938 (some 939) []], .mk 939 none [.mk 939 (some 940) [], .mk 940 (some 941) []]], .mk 941 none [.mk 941 none [.mk 941 (some 942) [], .mk 942 (some 943) []], .mk 943 none [.mk 943 (some 944) [], .mk 944 (some 945) []]]]], .mk 945 none [.mk 945 none [.mk 945 none [.mk 945 none [.mk 945 (some 946) [], .mk 946 (some 947) []], .mk 947 none [.mk 947 (some 948) [], .mk 948 (some 949) []]], .mk 949 none [.mk 949 none [.mk 949 (some 950) [], .mk 950 (some 951) []], .mk 951 none [.mk 951 (some 952) [], .mk 952 (some 953) []]]], .mk 953 none [.mk 953 none [.mk 953 none [.mk 953 (some 954) [], .mk 954 (some 955) []], .mk 955 none [.mk 955 (some 956) [], .mk 956 (some 957) []]], .mk 957 none [.mk 957 none [.mk 957 (some 958) [], .mk 958 (some 959) []], .mk 959 none [.mk 959 (some 960) [], .mk 960 (some 961) []]]]]], .mk 961 none [.mk 961 none [.mk 961 none [.mk 961 none [.mk 961 none [.mk 961 (some 962) [], .mk 962 (some 963) []], .mk 963 none [.mk 963 (some 964) [], .mk 964 (some 965) []]], .mk 965 none [.mk 965 none [.mk 965 (some 966) [], .mk 966 (some 967) []], .mk 967 none [.mk 967 (some 968) [], .mk 968 (some 969) []]]], .mk 969 none [.mk 969 none [.mk 969 none [.mk 969 (some 970) [], .mk 970 (some 971) []], .mk 971 none [.mk 971 (some 972) [], .mk 972 (some 973) []]], .mk 973 none [.mk 973 none [.mk 973 (some 974) [], .mk 974 (some 975) []], .mk 975 none [.mk 975 (some 976) [], .mk 976 (some 977) []]]]], .mk 977 none [.mk 977 none [.mk 977 none [.mk 977 none [.mk 977 (some 978) [], .mk 978 (some 979) []], .mk 979 none [.mk 979 (some 980) [], .mk 980 (some 981) []]], .mk 981 none [.mk 981 none [.mk 981 (some 982) [], .mk 982 (some 983) []], .mk 983 none [.mk 983 (some 984) [], .mk 984 (some 985) []]]], .mk 985 none [.mk 985 none [.mk 985 none [.mk 985 (some 986) [], .mk 986 (some 987) []], .mk 987 none [.mk 987 (some 988) [], .mk 988 (some 989) []]], .mk 989 none [.mk 989 none [.mk 989 (some 990) [], .mk 990 (some 991) []], .mk 991 none [.mk 991 (some 992) [], .mk 992 (some 993) []]]], .mk 993 none [.mk 993 none [.mk 993 none [.mk 993 (some 994) [], .mk 994 (some 995) []], .mk 995 none [.mk 995 (some 996) [], .mk 996 (some 997) []]], .mk 997 none [.mk 997 none [.mk 997 (some 998) [], .mk 998 (some 999) []], .mk 999 none [.mk 999 (some 1000) [], .mk 1000 (some 1001) []]]]]]]]]], 1000, 8⟩

/-! # Theorems

First the association-list layer, then the two binary structures,
then the per-claim results. -/

theorem alookup_append (x : Nat) (A B : List (Nat × Nat)) :
    alookup x (A ++ B) = oalt (alookup x A) (alookup x B) := by
  induction A with
  | nil => simp [alookup, oalt]
  | cons p rest ih =>
    obtain ⟨k, v⟩ := p
    by_cases h : k = x <;> simp [alookup, h, ih, oalt]

theorem alookup_eq_none (x : Nat) (A : List (Nat × Nat))
    (h : x ∉ A.map Prod.fst) : alookup x A = none := by
  induction A with
  | nil => simp [alookup]
  | cons p rest ih =>
    obtain ⟨k, v⟩ := p
    simp only [List.map_cons, List.mem_cons] at h
    push_neg at h
    simp [alookup, Ne.symm h.1, ih h.2]

theorem mem_keys_listPut (a k v : Nat) (L : List (Nat × Nat)) :
    a ∈ (listPut k v L).map Prod.fst ↔ a = k ∨ a ∈ L.map Prod.fst := by
  induction L with
  | nil => simp [listPut]
  | cons p rest ih =>
    obtain ⟨k1, w⟩ := p
    rcases Nat.lt_trichotomy k k1 with h1 | h1 | h1
    · have e1 : listPut k v ((k1, w) :: rest) = (k, v) :: (k1, w) :: rest := by
        simp [listPut, h1]
      rw [e1]
      simp only [List.map_cons, List.mem_cons] <;> tauto
    · subst h1
      have e1 : listPut k v ((k, w) :: rest) = (k, w) :: rest := by
        simp [listPut]
      rw [e1]
      simp only [List.map_cons, List.mem_cons] <;> tauto
    · have hn : ¬ k < k1 := by omega
      have e1 : listPut k v ((k1, w) :: rest) = (k1, w) :: listPut k v rest := by
        simp [listPut, hn, h1]
      rw [e1]
      simp only [List.map_cons, List.mem_cons, ih] <;> tauto

theorem pairwise_keys_listPut (k v : Nat) (L : List (Nat × Nat))
    (hp : (L.map Prod.fst).Pairwise (· < ·)) :
    ((listPut k v L).map Prod.fst).Pairwise (· < ·) := by
  induction L with
  | nil => simp [listPut]
  | cons p rest ih =>
    obtain ⟨k1, w⟩ := p
    simp only [List.map_cons, List.pairwise_cons] at hp
    by_cases h1 : k < k1
    · simp only [listPut, if_pos h1, List.map_cons, List.pairwise_cons]
      refine ⟨?_, hp.1, hp.2⟩
      intro b hb
      rcases List.mem_cons.mp hb with hb | hb
      · omega
      · have := hp.1 b hb
        omega
    · by_cases h2 : k1 < k
      · simp only [listPut, if_neg h1, if_pos h2, List.map_cons, List.pairwise_cons]
        refine ⟨?_, ih hp.2⟩
        intro b hb
        rcases (mem_keys_listPut b k v rest).mp hb with hb | hb
        · omega
        · exact hp.1 b hb
      · have : k = k1 := by omega
        simp only [listPut, if_neg h1, if_neg h2, List.map_cons, List.pairwise_cons]
        exact ⟨hp.1, hp.2⟩

theorem listPut_append_lt (key val k0 v0 : Nat) (A B : List (Nat × Nat))
    (h : key < k0) :
    listPut key val (A ++ (k0, v0) :: B) = listPut key val A ++ (k0, v0) :: B := by
  induction A with
  | nil => simp [listPut, h]
  | cons p rest ih =>
    obtain ⟨k1, w⟩ := p
    by_cases h1 : key < k1
    · simp [listPut, h1]
    · by_cases h2 : k1 < key
      · simp [listPut, h1, h2, ih]
      · simp [listPut, h1, h2]

theorem listPut_append_gt (key val k0 v0 : Nat) (A B : List (Nat × Nat))
    (hA : ∀ a ∈ A.map Prod.fst, a < key) (h : k0 < key) :
    listPut key val (A ++ (k0, v0) :: B) = A ++ (k0, v0) :: listPut key val B := by
  induction A with
  | nil =>
    have h1 : ¬ key < k0 := by omega
    simp [listPut, h1, h]
  | cons p rest ih =>
    obtain ⟨k1, w⟩ := p
    have hk1 : k1 < key := hA k1 (by simp)
    have h1 : ¬ key < k1 := by omega
    have ih2 := ih (fun a ha => hA a (by simp [ha]))
    simp [listPut, h1, hk1, ih2]

theorem listPut_append_eq (key val v0 : Nat) (A B : List (Nat × Nat))
    (hA : ∀ a ∈ A.map Prod.fst, a < key) :
    listPut key val (A ++ (key, v0) :: B) = A ++ (key, v0) :: B := by
  induction A with
  | nil => simp [listPut]
  | cons p rest ih =>
    obtain ⟨k1, w⟩ := p
    have hk1 : k1 < key := hA k1 (by simp)
    have h1 : ¬ key < k1 := by omega
    have ih2 := ih (fun a ha => hA a (by simp [ha]))
    simp [listPut, h1, hk1, ih2]

theorem alookup_listPut (x k v : Nat) (L : List (Nat × Nat))
    (hp : (L.map Prod.fst).Pairwise (· < ·)) :
    alookup x (listPut k v L) =
      if k = x then some ((alookup k L).getD v) else alookup x L := by
  induction L with
  | nil =>
    by_cases h : k = x <;> simp [listPut, alookup, h]
  | cons p rest ih =>
    obtain ⟨k1, w⟩ := p
    simp only [List.map_cons, List.pairwise_cons] at hp
    by_cases h1 : k < k1
    · have e1 : listPut k v ((k1, w) :: rest) = (k, v) :: (k1, w) :: rest := by
        simp [listPut, h1]
      have hk : k ∉ (rest.map Prod.fst) := by
        intro hmem
        have := hp.1 k hmem
        omega
      have hnone := alookup_eq_none k rest hk
      rw [e1]
      by_cases h : k = x
      · subst h
        have hne : k1 ≠ k := by omega
        simp [alookup, hne, hnone]
      · by_cases hx1 : k1 = x
        · simp [alookup, h, hx1]
        · simp [alookup, h, hx1]
    · by_cases h2 : k1 < k
      · have e1 : listPut k v ((k1, w) :: rest) = (k1, w) :: listPut k v rest := by
          simp [listPut, h1, h2]
        have hne : k1 ≠ k := by omega
        rw [e1]
        by_cases hx1 : k1 = x
        · have hkx : k ≠ x := by omega
          simp [alookup, hx1, hkx]
        · simp [alookup, hx1, ih hp.2, hne]
      · have he : k = k1 := by omega
        subst he
        have e1 : listPut k v ((k, w) :: rest) = (k, w) :: rest := by
          simp [listPut, h1, h2]
        rw [e1]
        by_cases h : k = x <;> simp [alookup, h]

theorem keys_foldPuts_toFinset (l : List (Nat × Nat)) :
    ∀ acc : List (Nat × Nat),
      ((l.foldl (fun acc kv => listPut kv.1 kv.2 acc) acc).map Prod.fst).toFinset =
        (acc.map Prod.fst).toFinset ∪ (l.map Prod.fst).toFinset := by
  induction l with
  | nil => intro acc; simp
  | cons p rest ih =>
    intro acc
    obtain ⟨k, v⟩ := p
    simp only [List.foldl_cons, ih (listPut k v acc), List.map_cons, List.toFinset_cons]
    ext a
    simp only [Finset.mem_union, Finset.mem_insert, List.mem_toFinset, mem_keys_listPut]
    tauto

theorem pairwise_foldPuts (l : List (Nat × Nat)) :
    ∀ acc : List (Nat × Nat), (acc.map Prod.fst).Pairwise (· < ·) →
      ((l.foldl (fun acc kv => listPut kv.1 kv.2 acc) acc).map Prod.fst).Pairwise (· < ·) := by
  induction l with
  | nil => intro acc h; simpa using h
  | cons p rest ih =>
    intro acc h
    exact ih (listPut p.1 p.2 acc) (pairwise_keys_listPut p.1 p.2 acc h)

theorem pairwise_listOfPuts (l : List (Nat × Nat)) :
    ((listOfPuts l).map Prod.fst).Pairwise (· < ·) :=
  pairwise_foldPuts l [] (by simp)

theorem length_listOfPuts (l : List (Nat × Nat)) :
    (listOfPuts l).length = (l.map Prod.fst).toFinset.card := by
  have hnd : ((listOfPuts l).map Prod.fst).Nodup :=
    (pairwise_listOfPuts l).imp (fun h => Nat.ne_of_lt h)
  have hcard := List.toFinset_card_of_nodup hnd
  have hset := keys_foldPuts_toFinset l []
  simp only [listOfPuts] at *
  rw [← List.length_map _ Prod.fst, ← hcard, hset]
  simp

/-! ## Unbalanced-tree lemmas -/

theorem mapSumAdd (l : List Nat) (f g : Nat → Nat) :
    (l.map (fun x => f x + g x)).sum = (l.map f).sum + (l.map g).sum := by
  induction l with
  | nil => simp
  | cons x xs ih => simp [ih]; omega

theorem bst_in_order_put (t : BST) (key val : Nat)
    (hp : (t.in_order.map Prod.fst).Pairwise (· < ·)) :
    (t.put key val).in_order = listPut key val t.in_order := by
  induction t with
  | nil => simp [BST.put, BST.in_order, listPut]
  | node k v s l r ihl ihr =>
    simp only [BST.in_order, List.map_append, List.map_cons, List.pairwise_append,
      List.pairwise_cons] at hp
    rcases hp with ⟨hl, ⟨hkr, hr⟩, hcross⟩
    have hlk : ∀ a ∈ l.in_order.map Prod.fst, a < k :=
      fun a ha => hcross a ha k (by simp)
    rcases Nat.lt_trichotomy key k with h | h | h
    · have hn : ¬ k < key := by omega
      simp only [BST.put, if_pos h, BST.in_order]
      rw [ihl hl, listPut_append_lt _ _ _ _ _ _ h]
    · subst h
      have h1 : ¬ key < key := by omega
      simp only [BST.put, if_neg h1, BST.in_order]
      rw [listPut_append_eq _ _ _ _ _ hlk]
    · have h1 : ¬ key < k := by omega
      have hlkey : ∀ a ∈ l.in_order.map Prod.fst, a < key := by
        intro a ha
        have := hlk a ha
        omega
      simp only [BST.put, if_neg h1, if_pos h, BST.in_order]
      rw [ihr hr, listPut_append_gt _ _ _ _ _ _ hlkey h]

theorem bst_pairwise_put (t : BST) (key val : Nat)
    (hp : (t.in_order.map Prod.fst).Pairwise (· < ·)) :
    ((t.put key val).in_order.map Prod.fst).Pairwise (· < ·) := by
  rw [bst_in_order_put t key val hp]
  exact pairwise_keys_listPut key val _ hp

theorem bst_get_eq_alookup (t : BST) (x : Nat)
    (hp : (t.in_order.map Prod.fst).Pairwise (· < ·)) :
    t.get x = alookup x t.in_order := by
  induction t with
  | nil => simp [BST.get, BST.in_order, alookup]
  | node k v s l r ihl ihr =>
    simp only [BST.in_order, List.map_append, List.map_cons, List.pairwise_append,
      List.pairwise_cons] at hp
    rcases hp with ⟨hl, ⟨hkr, hr⟩, hcross⟩
    have hlk : ∀ a ∈ l.in_order.map Prod.fst, a < k :=
      fun a ha => hcross a ha k (by simp)
    rw [BST.in_order, alookup_append]
    rcases Nat.lt_trichotomy x k with h | h | h
    · have h1 : x ∉ r.in_order.map Prod.fst := by
        intro hmem
        have := hkr x hmem
        omega
      have hkx : ¬ k = x := by omega
      have hr0 : alookup x ((k, v) :: r.in_order) = none := by
        simp [alookup, hkx, alookup_eq_none x _ h1]
      simp only [BST.get, if_pos h, ihl hl, hr0]
      cases alookup x l.in_order <;> simp [oalt]
    · subst h
      have h1 : ¬ x < x := by omega
      have hl0 : alookup x l.in_order = none := by
        refine alookup_eq_none x _ ?_
        intro hmem
        have := hlk x hmem
        omega
      simp [BST.get, h1, hl0, oalt, alookup]
    · have h1 : ¬ x < k := by omega
      have hkx : ¬ k = x := by omega
      have hl0 : alookup x l.in_order = none := by
        refine alookup_eq_none x _ ?_
        intro hmem
        have := hlk x hmem
        omega
      simp [BST.get, h1, h, hl0, oalt, alookup, hkx, ihr hr]

theorem bst_sizeOk_put (t : BST) (key val : Nat) (h : SizeOk t) :
    SizeOk (t.put key val) := by
  induction t with
  | nil => simp [BST.put, SizeOk, BST.size]
  | node k v s l r ihl ihr =>
    rcases h with ⟨hs, hl, hr⟩
    rcases Nat.lt_trichotomy key k with h1 | h1 | h1
    · have h2 : ¬ k < key := by omega
      simp only [BST.put, if_pos h1]
      exact ⟨rfl, ihl hl, hr⟩
    · subst h1
      have h2 : ¬ key < key := by omega
      simp only [BST.put, if_neg h2]
      exact ⟨rfl, hl, hr⟩
    · have h2 : ¬ key < k := by omega
      simp only [BST.put, if_neg h2, if_pos h1]
      exact ⟨rfl, hl, ihr hr⟩

theorem bst_size_eq_length (t : BST) (h : SizeOk t) :
    t.size = t.in_order.length := by
  induction t with
  | nil => simp [BST.size, BST.in_order]
  | node k v s l r ihl ihr =>
    rcases h with ⟨hs, hl, hr⟩
    simp only [BST.size, BST.in_order, List.length_append, List.length_cons]
    rw [hs, ihl hl, ihr hr]
    omega

theorem bst_pre_order_length (t : BST) :
    t.pre_order.length = t.in_order.length := by
  induction t with
  | nil => rfl
  | node k v s l r ihl ihr =>
    simp only [BST.pre_order, BST.in_order, List.length_cons, List.length_append, ihl, ihr]
    omega

theorem bst_post_order_length (t : BST) :
    t.post_order.length = t.in_order.length := by
  induction t with
  | nil => rfl
  | node k v s l r ihl ihr =>
    simp only [BST.post_order, BST.in_order, List.length_cons, List.length_append,
      List.length_nil, ihl, ihr]
    omega

theorem flatMap_append_length (L : List Nat) (f g : Nat → List (Nat × Nat)) :
    (L.flatMap (fun x => f x ++ g x)).length = (L.flatMap f).length + (L.flatMap g).length := by
  induction L with
  | nil => rfl
  | cons a as ih =>
    simp only [List.flatMap_cons, List.length_append] at *
    omega

theorem flatMap_map_nat (L : List Nat) (g : Nat → Nat) (f : Nat → List (Nat × Nat)) :
    (L.map g).flatMap f = L.flatMap (fun x => f (g x)) := by
  induction L with
  | nil => rfl
  | cons a as ih => simp [List.flatMap_cons, ih]

theorem bst_level_concat_length (t : BST) :
    ∀ m : Nat, t.get_height ≤ m →
      ((List.range m).flatMap t.level_order).length = t.in_order.length := by
  induction t with
  | nil =>
    intro m hm
    have hz : ∀ (L : List Nat), (L.flatMap BST.nil.level_order).length = 0 := by
      intro L
      induction L with
      | nil => rfl
      | cons a as ih =>
        have ha : BST.nil.level_order a = [] := by cases a <;> rfl
        simp [List.flatMap_cons, ha, ih]
    simp [hz, BST.in_order]
  | node k v s l r ihl ihr =>
    intro m hm
    have hge : 1 ≤ BST.get_height (.node k v s l r) := by
      simp [BST.get_height]
    obtain ⟨m1, rfl⟩ : ∃ m1, m = m1 + 1 := ⟨m - 1, by omega⟩
    have hl1 : l.get_height ≤ m1 := by
      simp only [BST.get_height] at hm
      omega
    have hr1 : r.get_height ≤ m1 := by
      simp only [BST.get_height] at hm
      omega
    rw [List.range_succ_eq_map, List.flatMap_cons, flatMap_map_nat]
    have hsucc : (fun x => (BST.node k v s l r).level_order (Nat.succ x)) =
        (fun lev => l.level_order lev ++ r.level_order lev) := funext fun lev => rfl
    rw [hsucc, List.length_append, flatMap_append_length, ihl m1 hl1, ihr m1 hr1]
    simp only [BST.in_order, BST.level_order, List.length_cons, List.length_append,
      List.length_nil]
    omega

theorem bst_get_height_spec (t : BST) (h : t ≠ .nil) :
    t.get_height = specLongestPathBST t + 1 := by
  induction t with
  | nil => exact absurd rfl h
  | node k v s l r ihl ihr =>
    cases l with
    | nil =>
      cases r with
      | nil => rfl
      | node rk rv rs rl rr =>
        have h2 := ihr (by simp)
        show 1 + max BST.nil.get_height (BST.node rk rv rs rl rr).get_height
            = (1 + specLongestPathBST (BST.node rk rv rs rl rr)) + 1
        rw [h2]
        simp only [BST.get_height, Nat.zero_max]
        omega
    | node lk lv ls ll lr =>
      cases r with
      | nil =>
        have h1 := ihl (by simp)
        show 1 + max (BST.node lk lv ls ll lr).get_height BST.nil.get_height
            = (1 + specLongestPathBST (BST.node lk lv ls ll lr)) + 1
        rw [h1]
        simp only [BST.get_height, Nat.max_zero]
        omega
      | node rk rv rs rl rr =>
        have h1 := ihl (by simp)
        have h2 := ihr (by simp)
        show 1 + max (BST.node lk lv ls ll lr).get_height (BST.node rk rv rs rl rr).get_height
            = (1 + max (specLongestPathBST (BST.node lk lv ls ll lr))
                (specLongestPathBST (BST.node rk rv rs rl rr))) + 1
        rw [h1, h2, Nat.max_def, Nat.max_def]
        split <;> split <;> omega

theorem bst_foldl_io (l : List (Nat × Nat)) :
    ∀ t : BST, (t.in_order.map Prod.fst).Pairwise (· < ·) →
      ((l.foldl (fun t kv => t.put kv.1 kv.2) t).in_order.map Prod.fst).Pairwise (· < ·)
      ∧ (l.foldl (fun t kv => t.put kv.1 kv.2) t).in_order
          = l.foldl (fun acc kv => listPut kv.1 kv.2 acc) t.in_order := by
  induction l with
  | nil => intro t ht; exact ⟨ht, rfl⟩
  | cons p rest ih =>
    intro t ht
    have hput := bst_pairwise_put t p.1 p.2 ht
    obtain ⟨h1, h2⟩ := ih (t.put p.1 p.2) hput
    refine ⟨h1, ?_⟩
    simp only [List.foldl_cons] at *
    rw [h2, bst_in_order_put t p.1 p.2 ht]

theorem bst_ofList_in_order (l : List (Nat × Nat)) :
    (bstOfList l).in_order = listOfPuts l :=
  (bst_foldl_io l BST.new (by simp [BST.new, BST.in_order])).2

theorem bst_ofList_pairwise (l : List (Nat × Nat)) :
    ((bstOfList l).in_order.map Prod.fst).Pairwise (· < ·) :=
  (bst_foldl_io l BST.new (by simp [BST.new, BST.in_order])).1

theorem bst_ofList_sizeOk (l : List (Nat × Nat)) : SizeOk (bstOfList l) := by
  have h : ∀ (ll : List (Nat × Nat)) (t : BST), SizeOk t →
      SizeOk (ll.foldl (fun t kv => t.put kv.1 kv.2) t) := by
    intro ll
    induction ll with
    | nil => intro t ht; exact ht
    | cons p rest ih =>
      intro t ht
      exact ih (t.put p.1 p.2) (bst_sizeOk_put t p.1 p.2 ht)
  exact h l BST.new trivial

theorem bst_get_put (t : BST) (key val x : Nat)
    (hp : (t.in_order.map Prod.fst).Pairwise (· < ·)) :
    (t.put key val).get x =
      if key = x then some ((t.get key).getD val) else t.get x := by
  rw [bst_get_eq_alookup _ _ (bst_pairwise_put t key val hp),
    bst_in_order_put t key val hp, alookup_listPut x key val _ hp,
    ← bst_get_eq_alookup t key hp, ← bst_get_eq_alookup t x hp]

theorem bst_foldl_get (l : List (Nat × Nat)) (x : Nat) :
    ∀ t : BST, (t.in_order.map Prod.fst).Pairwise (· < ·) →
      (l.foldl (fun t kv => t.put kv.1 kv.2) t).get x = oalt (t.get x) (alookup x l) := by
  induction l with
  | nil =>
    intro t ht
    cases h : t.get x <;> simp [alookup, oalt, h]
  | cons p rest ih =>
    intro t ht
    obtain ⟨k0, w0⟩ := p
    simp only [List.foldl_cons]
    rw [ih (t.put k0 w0) (bst_pairwise_put t k0 w0 ht), bst_get_put t k0 w0 x ht]
    by_cases h : k0 = x
    · subst h
      simp only [if_pos rfl, alookup]
      cases hg : t.get k0 <;> simp [oalt]
    · simp [alookup, h, oalt]

theorem bst_ofList_get (l : List (Nat × Nat)) (x : Nat) :
    (bstOfList l).get x = alookup x l := by
  have h := bst_foldl_get l x BST.new (by simp [BST.new, BST.in_order])
  simpa [BST.new, BST.get, oalt] using h

/-! ## Red-black-tree lemmas -/

theorem rbt_in_order_set_vals (t : RBT) (key val : Nat) (c : Bool) (s : Nat) (l r : RBT) :
    (t.set_vals key val c s l r).in_order = l.in_order ++ (key, val) :: r.in_order := by
  cases t <;> rfl

theorem rbt_in_order_set_color (t : RBT) (c : Bool) :
    (t.set_color c).in_order = t.in_order := by
  cases t <;> rfl

theorem inOrd5_rotateLeft (x : RBT.Frame) :
    inOrd5 (RBT.rotateLeftStep x) = inOrd5 x := by
  obtain ⟨k, v, c, l, r⟩ := x
  cases hr : r.is_red with
  | false => simp [RBT.rotateLeftStep, hr]
  | true =>
    cases hl : l.is_red with
    | true => simp [RBT.rotateLeftStep, hr, hl]
    | false =>
      cases r with
      | nil => simp [RBT.is_red] at hr
      | node rk rv rc rs rl rr =>
        simp [RBT.rotateLeftStep, hr, hl, RBT.get_right_clone, RBT.get_left_clone,
          RBT.get_key, RBT.get_val, rbt_in_order_set_vals, inOrd5, RBT.in_order,
          List.append_assoc]

theorem inOrd5_rotateRight (x : RBT.Frame) :
    inOrd5 (RBT.rotateRightStep x) = inOrd5 x := by
  obtain ⟨k, v, c, l, r⟩ := x
  cases hl : l.is_red with
  | false => simp [RBT.rotateRightStep, hl]
  | true =>
    cases hll : l.is_left_red with
    | false => simp [RBT.rotateRightStep, hl, hll]
    | true =>
      cases l with
      | nil => simp [RBT.is_red] at hl
      | node lk lv lc ls ll lr =>
        simp [RBT.rotateRightStep, hl, hll, RBT.get_right_clone, RBT.get_left_clone,
          RBT.get_key, RBT.get_val, rbt_in_order_set_vals, inOrd5, RBT.in_order,
          List.append_assoc]

theorem inOrd5_flip (x : RBT.Frame) :
    inOrd5 (RBT.flipStep x) = inOrd5 x := by
  obtain ⟨k, v, c, l, r⟩ := x
  cases hl : l.is_red with
  | false => simp [RBT.flipStep, hl]
  | true =>
    cases hr : r.is_red with
    | false => simp [RBT.flipStep, hl, hr]
    | true => simp [RBT.flipStep, hl, hr, inOrd5, rbt_in_order_set_color]

theorem mkNode_in_order (x : RBT.Frame) :
    (RBT.mkNode x).in_order = inOrd5 x := by
  obtain ⟨k, v, c, l, r⟩ := x
  rfl

theorem balance_in_order (k v : Nat) (c : Bool) (l r : RBT) :
    (RBT.balance k v c l r).in_order = l.in_order ++ (k, v) :: r.in_order := by
  unfold RBT.balance
  rw [mkNode_in_order, inOrd5_flip, inOrd5_rotateRight, inOrd5_rotateLeft]
  rfl

theorem rbt_insert_in_order (t : RBT) (key val : Nat)
    (hp : (t.in_order.map Prod.fst).Pairwise (· < ·)) :
    (t.insert key val).in_order = listPut key val t.in_order := by
  induction t with
  | nil => simp [RBT.insert, RBT.in_order, listPut]
  | node k v c s l r ihl ihr =>
    simp only [RBT.in_order, List.map_append, List.map_cons, List.pairwise_append,
      List.pairwise_cons] at hp
    rcases hp with ⟨hl, ⟨hkr, hr⟩, hcross⟩
    have hlk : ∀ a ∈ l.in_order.map Prod.fst, a < k :=
      fun a ha => hcross a ha k (by simp)
    rcases Nat.lt_trichotomy key k with h | h | h
    · simp only [RBT.insert, if_pos h]
      rw [balance_in_order, ihl hl, RBT.in_order, listPut_append_lt _ _ _ _ _ _ h]
    · subst h
      have h1 : ¬ key < key := by omega
      simp only [RBT.insert, if_neg h1]
      rw [balance_in_order, RBT.in_order, listPut_append_eq _ _ _ _ _ hlk]
    · have h1 : ¬ key < k := by omega
      have hlkey : ∀ a ∈ l.in_order.map Prod.fst, a < key := by
        intro a ha
        have := hlk a ha
        omega
      simp only [RBT.insert, if_neg h1, if_pos h]
      rw [balance_in_order, ihr hr, RBT.in_order, listPut_append_gt _ _ _ _ _ _ hlkey h]

theorem rbt_put_in_order (t : RBT) (key val : Nat)
    (hp : (t.in_order.map Prod.fst).Pairwise (· < ·)) :
    (t.put key val).in_order = listPut key val t.in_order := by
  rw [RBT.put, rbt_in_order_set_color, rbt_insert_in_order t key val hp]

theorem rbt_pairwise_put (t : RBT) (key val : Nat)
    (hp : (t.in_order.map Prod.fst).Pairwise (· < ·)) :
    ((t.put key val).in_order.map Prod.fst).Pairwise (· < ·) := by
  rw [rbt_put_in_order t key val hp]
  exact pairwise_keys_listPut key val _ hp

theorem rbt_get_eq_alookup (t : RBT) (x : Nat)
    (hp : (t.in_order.map Prod.fst).Pairwise (· < ·)) :
    t.get x = alookup x t.in_order := by
  induction t with
  | nil => simp [RBT.get, RBT.in_order, alookup]
  | node k v c s l r ihl ihr =>
    simp only [RBT.in_order, List.map_append, List.map_cons, List.pairwise_append,
      List.pairwise_cons] at hp
    rcases hp with ⟨hl, ⟨hkr, hr⟩, hcross⟩
    have hlk : ∀ a ∈ l.in_order.map Prod.fst, a < k :=
      fun a ha => hcross a ha k (by simp)
    rw [RBT.in_order, alookup_append]
    rcases Nat.lt_trichotomy x k with h | h | h
    · have h1 : x ∉ r.in_order.map Prod.fst := by
        intro hmem
        have := hkr x hmem
        omega
      have hkx : ¬ k = x := by omega
      have hr0 : alookup x ((k, v) :: r.in_order) = none := by
        simp [alookup, hkx, alookup_eq_none x _ h1]
      simp only [RBT.get, if_pos h, ihl hl, hr0]
      cases alookup x l.in_order <;> simp [oalt]
    · subst h
      have h1 : ¬ x < x := by omega
      have hl0 : alookup x l.in_order = none := by
        refine alookup_eq_none x _ ?_
        intro hmem
        have := hlk x hmem
        omega
      simp [RBT.get, h1, hl0, oalt, alookup]
    · have h1 : ¬ x < k := by omega
      have hkx : ¬ k = x := by omega
      have hl0 : alookup x l.in_order = none := by
        refine alookup_eq_none x _ ?_
        intro hmem
        have := hlk x hmem
        omega
      simp [RBT.get, h1, h, hl0, oalt, alookup, hkx, ihr hr]

theorem rbt_pre_order_length (t : RBT) :
    t.pre_order.length = t.in_order.length := by
  induction t with
  | nil => rfl
  | node k v c s l r ihl ihr =>
    simp only [RBT.pre_order, RBT.in_order, List.length_cons, List.length_append, ihl, ihr]
    omega

theorem rbt_post_order_length (t : RBT) :
    t.post_order.length = t.in_order.length := by
  induction t with
  | nil => rfl
  | node k v c s l r ihl ihr =>
    simp only [RBT.post_order, RBT.in_order, List.length_cons, List.length_append,
      List.length_nil, ihl, ihr]
    omega

theorem rbt_level_concat_length (t : RBT) :
    ∀ m : Nat, t.get_height ≤ m →
      ((List.range m).flatMap t.level_order).length = t.in_order.length := by
  induction t with
  | nil =>
    intro m hm
    have hz : ∀ (L : List Nat), (L.flatMap RBT.nil.level_order).length = 0 := by
      intro L
      induction L with
      | nil => rfl
      | cons a as ih =>
        have ha : RBT.nil.level_order a = [] := by cases a <;> rfl
        simp [List.flatMap_cons, ha, ih]
    simp [hz, RBT.in_order]
  | node k v c s l r ihl ihr =>
    intro m hm
    have heq : (RBT.node k v c s l r).get_height = 1 + max l.get_height r.get_height := rfl
    obtain ⟨m1, rfl⟩ : ∃ m1, m = m1 + 1 := ⟨m - 1, by omega⟩
    have hmax : max l.get_height r.get_height ≤ m1 := by omega
    have hl1 : l.get_height ≤ m1 := le_trans (le_max_left _ _) hmax
    have hr1 : r.get_height ≤ m1 := le_trans (le_max_right _ _) hmax
    rw [List.range_succ_eq_map, List.flatMap_cons, flatMap_map_nat]
    have hsucc : (fun x => (RBT.node k v c s l r).level_order (Nat.succ x)) =
        (fun lev => l.level_order lev ++ r.level_order lev) := funext fun lev => rfl
    rw [hsucc, List.length_append, flatMap_append_length, ihl m1 hl1, ihr m1 hr1]
    simp only [RBT.in_order, RBT.level_order, List.length_cons, List.length_append,
      List.length_nil]
    omega

theorem rbt_get_height_spec (t : RBT) (h : t ≠ .nil) :
    t.get_height = specLongestPathRBT t + 1 := by
  induction t with
  | nil => exact absurd rfl h
  | node k v c s l r ihl ihr =>
    cases l with
    | nil =>
      cases r with
      | nil => rfl
      | node rk rv rc rs rl rr =>
        have h2 := ihr (by simp)
        show 1 + max RBT.nil.get_height (RBT.node rk rv rc rs rl rr).get_height
            = (1 + specLongestPathRBT (RBT.node rk rv rc rs rl rr)) + 1
        rw [h2]
        simp only [RBT.get_height, Nat.zero_max]
        omega
    | node lk lv lc ls ll lr =>
      cases r with
      | nil =>
        have h1 := ihl (by simp)
        show 1 + max (RBT.node lk lv lc ls ll lr).get_height RBT.nil.get_height
            = (1 + specLongestPathRBT (RBT.node lk lv lc ls ll lr)) + 1
        rw [h1]
        simp only [RBT.get_height, Nat.max_zero]
        omega
      | node rk rv rc rs rl rr =>
        have h1 := ihl (by simp)
        have h2 := ihr (by simp)
        show 1 + max (RBT.node lk lv lc ls ll lr).get_height
            (RBT.node rk rv rc rs rl rr).get_height
            = (1 + Nat.max (specLongestPathRBT (RBT.node lk lv lc ls ll lr))
                (specLongestPathRBT (RBT.node rk rv rc rs rl rr))) + 1
        rw [h1, h2]
        simp only [Nat.max_def]
        split <;> split <;> omega

theorem rbt_foldl_io (l : List (Nat × Nat)) :
    ∀ t : RBT, (t.in_order.map Prod.fst).Pairwise (· < ·) →
      ((l.foldl (fun t kv => t.put kv.1 kv.2) t).in_order.map Prod.fst).Pairwise (· < ·)
      ∧ (l.foldl (fun t kv => t.put kv.1 kv.2) t).in_order
          = l.foldl (fun acc kv => listPut kv.1 kv.2 acc) t.in_order := by
  induction l with
  | nil => intro t ht; exact ⟨ht, rfl⟩
  | cons p rest ih =>
    intro t ht
    have hput := rbt_pairwise_put t p.1 p.2 ht
    obtain ⟨h1, h2⟩ := ih (t.put p.1 p.2) hput
    refine ⟨h1, ?_⟩
    simp only [List.foldl_cons] at *
    rw [h2, rbt_put_in_order t p.1 p.2 ht]

theorem rbt_ofList_in_order (l : List (Nat × Nat)) :
    (rbOfList l).in_order = listOfPuts l :=
  (rbt_foldl_io l RBT.new (by simp [RBT.new, RBT.in_order])).2

theorem rbt_ofList_pairwise (l : List (Nat × Nat)) :
    ((rbOfList l).in_order.map Prod.fst).Pairwise (· < ·) :=
  (rbt_foldl_io l RBT.new (by simp [RBT.new, RBT.in_order])).1

theorem rbt_get_put (t : RBT) (key val x : Nat)
    (hp : (t.in_order.map Prod.fst).Pairwise (· < ·)) :
    (t.put key val).get x =
      if key = x then some ((t.get key).getD val) else t.get x := by
  rw [rbt_get_eq_alookup _ _ (rbt_pairwise_put t key val hp),
    rbt_put_in_order t key val hp, alookup_listPut x key val _ hp,
    ← rbt_get_eq_alookup t key hp, ← rbt_get_eq_alookup t x hp]

theorem rbt_foldl_get (l : List (Nat × Nat)) (x : Nat) :
    ∀ t : RBT, (t.in_order.map Prod.fst).Pairwise (· < ·) →
      (l.foldl (fun t kv => t.put kv.1 kv.2) t).get x = oalt (t.get x) (alookup x l) := by
  induction l with
  | nil =>
    intro t ht
    cases h : t.get x <;> simp [alookup, oalt, h]
  | cons p rest ih =>
    intro t ht
    obtain ⟨k0, w0⟩ := p
    simp only [List.foldl_cons]
    rw [ih (t.put k0 w0) (rbt_pairwise_put t k0 w0 ht), rbt_get_put t k0 w0 x ht]
    by_cases h : k0 = x
    · subst h
      simp only [if_pos rfl, alookup]
      cases hg : t.get k0 <;> simp [oalt]
    · simp [alookup, h, oalt]

theorem rbt_ofList_get (l : List (Nat × Nat)) (x : Nat) :
    (rbOfList l).get x = alookup x l := by
  have h := rbt_foldl_get l x RBT.new (by simp [RBT.new, RBT.in_order])
  simpa [RBT.new, RBT.get, oalt] using h

theorem rbt_balance_ne_nil (k v : Nat) (c : Bool) (l r : RBT) :
    RBT.balance k v c l r ≠ .nil := by
  unfold RBT.balance
  obtain ⟨k1, v1, c1, l1, r1⟩ :=
    RBT.flipStep (RBT.rotateRightStep (RBT.rotateLeftStep (k, v, c, l, r)))
  simp [RBT.mkNode]

theorem rbt_put_ne_nil (t : RBT) (k v : Nat) : t.put k v ≠ .nil := by
  have hins : t.insert k v ≠ .nil := by
    cases t with
    | nil => simp [RBT.insert]
    | node k0 v0 c0 s0 l0 r0 =>
      simp only [RBT.insert]
      split
      · exact rbt_balance_ne_nil _ _ _ _ _
      · split
        · exact rbt_balance_ne_nil _ _ _ _ _
        · exact rbt_balance_ne_nil _ _ _ _ _
  rw [RBT.put]
  cases h : t.insert k v with
  | nil => exact absurd h hins
  | node k1 v1 c1 s1 l1 r1 => simp [RBT.set_color]

theorem bst_put_ne_nil (t : BST) (k v : Nat) : t.put k v ≠ .nil := by
  cases t with
  | nil => simp [BST.put]
  | node k0 v0 s0 l0 r0 =>
    simp only [BST.put]
    split
    · simp
    · split <;> simp

theorem bst_ofList_ne_nil (l : List (Nat × Nat)) (h : l ≠ []) :
    bstOfList l ≠ .nil := by
  have step : ∀ (rest : List (Nat × Nat)) (t : BST), t ≠ .nil →
      rest.foldl (fun t kv => t.put kv.1 kv.2) t ≠ .nil := by
    intro rest
    induction rest with
    | nil => intro t ht; exact ht
    | cons p r2 ih =>
      intro t ht
      exact ih (t.put p.1 p.2) (bst_put_ne_nil t p.1 p.2)
  cases l with
  | nil => exact absurd rfl h
  | cons p rest =>
    exact step rest (BST.new.put p.1 p.2) (bst_put_ne_nil BST.new p.1 p.2)

theorem rbt_ofList_ne_nil (l : List (Nat × Nat)) (h : l ≠ []) :
    rbOfList l ≠ .nil := by
  have step : ∀ (rest : List (Nat × Nat)) (t : RBT), t ≠ .nil →
      rest.foldl (fun t kv => t.put kv.1 kv.2) t ≠ .nil := by
    intro rest
    induction rest with
    | nil => intro t ht; exact ht
    | cons p r2 ih =>
      intro t ht
      exact ih (t.put p.1 p.2) (rbt_put_ne_nil t p.1 p.2)
  cases l with
  | nil => exact absurd rfl h
  | cons p rest =>
    exact step rest (RBT.new.put p.1 p.2) (rbt_put_ne_nil RBT.new p.1 p.2)

/-! ## Traversal, height, size and invert helpers -/

theorem bst_height_of_ne_nil (t : BST) (h : t ≠ .nil) :
    t.height = some (t.get_height - 1) ∧ 1 ≤ t.get_height := by
  cases t with
  | nil => exact absurd rfl h
  | node k v s l r =>
    have h1 : 1 ≤ (BST.node k v s l r).get_height := by
      show 1 ≤ 1 + max l.get_height r.get_height
      omega
    refine ⟨?_, h1⟩
    rw [BST.height]
    simp only [if_pos (by omega : 0 < (BST.node k v s l r).get_height)]

theorem rbt_height_of_ne_nil (t : RBT) (h : t ≠ .nil) :
    t.height = some (t.get_height - 1) ∧ 1 ≤ t.get_height := by
  cases t with
  | nil => exact absurd rfl h
  | node k v c s l r =>
    have h1 : 1 ≤ (RBT.node k v c s l r).get_height := by
      show 1 ≤ 1 + max l.get_height r.get_height
      omega
    refine ⟨?_, h1⟩
    rw [RBT.height]
    simp only [if_pos (by omega : 0 < (RBT.node k v c s l r).get_height)]

theorem bst_traverse_none_iff (t : BST) (ord : Traversals) :
    t.traverse ord = none ↔ (ord = .levelOrder ∧ t = .nil) := by
  cases ord with
  | preOrder => simp [BST.traverse]
  | inOrder => simp [BST.traverse]
  | postOrder => simp [BST.traverse]
  | levelOrder =>
    cases t with
    | nil => simp [BST.traverse, BST.height, BST.get_height]
    | node k v s l r =>
      have h1 : 0 < (BST.node k v s l r).get_height := by
        show 0 < 1 + max l.get_height r.get_height
        omega
      simp [BST.traverse, BST.height, h1]

theorem rbt_traverse_none_iff (t : RBT) (ord : Traversals) :
    t.traverse ord = none ↔ (ord = .levelOrder ∧ t = .nil) := by
  cases ord with
  | preOrder => simp [RBT.traverse]
  | inOrder => simp [RBT.traverse]
  | postOrder => simp [RBT.traverse]
  | levelOrder =>
    cases t with
    | nil => simp [RBT.traverse, RBT.height, RBT.get_height]
    | node k v c s l r =>
      have h1 : 0 < (RBT.node k v c s l r).get_height := by
        show 0 < 1 + max l.get_height r.get_height
        omega
      simp [RBT.traverse, RBT.height, h1]

theorem bst_ofList_size (l : List (Nat × Nat)) :
    (bstOfList l).size = (l.map Prod.fst).toFinset.card := by
  rw [bst_size_eq_length _ (bst_ofList_sizeOk l), bst_ofList_in_order, length_listOfPuts]

theorem bst_traverse_card (l : List (Nat × Nat)) (ord : Traversals) :
    (((bstOfList l).traverse ord).getD []).length = (l.map Prod.fst).toFinset.card := by
  have hio : (bstOfList l).in_order.length = (l.map Prod.fst).toFinset.card := by
    rw [bst_ofList_in_order, length_listOfPuts]
  cases ord with
  | preOrder =>
    simp only [BST.traverse, Option.getD_some]
    rw [bst_pre_order_length, hio]
  | inOrder =>
    simp only [BST.traverse, Option.getD_some]
    rw [hio]
  | postOrder =>
    simp only [BST.traverse, Option.getD_some]
    rw [bst_post_order_length, hio]
  | levelOrder =>
    cases ht : bstOfList l with
    | nil =>
      rw [ht] at hio
      simp only [BST.in_order, List.length_nil] at hio
      simp [BST.traverse, BST.height, BST.get_height, ← hio]
    | node k v s l2 r2 =>
      rw [← ht]
      have hne : bstOfList l ≠ .nil := by rw [ht]; simp
      obtain ⟨hh, hge⟩ := bst_height_of_ne_nil _ hne
      simp only [BST.traverse]
      rw [hh]
      simp only [Option.getD_some]
      have hcov : (bstOfList l).get_height ≤ (bstOfList l).get_height - 1 + 1 := by omega
      rw [bst_level_concat_length _ _ hcov, hio]

theorem rbt_traverse_card (l : List (Nat × Nat)) (ord : Traversals) :
    (((rbOfList l).traverse ord).getD []).length = (l.map Prod.fst).toFinset.card := by
  have hio : (rbOfList l).in_order.length = (l.map Prod.fst).toFinset.card := by
    rw [rbt_ofList_in_order, length_listOfPuts]
  cases ord with
  | preOrder =>
    simp only [RBT.traverse, Option.getD_some]
    rw [rbt_pre_order_length, hio]
  | inOrder =>
    simp only [RBT.traverse, Option.getD_some]
    rw [hio]
  | postOrder =>
    simp only [RBT.traverse, Option.getD_some]
    rw [rbt_post_order_length, hio]
  | levelOrder =>
    cases ht : rbOfList l with
    | nil =>
      rw [ht] at hio
      simp only [RBT.in_order, List.length_nil] at hio
      simp [RBT.traverse, RBT.height, RBT.get_height, ← hio]
    | node k v c s l2 r2 =>
      rw [← ht]
      have hne : rbOfList l ≠ .nil := by rw [ht]; simp
      obtain ⟨hh, hge⟩ := rbt_height_of_ne_nil _ hne
      simp only [RBT.traverse]
      rw [hh]
      simp only [Option.getD_some]
      have hcov : (rbOfList l).get_height ≤ (rbOfList l).get_height - 1 + 1 := by omega
      rw [rbt_level_concat_length _ _ hcov, hio]

theorem bt_put_size (m : BTree) (k v : Nat) : (m.put k v).size = m.size + 1 := by
  unfold BTree.put
  rcases BTree.insert m.root k v m.height with ⟨root, u⟩
  cases u <;> rfl

theorem bt_ofList_size (l : List (Nat × Nat)) : (btOfList l).size = l.length := by
  have step : ∀ (rest : List (Nat × Nat)) (m : BTree),
      (rest.foldl (fun t kv => t.put kv.1 kv.2) m).size = m.size + rest.length := by
    intro rest
    induction rest with
    | nil => intro m; simp
    | cons p r2 ih =>
      intro m
      simp only [List.foldl_cons, List.length_cons, ih (m.put p.1 p.2), bt_put_size]
      omega
  have h := step l BTree.new
  simpa [btOfList, BTree.new] using h

theorem bst_invert_invert (t : BST) : t.invert.invert = t := by
  induction t with
  | nil => rfl
  | node k v s l r ihl ihr => simp [BST.invert, ihl, ihr]

theorem bst_invert_size (t : BST) : t.invert.size = t.size := by
  cases t <;> rfl

theorem bst_invert_in_order (t : BST) : t.invert.in_order = t.in_order.reverse := by
  induction t with
  | nil => rfl
  | node k v s l r ihl ihr =>
    simp [BST.invert, BST.in_order, ihl, ihr, List.reverse_append]

/-! ## The five certified evaluation chunks of the 1000-key scenario -/

theorem putList_append (m : BTree) (l1 l2 : List (Nat × Nat)) :
    putList m (l1 ++ l2) = putList (putList m l1) l2 :=
  List.foldl_append _ _ _ _

set_option maxRecDepth 20000 in
theorem c7chunks :
    c7list = mkChunk 0 ++ (mkChunk 200 ++ (mkChunk 400 ++ (mkChunk 600 ++ mkChunk 800))) := by
  rfl

set_option maxRecDepth 200000 in
theorem c7step1 : putList BTree.new (mkChunk 0) = c7m1 := by rfl

set_option maxRecDepth 200000 in
theorem c7step2 : putList c7m1 (mkChunk 200) = c7m2 := by rfl

set_option maxRecDepth 200000 in
theorem c7step3 : putList c7m2 (mkChunk 400) = c7m3 := by rfl

set_option maxRecDepth 200000 in
theorem c7step4 : putList c7m3 (mkChunk 600) = c7m4 := by rfl

set_option maxRecDepth 200000 in
theorem c7step5 : putList c7m4 (mkChunk 800) = c7m5 := by rfl

theorem c7tree : btOfList c7list = c7m5 := by
  show putList BTree.new c7list = c7m5
  rw [c7chunks, putList_append, c7step1, putList_append, c7step2, putList_append,
    c7step3, putList_append, c7step4, c7step5]

/-! # Per-claim results -/

/-- C1: the spec claims that every red-black tree state reachable from
`new()` by `put` operations has the same number of black links on every
root-to-null path and no node with two red children.  The code
violates the black-balance half: after puts of keys 1, 3, 2 the tree
is the black chain 3-2 with a red 1 below, and `blackHeight` (which is
`some _` exactly when all root-to-null paths carry equally many black
links) yields `none` on it.  The cause is the rotate-left block of
`insert` taking the new subtree root's color from its right grandchild
instead of from the old subtree root, so the red flag that should
trigger the parent's rotation is lost. -/
theorem claim_C1_black_balance_broken :
    blackHeight (rbOfList [(1, 1), (3, 3), (2, 2)]) = none := by
  rfl

/-- C2 counterexample: the multiway tree counts duplicate puts (two
puts of key 1 give `size() = 2` though only one distinct key was
inserted), and the red-black tree's cached size can drift from the
actual entry count (after puts 1, 3, 2, 4 it reports 2 for a tree
whose in-order traversal holds 4 pairs). -/
theorem claim_C2_counterexample :
    (btOfList [(1, 1), (1, 2)]).size = 2
    ∧ (([(1, 1), (1, 2)] : List (Nat × Nat)).map Prod.fst).toFinset.card = 1
    ∧ (rbOfList [(1, 1), (3, 3), (2, 2), (4, 4)]).size = 2
    ∧ (rbOfList [(1, 1), (3, 3), (2, 2), (4, 4)]).in_order.length = 4 := by
  refine ⟨rfl, by decide, rfl, rfl⟩

/-- C2, amended: for every put sequence, the unbalanced tree's `size()`
equals the number of distinct keys inserted, and every traversal of
the unbalanced and red-black trees that returns yields exactly that
many pairs (an empty level-order traversal result stands for the
`height().unwrap()` panic on the empty tree, cf. C5); the multiway
tree's `size()` instead equals the total number of `put` calls, and
the red-black tree's cached `size()` is not in general the entry
count (see the counterexample). -/
theorem claim_C2_count_invariant (l : List (Nat × Nat)) :
    (bstOfList l).size = (l.map Prod.fst).toFinset.card
    ∧ (∀ ord : Traversals, (((bstOfList l).traverse ord).getD []).length
        = (l.map Prod.fst).toFinset.card)
    ∧ (∀ ord : Traversals, (((rbOfList l).traverse ord).getD []).length
        = (l.map Prod.fst).toFinset.card)
    ∧ (btOfList l).size = l.length :=
  ⟨bst_ofList_size l, fun ord => bst_traverse_card l ord,
    fun ord => rbt_traverse_card l ord, bt_ofList_size l⟩

/-- C3 counterexample: in the multiway tree a duplicate key is stored
as a second entry *after* the original, and a later split can route
`get` to the leaf holding the newer entry: after puts
(1,10), (2,20), (2,99), (3,30) the lookup of key 2 returns 99 although
the first put under 2 carried 20. -/
theorem claim_C3_counterexample :
    (btOfList [(1, 10), (2, 20), (2, 99), (3, 30)]).get 2 = some 99
    ∧ alookup 2 [(1, 10), (2, 20), (2, 99), (3, 30)] = some 20 :=
  ⟨rfl, rfl⟩

/-- C3, amended: for the unbalanced and red-black trees, `get k` after
any put sequence returns exactly the value of the first put under `k`
(`alookup`), so later puts with the same key never overwrite; the
multiway tree does not satisfy this (see the counterexample). -/
theorem claim_C3_first_put_lookup (l : List (Nat × Nat)) (k : Nat) :
    (bstOfList l).get k = alookup k l ∧ (rbOfList l).get k = alookup k l :=
  ⟨bst_ofList_get l k, rbt_ofList_get l k⟩

/-- C4 counterexample (spec-modelled in-order for the multiway tree,
which implements no traversal): after putting key 1 twice the leaf
holds two entries with key 1, so the in-order key sequence [1, 1] is
not strictly increasing. -/
theorem claim_C4_counterexample :
    ¬ ((btInOrderKeys (btOfList [(1, 1), (1, 2)]).root
        (btOfList [(1, 1), (1, 2)]).height).Pairwise (· < ·)) := by
  decide

/-- C4, amended: for every insertion sequence, the in-order traversals
of the unbalanced and of the red-black tree yield keys in strictly
increasing order; the multiway tree has no in-order traversal in the
source, and its spec-modelled one can repeat keys (counterexample). -/
theorem claim_C4_in_order_sorted (l : List (Nat × Nat)) :
    ((bstOfList l).in_order.map Prod.fst).Pairwise (· < ·)
    ∧ ((rbOfList l).in_order.map Prod.fst).Pairwise (· < ·) :=
  ⟨bst_ofList_pairwise l, rbt_ofList_pairwise l⟩

/-- C5 counterexample: `traverse(LevelOrder)` on an empty unbalanced
tree runs `self.height().unwrap()` with `height() = None` and panics
(`none` in the model), so it is a second fatal operation besides
indexed access. -/
theorem claim_C5_counterexample : BST.new.traverse .levelOrder = none := by
  rfl

/-- C5, amended: the panicking operations are exactly indexed access
on an absent key (for the unbalanced and multiway trees) and
level-order `traverse` on an *empty* unbalanced or red-black tree;
every other listed operation, and traverse in the other three orders,
returns normally on every input. -/
theorem claim_C5_panic_characterisation :
    (∀ (t : BST) (ord : Traversals), t.traverse ord = none ↔ (ord = .levelOrder ∧ t = .nil))
    ∧ (∀ (t : RBT) (ord : Traversals), t.traverse ord = none ↔ (ord = .levelOrder ∧ t = .nil))
    ∧ (∀ (t : BST) (k : Nat), t.index k = none ↔ t.get k = none)
    ∧ (∀ (m : BTree) (k : Nat), m.index k = none ↔ m.get k = none) :=
  ⟨bst_traverse_none_iff, rbt_traverse_none_iff,
    fun t k => Iff.rfl, fun m k => Iff.rfl⟩

/-- C6: `height()` is `None` on the empty unbalanced and red-black
trees, `Some 0` on the empty multiway tree, and on any nonempty
unbalanced or red-black tree it is the edge count of the longest
root-to-leaf path (`specLongestPathBST`/`specLongestPathRBT`, 0 for a
single node). -/
theorem claim_C6_height_contract :
    BST.new.height = none
    ∧ RBT.new.height = none
    ∧ BTree.new.heightOpt = some 0
    ∧ (∀ t : BST, t ≠ .nil → t.height = some (specLongestPathBST t))
    ∧ (∀ t : RBT, t ≠ .nil → t.height = some (specLongestPathRBT t)) := by
  refine ⟨rfl, rfl, rfl, ?_, ?_⟩
  · intro t ht
    obtain ⟨hh, hge⟩ := bst_height_of_ne_nil t ht
    rw [hh, bst_get_height_spec t ht]
    simp
  · intro t ht
    obtain ⟨hh, hge⟩ := rbt_height_of_ne_nil t ht
    rw [hh, rbt_get_height_spec t ht]
    simp

/-- Witness for C6 at a concrete single-node input. -/
theorem claim_C6_height_contract_witness :
    BST.height (.node 5 5 1 .nil .nil) = some (specLongestPathBST (.node 5 5 1 .nil .nil))
    ∧ RBT.height (.node 5 5 false 1 .nil .nil)
        = some (specLongestPathRBT (.node 5 5 false 1 .nil .nil)) :=
  ⟨claim_C6_height_contract.2.2.2.1 _ (by decide),
    claim_C6_height_contract.2.2.2.2 _ (by decide)⟩

/-- C7: inserting ascending keys 1..=1000 with value key+1 into a
fresh multiway tree yields size 1000, height 8, min 1, max 1000 and
`get(501) = 502`. -/
theorem claim_C7_btree_scenario :
    (btOfList c7list).size = 1000
    ∧ (btOfList c7list).heightOpt = some 8
    ∧ (btOfList c7list).min = some 1
    ∧ (btOfList c7list).max = some 1000
    ∧ (btOfList c7list).get 501 = some 502 := by
  rw [c7tree]
  refine ⟨rfl, rfl, rfl, ?_, rfl⟩
  simp [BTree.max, c7m5, BTree.lastMax, BTree.entryMax]

/-- C8: inserting the nine keys a..i in ascending order (modelled as
1..9) with values 1..9 into a fresh red-black tree yields size 9,
height 3 and the pre-order key sequence d b a c h f e g i
(4 2 1 3 8 6 5 7 9). -/
theorem claim_C8_rbtree_scenario :
    (rbOfList ((List.range 9).map (fun i => (i + 1, i + 1)))).size = 9
    ∧ (rbOfList ((List.range 9).map (fun i => (i + 1, i + 1)))).height = some 3
    ∧ ((rbOfList ((List.range 9).map (fun i => (i + 1, i + 1)))).pre_order.map Prod.fst)
        = [4, 2, 1, 3, 8, 6, 5, 7, 9] :=
  ⟨rfl, rfl, rfl⟩

/-- C9: every state of the unbalanced tree reachable from `new()` by
put operations has correct cached sizes: each populated node's `size`
field is 1 plus the cached sizes of its children. -/
theorem claim_C9_cached_sizes (l : List (Nat × Nat)) : SizeOk (bstOfList l) :=
  bst_ofList_sizeOk l

/-- C10 counterexample: a single `invert()` breaks `get`: in the tree
built by puts (2,20), (1,10) the key 1 is present with value 10, but
after inverting, `get 1` descends left at the root (1 < 2) into what
is now an empty subtree and returns `None`. -/
theorem claim_C10_counterexample :
    (bstOfList [(2, 20), (1, 10)]).get 1 = some 10
    ∧ (bstOfList [(2, 20), (1, 10)]).invert.get 1 = none :=
  ⟨rfl, rfl⟩

/-- C10, amended: `invert` is an involution and preserves `size()` and
the key-value multiset (the in-order sequence of the inverted tree is
exactly the reverse of the original), but it does not preserve `get`
(see the counterexample). -/
theorem claim_C10_invert (t : BST) :
    t.invert.invert = t
    ∧ t.invert.size = t.size
    ∧ t.invert.in_order = t.in_order.reverse :=
  ⟨bst_invert_invert t, bst_invert_size t, bst_invert_in_order t⟩

end Treers
